import Mathlib

/-!
# idp-api: a façade in front of an identity-provider admin API

A shallow embedding of `apierror/api.go`, `idp_api_client.go` and `controller.go`.

* Everything a handler can observe or change while it serves one inbound request is
  collected in `St`: the inbound response writer, the outbound exchanges with the
  identity provider (in the order they were issued), and the log records.
* The identity provider is an `Upstream`: it answers a request knowing every earlier
  exchange of the run.
* Functions of the Go standard library and of third-party packages whose result
  depends on text processing (`fmt.Sprintf` on configured formats, `http.NewRequest`,
  `encoding/json`, `gojsonq`, `mapstructure`, `url.Values.Encode`) are the fields of
  `GoLib`; every function of the program takes the library as its first argument.
* A Go `panic` is the third constructor of `Res`.
-/

namespace IdpApi

/-! ## Values exchanged with the libraries -/

/-- JSON documents as the Go decoders present them: `nil`, `bool`, `float64`
(kept as its literal), `string`, `[]interface{}` and `map[string]interface{}`. -/
inductive Json where
  | null
  | bool (b : Bool)
  | num (literal : String)
  | str (s : String)
  | arr (items : List Json)
  | obj (fields : List (String × Json))

/-- Lookup of a key in a decoded JSON object. -/
def Json.field? : List (String × Json) → String → Option Json
  | [], _ => none
  | (k, v) :: rest, key => if k = key then some v else Json.field? rest key

/-- A Go `[]string`; `none` is the nil slice. -/
def Json.ofStrings : Option (List String) → Json
  | none => .null
  | some xs => .arr (xs.map Json.str)

/-- The type `url.Values`, a `map[string][]string`, as an association list. -/
abbrev Values := List (String × List String)

/-- The map read `v[key]` together with its presence flag. -/
def Values.get? : Values → String → Option (List String)
  | [], _ => none
  | (k, x) :: rest, key => if k = key then some x else Values.get? rest key

/-- The map write `v[key] = x`. -/
def Values.set (v : Values) (key : String) (x : List String) : Values :=
  match Values.get? v key with
  | some _ => v.map (fun e => if e.1 = key then (key, x) else e)
  | none => v ++ [(key, x)]

/-! ## Package `apierror` -/

/-- The struct `ApiError` of `apierror/api.go`. -/
structure ApiError where
  Code : String
  Message : String
deriving DecidableEq, Repr

/-- The JSON object `json.Marshal` builds for an `ApiError` from its field tags. -/
def ApiError.toJson (e : ApiError) : Json :=
  .obj [("code", .str e.Code), ("message", .str e.Message)]

/-- A Go `error` value: a `*apierror.ApiError`, or any other error, kept as the text
its `Error()` method returns. -/
inductive GoError where
  | api (e : ApiError)
  | other (text : String)
deriving DecidableEq, Repr

/-- Result of a Go function with an `error` result: a value, an error, or a panic. -/
inductive Res (α : Type) where
  | ok (a : α)
  | err (e : GoError)
  | panic (msg : String)
deriving DecidableEq, Repr

def NotFoundError : GoError := .api { Code := "1000", Message := "Endpoint Not Found" }

def NotImplementedError : GoError :=
  .api { Code := "1001", Message := "Api endpoint exists but is not yet implemented" }

def InvalidIDError : GoError := .api { Code := "1002", Message := "Invalid object ID" }

def InvalidRequestPayload : GoError :=
  .api { Code := "1003", Message := "Invalid Request payload" }

def QueryParamMissing : GoError :=
  .api { Code := "1004", Message := "Query param specified but value missing" }

def ParamStartBadValue : GoError :=
  .api { Code := "1005", Message := "Query param start must be positive integer" }

def ParamCountBadValue : GoError :=
  .api { Code := "1006", Message := "Query param count must be positive integer" }

def MissingRequiredFieldsPayload : GoError :=
  .api { Code := "1007", Message := "Missing required fields" }

def InvalidBasicAuthHeaders : GoError :=
  .api { Code := "1008", Message := "Invalid basic auth headers" }

def BadClientSecret : GoError := .api { Code := "1009", Message := "Bad client secret" }

def InternalServerError : GoError :=
  .api { Code := "1010", Message := "InternalServerError" }

/-! ## Data model of package `main` -/

/-- The struct `Token`. -/
structure Token where
  Value : String
deriving DecidableEq, Repr

/-- The struct `ClientSecret`. -/
structure ClientSecret where
  Value : String
deriving DecidableEq, Repr

/-- The struct `User`. -/
structure User where
  Username : String
  Enabled : Bool
deriving DecidableEq, Repr

/-- The struct `UserSecret`; its field `Type` is `Type_` here. -/
structure UserSecret where
  Type_ : String
  Value : String
  Temporary : Bool
deriving DecidableEq, Repr

/-- The struct `ClientOut`. -/
structure ClientOut where
  ID : String
  ClientID : String
  PublicClient : Bool
  DirectAccessGrantsEnabled : Bool
  ServiceAccountsEnabled : Bool
  StandardFlowEnabled : Bool
  ImplicitFlowEnabled : Bool
deriving DecidableEq, Repr

/-- The struct `Client`; a nil slice is `none`. -/
structure Client where
  ClientID : String
  PublicClient : Bool
  RedirectUris : Option (List String)
  RootUrl : String
  WebOrigins : Option (List String)
  AdminUrl : String
  DirectAccessGrantsEnabled : Bool
  ServiceAccountsEnabled : Bool
  StandardFlowEnabled : Bool
  ImplicitFlowEnabled : Bool
  Description : String
deriving DecidableEq, Repr

/-- The struct `ClientWithSecret`. -/
structure ClientWithSecret where
  ClientID : String
  PublicClient : Bool
  DirectAccessGrantsEnabled : Bool
  ServiceAccountsEnabled : Bool
  StandardFlowEnabled : Bool
  ImplicitFlowEnabled : Bool
  Secret : String
deriving DecidableEq, Repr

/-- The string fields of the struct `Config` of `app.go`; its `HTTPClient` field is
passed to the handlers as a separate argument. -/
structure Config where
  IdpURL : String
  ClientID : String
  ClientSecret : String
  ApiClientID : String
  ApiClientSecret : String
  IdpAdmin : String
  IdpPass : String
  IdpRealm : String
  CheckURI : String
  ClientsURI : String
  ClientURI : String
  ClientSecretURI : String
  TokenURI : String
  UsersURI : String
  UserURI : String
  UserPasswordURI : String
deriving DecidableEq, Repr

def ClientSecret.toJson (c : ClientSecret) : Json := .obj [("value", .str c.Value)]

def User.toJson (u : User) : Json :=
  .obj [("username", .str u.Username), ("enabled", .bool u.Enabled)]

def UserSecret.toJson (u : UserSecret) : Json :=
  .obj [("type", .str u.Type_), ("value", .str u.Value), ("temporary", .bool u.Temporary)]

def Client.toJson (c : Client) : Json :=
  .obj [("clientId", .str c.ClientID), ("publicClient", .bool c.PublicClient),
    ("redirectUris", Json.ofStrings c.RedirectUris), ("rootUrl", .str c.RootUrl),
    ("webOrigins", Json.ofStrings c.WebOrigins), ("adminUrl", .str c.AdminUrl),
    ("directAccessGrantsEnabled", .bool c.DirectAccessGrantsEnabled),
    ("serviceAccountsEnabled", .bool c.ServiceAccountsEnabled),
    ("standardFlowEnabled", .bool c.StandardFlowEnabled),
    ("implicitFlowEnabled", .bool c.ImplicitFlowEnabled),
    ("description", .str c.Description)]

def ClientWithSecret.toJson (c : ClientWithSecret) : Json :=
  .obj [("clientId", .str c.ClientID), ("publicClient", .bool c.PublicClient),
    ("directAccessGrantsEnabled", .bool c.DirectAccessGrantsEnabled),
    ("serviceAccountsEnabled", .bool c.ServiceAccountsEnabled),
    ("standardFlowEnabled", .bool c.StandardFlowEnabled),
    ("implicitFlowEnabled", .bool c.ImplicitFlowEnabled),
    ("clientSecret", .str c.Secret)]

/-! ## The library boundary -/

/-- The library functions the program calls on text.

* `Sprintf format args` is `fmt.Sprintf` on a configured format;
* `NewRequest method url` is the error of `http.NewRequest`, if any;
* `Encode` is `url.Values.Encode`;
* `jsonMarshal` serialises the JSON object of a struct;
* `unmarshalToken`, `unmarshalClientSecret` are `json.Unmarshal` into the struct,
  `decodeClient`, `decodeClientWithSecret` are `json.NewDecoder(..).Decode`;
* `jqFromString` is `gojsonq.New().FromString`: the decoded content, or the text of
  `jq.Error()`;
* `jqFirst root node key val` is `From(node).Where(key, "=", val).First()`;
* `jqOnly root node key val prop` is `From(node).Where(key, "=", val).Only(prop)`
  paired with the texts of `jq.Errors()` afterwards, oldest first;
* `mapstructureDecode data out` is the struct left by `mapstructure.Decode(data, out)`;
* `validatorErrorText fields` is the text of the error `validator.Validate` returns
  when the listed fields violate their `validate` tag. -/
structure GoLib where
  Sprintf : String → List String → String
  NewRequest : String → String → Option String
  Encode : Values → String
  jsonMarshal : Json → String
  unmarshalToken : String → Except String Token
  unmarshalClientSecret : String → Except String ClientSecret
  decodeClient : String → Except String Client
  decodeClientWithSecret : String → Except String ClientWithSecret
  jqFromString : String → Except String Json
  jqFirst : Json → String → String → String → Json
  jqOnly : Json → String → String → String → String → Json × List String
  mapstructureDecode : Json → ClientOut → ClientOut
  validatorErrorText : List String → String

/-- The method `Error()`: an `ApiError` renders as its JSON object. -/
def GoError.Error (L : GoLib) : GoError → String
  | .api e => L.jsonMarshal e.toJson
  | .other text => text

/-! ## The world of one inbound request -/

/-- An outbound request as handed to `BaseClient.Do`. -/
structure HttpRequest where
  Method : String
  URL : String
  Header : List (String × String)
  Body : String
deriving DecidableEq, Repr

/-- What `BaseClient.Do` followed by `ioutil.ReadAll` yields. -/
inductive Reply where
  | doError (text : String)
  | readError (status : Nat) (text : String)
  | response (status : Nat) (body : String)
deriving DecidableEq, Repr

/-- One outbound exchange: the request issued and what came back. -/
abbrev Exchange := HttpRequest × Reply

/-- The identity provider: its answer may depend on every earlier exchange. -/
abbrev Upstream := List Exchange → HttpRequest → Reply

/-- An operand of a log call. -/
inductive LogArg where
  | str (s : String)
  | int (n : Nat)
  | url (raw : String)
  | values (v : Values)
  | nil
deriving DecidableEq, Repr

/-- A record written by `logger.Println`, `logger.Printf` or the standard
`log.Println`, kept as the call's format and operands. -/
inductive LogRecord where
  | println (args : List LogArg)
  | printf (format : String) (args : List LogArg)
  | stdPrintln (args : List LogArg)
deriving DecidableEq, Repr

/-- The inbound response writer (`httptest.ResponseRecorder`). -/
structure ResponseRecorder where
  Code : Nat
  wroteHeader : Bool
  HeaderMap : List (String × String)
  Body : String
deriving DecidableEq, Repr

/-- The struct `httptest.NewRecorder()` returns. -/
def NewRecorder : ResponseRecorder :=
  { Code := 200, wroteHeader := false, HeaderMap := [], Body := "" }

def ResponseRecorder.SetHeader (w : ResponseRecorder) (k v : String) : ResponseRecorder :=
  { w with HeaderMap := (w.HeaderMap.filter (fun e => e.1 ≠ k)) ++ [(k, v)] }

/-- The first `WriteHeader` fixes the status; later ones are ignored. -/
def ResponseRecorder.WriteHeader (w : ResponseRecorder) (code : Nat) : ResponseRecorder :=
  if w.wroteHeader then w else { w with Code := code, wroteHeader := true }

/-- A write sends the header with status 200 first if none was sent. -/
def ResponseRecorder.Write (w : ResponseRecorder) (data : String) : ResponseRecorder :=
  let w1 := w.WriteHeader 200
  { w1 with Body := w1.Body ++ data }

/-- The function `http.Error`. -/
def ResponseRecorder.Error (w : ResponseRecorder) (error : String) (code : Nat) :
    ResponseRecorder :=
  let w1 := w.SetHeader "Content-Type" "text/plain; charset=utf-8"
  let w2 := w1.SetHeader "X-Content-Type-Options" "nosniff"
  let w3 := w2.WriteHeader code
  w3.Write (error ++ "\n")

/-- Everything one inbound request can observe or change. -/
structure St where
  w : ResponseRecorder
  calls : List Exchange
  log : List LogRecord
  panicked : Option String
deriving DecidableEq, Repr

/-- The state in which a handler starts: nothing written, nothing issued. -/
def St.fresh : St := { w := NewRecorder, calls := [], log := [], panicked := none }

def St.Println (s : St) (args : List LogArg) : St :=
  { s with log := s.log ++ [.println args] }

def St.Printf (s : St) (format : String) (args : List LogArg) : St :=
  { s with log := s.log ++ [.printf format args] }

def St.StdPrintln (s : St) (args : List LogArg) : St :=
  { s with log := s.log ++ [.stdPrintln args] }

def St.httpError (s : St) (error : String) (code : Nat) : St :=
  { s with w := s.w.Error error code }

/-- An inbound request: the outcome of `r.BasicAuth()` and of reading `r.Body`. -/
structure Request where
  BasicAuth : Option (String × String)
  Body : Except String String

/-! ## `idp_api_client.go` -/

/-- The method `APIClient.doRequest`. -/
def doRequest (up : Upstream) (req : HttpRequest) (s : St) : St × Res String :=
  let reply := up s.calls req
  let s1 : St := { s with calls := s.calls ++ [(req, reply)] }
  match reply with
  | .doError e => (s1, .err (.other e))
  | .readError _ e => (s1, .err (.other e))
  | .response status body =>
    if 200 ≠ status ∧ 201 ≠ status ∧ 204 ≠ status then
      let s2 := s1.Printf "Response code from URL: %s is %d" [.url req.URL, .int status]
      let s3 := s2.Printf body []
      (s3, .err (.other body))
    else
      (s1, .ok body)

/-- The type `AuthBodyGetter`: the grant bodies, in the order to try them, and the
token URL. -/
abbrev AuthBodyGetter := Config → Request → St → St × Res (List Values × String)

/-- The map `authClientCredentialAdminBody` of `getAdminAuthBody`. -/
def authClientCredentialAdminBody (config : Config) : Values :=
  [("username", [config.IdpAdmin]), ("password", [config.IdpPass]),
    ("grant_type", ["password"]), ("client_id", [config.ApiClientID]),
    ("client_secret", [config.ApiClientSecret])]

/-- The function `getAdminAuthBody`. -/
def getAdminAuthBody (L : GoLib) : AuthBodyGetter := fun config _ s =>
  let authBody := [authClientCredentialAdminBody config]
  let authUrl := L.Sprintf config.TokenURI [config.IdpURL, "master"]
  (s, .ok (authBody, authUrl))

/-- The map `authResourceOwnerBody` of `getAuthBodyFromBasicAuth`. -/
def authResourceOwnerBody (config : Config) (username password : String) : Values :=
  [("username", [username]), ("password", [password]), ("grant_type", ["password"]),
    ("client_id", [config.ClientID]), ("client_secret", [config.ClientSecret])]

/-- The map `authClientBody` of `getAuthBodyFromBasicAuth`. -/
def authClientBody (username password : String) : Values :=
  [("grant_type", ["client_credentials"]), ("client_id", [username]),
    ("client_secret", [password])]

/-- The function `getAuthBodyFromBasicAuth`. -/
def getAuthBodyFromBasicAuth (L : GoLib) : AuthBodyGetter := fun config r s =>
  match r.BasicAuth with
  | none =>
    let authHedErr := InvalidBasicAuthHeaders
    let s1 := s.Println [.str (authHedErr.Error L)]
    (s1.httpError (authHedErr.Error L) 401, .err authHedErr)
  | some (username, password) =>
    let authBody := [authResourceOwnerBody config username password,
      authClientBody username password]
    let authUrl := L.Sprintf config.TokenURI [config.IdpURL, config.IdpRealm]
    (s, .ok (authBody, authUrl))

/-- The two masking statements of `authenticate`: a present `password` and a present
`client_secret` are overwritten with the placeholder. -/
def redact (authBodyItem : Values) : Values :=
  let b1 :=
    match Values.get? authBodyItem "password" with
    | some _ => Values.set authBodyItem "password" ["xxx"]
    | none => authBodyItem
  match Values.get? b1 "client_secret" with
  | some _ => Values.set b1 "client_secret" ["xxx"]
  | none => b1

/-- The choice of `authEntity` in `authenticate`; indexing an empty or missing slice
panics. -/
def authEntityOf (authBodyItem : Values) : Res String :=
  match Values.get? authBodyItem "username" with
  | some (v :: _) => .ok v
  | some [] => .panic "index out of range"
  | none =>
    match Values.get? authBodyItem "client_id" with
    | some (v :: _) => .ok v
    | _ => .panic "index out of range"

/-- The token request `authenticate` builds for one grant body. -/
def tokenRequest (L : GoLib) (url : String) (authBodyItem : Values) : HttpRequest :=
  { Method := "POST", URL := url,
    Header := [("Content-Type", "application/x-www-form-urlencoded")],
    Body := L.Encode authBodyItem }

/-- How the loop of `authenticate` is left. -/
inductive LoopExit where
  | returned (e : GoError)
  | panicked (msg : String)
  | done (tokenBody : String) (authErr : Option GoError) (authEntity : String)
deriving DecidableEq, Repr

/-- The loop of `authenticate` over the grant bodies; `tokenBody` and `authErr` are
the values the variables hold when the remaining bodies are entered. -/
def authLoop (L : GoLib) (up : Upstream) (url : String) :
    List Values → String → Option GoError → St → St × LoopExit
  | [], tokenBody, authErr, s => (s, .done tokenBody authErr "")
  | authBodyItem :: rest, _, _, s =>
    let s1 := s.Println [.str url]
    match L.NewRequest "POST" url with
    | some e =>
      let s2 := s1.Println [.str e]
      (s2.httpError e 401, .returned (.other e))
    | none =>
      match doRequest up (tokenRequest L url authBodyItem) s1 with
      | (s2, .panic m) => (s2, .panicked m)
      | (s2, .err authErr) =>
        let s3 := s2.Printf "Failed auth attempt %s" [.values (redact authBodyItem)]
        authLoop L up url rest "" (some authErr) s3
      | (s2, .ok tokenBody) =>
        let s3 := s2.Printf "Successful auth %s" [.values (redact authBodyItem)]
        match authEntityOf (redact authBodyItem) with
        | .ok authEntity => (s3, .done tokenBody none authEntity)
        | .err e => (s3, .returned e)
        | .panic m => (s3, .panicked m)

/-- The method `APIClient.authenticate`: the token and the identity label. -/
def authenticate (L : GoLib) (up : Upstream) (config : Config) (r : Request)
    (f : AuthBodyGetter) (s : St) : St × Res (String × String) :=
  match f config r s with
  | (s1, .panic m) => (s1, .panic m)
  | (s1, .err e) => (s1, .err e)
  | (s1, .ok (authBody, url)) =>
    match authLoop L up url authBody "" none s1 with
    | (s2, .panicked m) => (s2, .panic m)
    | (s2, .returned e) => (s2, .err e)
    | (s2, .done _ (some authErr) _) =>
      let s3 := s2.Printf "Failed all auth attempts %s" [.str (authErr.Error L)]
      let errStr := authErr.Error L
      let inverr : ApiError := { Code := "10000", Message := errStr }
      (s3.httpError ((GoError.api inverr).Error L) 401, .err authErr)
    | (s2, .done tokenBody none authEntity) =>
      match L.unmarshalToken tokenBody with
      | .error uerr =>
        let s3 := s2.Println [.str uerr]
        (s3.httpError uerr 500, .err (.other uerr))
      | .ok token => (s2, .ok (token.Value, authEntity))

/-- The header value `fmt.Sprintf("Bearer %s", token)`. -/
def bearer (token : String) : String := "Bearer " ++ token

/-- The document `fmt.Sprintf` builds around a collection response before it is
handed to gojsonq. -/
def addRoot (resp : String) : String := "\x7b\"root\": " ++ resp ++ "\x7d"

/-- The text `fmt.Sprintf("... %s", jq.Errors())` puts in place of the error list. -/
def errorsText (errs : List String) : String := "[" ++ " ".intercalate errs ++ "]"

/-- The method `APIClient.createClient`. -/
def createClient (L : GoLib) (up : Upstream) (config : Config) (token : String)
    (client : Client) (s : St) : St × Res Unit :=
  let url := L.Sprintf config.ClientsURI [config.IdpURL, config.IdpRealm]
  let byteArr := L.jsonMarshal client.toJson
  match L.NewRequest "POST" url with
  | some e => ((s.Println [.str e]).httpError e 500, .err (.other e))
  | none =>
    let req : HttpRequest :=
      { Method := "POST", URL := url,
        Header := [("Content-Type", "application/json"), ("Authorization", bearer token)],
        Body := byteArr }
    match doRequest up req s with
    | (s1, .panic m) => (s1, .panic m)
    | (s1, .err err) =>
      let s2 := s1.Println [.str (err.Error L)]
      let errStr := err.Error L
      let inverr : ApiError := { Code := "10000", Message := errStr }
      (s2.httpError ((GoError.api inverr).Error L) 500, .err (.api inverr))
    | (s1, .ok _) => (s1, .ok ())

/-- The method `APIClient.getClientID`. The result of the gojsonq query is dropped
and `clientStruct` keeps its zero value. -/
def getClientID (L : GoLib) (up : Upstream) (config : Config) (token : String)
    (client : ClientWithSecret) (s : St) : St × Res String :=
  let url := L.Sprintf config.ClientsURI [config.IdpURL, config.IdpRealm]
  let byteArr := L.jsonMarshal client.toJson
  match L.NewRequest "GET" url with
  | some e => ((s.Println [.str e]).httpError e 500, .err (.other e))
  | none =>
    let req : HttpRequest :=
      { Method := "GET", URL := url,
        Header := [("Authorization", bearer token), ("Content-Type", "application/json")],
        Body := byteArr }
    match doRequest up req s with
    | (s1, .panic m) => (s1, .panic m)
    | (s1, .err err) =>
      let s2 := s1.Println [.str (err.Error L)]
      let errStr := err.Error L
      let inverr : ApiError := { Code := "10000", Message := errStr }
      (s2.httpError ((GoError.api inverr).Error L) 500, .err (.api inverr))
    | (s1, .ok resp) =>
      let clientStructID := ""
      match L.jqFromString (addRoot resp) with
      | .error e =>
        let msg := "Parsing response to jq failed, " ++ errorsText [e]
        let s2 := s1.StdPrintln [.str msg]
        (s2.httpError msg 500, .err (.other e))
      | .ok root =>
        let _unused := L.jqOnly root "root" "clientId" client.ClientID "id"
        let s2 := s1.Printf "Client %s id is %s" [.str client.ClientID, .str clientStructID]
        (s2, .ok clientStructID)

/-- The zero value `&ClientOut{}`. -/
def ClientOut.zero : ClientOut :=
  { ID := "", ClientID := "", PublicClient := false, DirectAccessGrantsEnabled := false,
    ServiceAccountsEnabled := false, StandardFlowEnabled := false,
    ImplicitFlowEnabled := false }

/-- The method `APIClient.getClient`. -/
def getClient (L : GoLib) (up : Upstream) (config : Config) (token : String)
    (client : Client) (s : St) : St × Res ClientOut :=
  let url := L.Sprintf config.ClientsURI [config.IdpURL, config.IdpRealm]
  let byteArr := L.jsonMarshal client.toJson
  match L.NewRequest "GET" url with
  | some e => ((s.Println [.str e]).httpError e 500, .err (.other e))
  | none =>
    let req : HttpRequest :=
      { Method := "GET", URL := url,
        Header := [("Authorization", bearer token), ("Content-Type", "application/json")],
        Body := byteArr }
    match doRequest up req s with
    | (s1, .panic m) => (s1, .panic m)
    | (s1, .err err) =>
      let s2 := s1.Println [.str (err.Error L)]
      let errStr := err.Error L
      let inverr : ApiError := { Code := "10000", Message := errStr }
      (s2.httpError ((GoError.api inverr).Error L) 500, .err (.api inverr))
    | (s1, .ok resp) =>
      match L.jqFromString (addRoot resp) with
      | .error e =>
        let msg := "Parsing response to jq failed, " ++ errorsText [e]
        let s2 := s1.StdPrintln [.str msg]
        (s2.httpError msg 500, .err (.other e))
      | .ok root =>
        let data := L.jqFirst root "root" "clientId" client.ClientID
        let clientStruct := L.mapstructureDecode data ClientOut.zero
        let s2 := s1.Printf "Client %s id is %s" [.str client.ClientID, .str clientStruct.ID]
        (s2, .ok clientStruct)

/-- The method `APIClient.getClientSecret`. -/
def getClientSecret (L : GoLib) (up : Upstream) (config : Config) (token : String)
    (clientUID : String) (s : St) : St × Res String :=
  let url := L.Sprintf config.ClientSecretURI [config.IdpURL, config.IdpRealm, clientUID]
  match L.NewRequest "GET" url with
  | some e => ((s.Println [.str e]).httpError e 500, .err (.other e))
  | none =>
    let req : HttpRequest :=
      { Method := "GET", URL := url, Header := [("Authorization", bearer token)],
        Body := "" }
    match doRequest up req s with
    | (s1, .panic m) => (s1, .panic m)
    | (s1, .err err) =>
      let s2 := s1.Println [.str (err.Error L)]
      let errStr := err.Error L
      let inverr : ApiError := { Code := "10000", Message := errStr }
      (s2.httpError ((GoError.api inverr).Error L) 500, .err (.api inverr))
    | (s1, .ok resp) =>
      match L.unmarshalClientSecret resp with
      | .error e => ((s1.Println [.str e]).httpError e 500, .err (.other e))
      | .ok clientSecretStruct => (s1, .ok clientSecretStruct.Value)

/-- The method `APIClient.updateClient`. -/
def updateClient (L : GoLib) (up : Upstream) (config : Config) (token : String)
    (client : Client) (clientUID : String) (s : St) : St × Res Unit :=
  let url := L.Sprintf config.ClientURI [config.IdpURL, config.IdpRealm, clientUID]
  let byteArr := L.jsonMarshal client.toJson
  match L.NewRequest "PUT" url with
  | some e => ((s.Println [.str e]).httpError e 500, .err (.other e))
  | none =>
    let s0 := s.Println [.str url]
    let req : HttpRequest :=
      { Method := "PUT", URL := url,
        Header := [("Authorization", bearer token), ("Content-Type", "application/json")],
        Body := byteArr }
    match doRequest up req s0 with
    | (s1, .panic m) => (s1, .panic m)
    | (s1, .err err) =>
      let s2 := s1.Println [.str (err.Error L)]
      let errStr := err.Error L
      let inverr : ApiError := { Code := "10000", Message := errStr }
      (s2.httpError ((GoError.api inverr).Error L) 500, .err (.api inverr))
    | (s1, .ok _) => (s1, .ok ())

/-- The method `APIClient.deleteClient`. -/
def deleteClient (L : GoLib) (up : Upstream) (config : Config) (token : String)
    (clientUID : String) (s : St) : St × Res Unit :=
  let url := L.Sprintf config.ClientURI [config.IdpURL, config.IdpRealm, clientUID]
  match L.NewRequest "DELETE" url with
  | some e => ((s.Println [.str e]).httpError e 500, .err (.other e))
  | none =>
    let req : HttpRequest :=
      { Method := "DELETE", URL := url,
        Header := [("Authorization", bearer token), ("Content-Type", "application/json")],
        Body := "" }
    match doRequest up req s with
    | (s1, .panic m) => (s1, .panic m)
    | (s1, .err err) =>
      let s2 := s1.Println [.str (err.Error L)]
      let errStr := err.Error L
      let inverr : ApiError := { Code := "10000", Message := errStr }
      (s2.httpError ((GoError.api inverr).Error L) 500, .err (.api inverr))
    | (s1, .ok _) => (s1, .ok ())

/-- The method `APIClient.createUser`; it has no response writer. -/
def createUser (L : GoLib) (up : Upstream) (config : Config) (token : String)
    (user : User) (s : St) : St × Res Unit :=
  let url := L.Sprintf config.UsersURI [config.IdpURL, config.IdpRealm]
  let byteArr := L.jsonMarshal user.toJson
  match L.NewRequest "POST" url with
  | some e => (s.Println [.str e], .err (.other e))
  | none =>
    let s0 := s.StdPrintln [.str url]
    let req : HttpRequest :=
      { Method := "POST", URL := url,
        Header := [("Authorization", bearer token), ("Content-Type", "application/json")],
        Body := byteArr }
    match doRequest up req s0 with
    | (s1, .panic m) => (s1, .panic m)
    | (s1, .err err) =>
      let s2 := s1.Println [.str (err.Error L)]
      let errStr := err.Error L
      let inverr : ApiError := { Code := "10000", Message := errStr }
      (s2, .err (.api inverr))
    | (s1, .ok _) => (s1, .ok ())

/-- The method `APIClient.getUserID`; `resMapIntf[0]` panics on an empty result. -/
def getUserID (L : GoLib) (up : Upstream) (config : Config) (token : String)
    (user : User) (s : St) : St × Res String :=
  let url := L.Sprintf config.UsersURI [config.IdpURL, config.IdpRealm]
  let byteArr := L.jsonMarshal user.toJson
  match L.NewRequest "GET" url with
  | some e => (s.Println [.str e], .err (.other e))
  | none =>
    let req : HttpRequest :=
      { Method := "GET", URL := url,
        Header := [("Authorization", bearer token), ("Content-Type", "application/json")],
        Body := byteArr }
    match doRequest up req s with
    | (s1, .panic m) => (s1, .panic m)
    | (s1, .err err) =>
      let s2 := s1.Println [.str (err.Error L)]
      let errStr := err.Error L
      let inverr : ApiError := { Code := "10000", Message := errStr }
      (s2, .err (.api inverr))
    | (s1, .ok resp) =>
      match L.jqFromString (addRoot resp) with
      | .error e =>
        let msg := "Parsing response to jq failed, " ++ errorsText [e]
        (s1.StdPrintln [.str msg], .err (.other e))
      | .ok root =>
        match L.jqOnly root "root" "username" user.Username "id" with
        | (_, e :: es) =>
          let msg := "Querying id failed, " ++ errorsText (e :: es)
          (s1.StdPrintln [.str msg], .err (.other ((e :: es).getLast (by simp))))
        | (.arr [], []) => (s1, .panic "index out of range")
        | (.arr (.obj resMapValIntf :: _), []) =>
          match Json.field? resMapValIntf "id" with
          | some (.str resID) =>
            let s2 := s1.Printf "User %s id is %s" [.str user.Username, .str resID]
            (s2, .ok resID)
          | _ => (s1.Println [.str "Failed assertion to string"], .err InternalServerError)
        | (.arr (_ :: _), []) =>
          (s1.Println [.str "Failed assertion to map"], .err InternalServerError)
        | (_, []) => (s1.Println [.str "Failed assertion to array"], .err InternalServerError)

/-- The method `APIClient.deleteUser`. -/
def deleteUser (L : GoLib) (up : Upstream) (config : Config) (token : String)
    (userUID : String) (s : St) : St × Res Unit :=
  let url := L.Sprintf config.UserURI [config.IdpURL, config.IdpRealm, userUID]
  match L.NewRequest "DELETE" url with
  | some e => (s.Println [.str e], .err (.other e))
  | none =>
    let req : HttpRequest :=
      { Method := "DELETE", URL := url,
        Header := [("Authorization", bearer token), ("Content-Type", "application/json")],
        Body := "" }
    match doRequest up req s with
    | (s1, .panic m) => (s1, .panic m)
    | (s1, .err err) =>
      let s2 := s1.Println [.str (err.Error L)]
      let errStr := err.Error L
      let inverr : ApiError := { Code := "10000", Message := errStr }
      (s2, .err (.api inverr))
    | (s1, .ok _) => (s1, .ok ())

/-- The method `APIClient.setUserPassword`. -/
def setUserPassword (L : GoLib) (up : Upstream) (config : Config) (token : String)
    (userCredential : UserSecret) (userUID : String) (s : St) : St × Res Unit :=
  let url := L.Sprintf config.UserPasswordURI [config.IdpURL, config.IdpRealm, userUID]
  let byteArr := L.jsonMarshal userCredential.toJson
  match L.NewRequest "PUT" url with
  | some e => (s.Println [.str e], .err (.other e))
  | none =>
    let req : HttpRequest :=
      { Method := "PUT", URL := url,
        Header := [("Authorization", bearer token), ("Content-Type", "application/json")],
        Body := byteArr }
    match doRequest up req s with
    | (s1, .panic m) => (s1, .panic m)
    | (s1, .err err) =>
      let s2 := s1.Println [.str (err.Error L)]
      let errStr := err.Error L
      let inverr : ApiError := { Code := "10000", Message := errStr }
      (s2, .err (.api inverr))
    | (s1, .ok _) => (s1, .ok ())

/-- The interface `APIClientIntf`. -/
structure APIClientIntf where
  doRequest : HttpRequest → St → St × Res String
  authenticate : Config → Request → AuthBodyGetter → St → St × Res (String × String)
  createClient : Config → String → Client → St → St × Res Unit
  getClientID : Config → String → ClientWithSecret → St → St × Res String
  getClient : Config → String → Client → St → St × Res ClientOut
  getClientSecret : Config → String → String → St → St × Res String
  updateClient : Config → String → Client → String → St → St × Res Unit
  deleteClient : Config → String → String → St → St × Res Unit

/-- The struct `APIClient` as an implementation of the interface: its `BaseClient`
talks to the upstream `up`. -/
def APIClient (L : GoLib) (up : Upstream) : APIClientIntf :=
  { doRequest := doRequest up
    authenticate := authenticate L up
    createClient := createClient L up
    getClientID := getClientID L up
    getClient := getClient L up
    getClientSecret := getClientSecret L up
    updateClient := updateClient L up
    deleteClient := deleteClient L up }

/-! ## `controller.go` -/

/-- The fields of a `Client` that violate their `validate:"nonzero"` tag. -/
def Client.zeroFields (c : Client) : List String :=
  if c.ClientID = "" then ["ClientID"] else []

/-- The fields of a `ClientWithSecret` that violate their `validate:"nonzero"` tag. -/
def ClientWithSecret.zeroFields (c : ClientWithSecret) : List String :=
  (if c.ClientID = "" then ["ClientID"] else []) ++ (if c.Secret = "" then ["Secret"] else [])

/-- The block both `CreateResource` and `UpdateResource` run when
`client.StandardFlowEnabled` is set. -/
def applyRedirectUris (client : Client) : Client :=
  if client.StandardFlowEnabled then
    match client.RedirectUris with
    | some (first :: rest) =>
      { client with RootUrl := first, AdminUrl := first, WebOrigins := some (first :: rest) }
    | _ => client
  else client

/-- The statements `w.Header().Set("Content-Type", "application/json")` and
`w.WriteHeader(code)` that end a handler. -/
def St.writeJSONHeader (s : St) (code : Nat) : St :=
  { s with w := (s.w.SetHeader "Content-Type" "application/json").WriteHeader code }

/-- The method `Controller.CreateResource`. The decoder reads `r.Body` itself, so a
body that cannot be read is a decoding error. -/
def CreateResource (L : GoLib) (httpClient : APIClientIntf) (config : Config) (r : Request)
    (s : St) : St :=
  let s0 := s.Println [.str "Authenticating external user"]
  match httpClient.authenticate config r (getAuthBodyFromBasicAuth L) s0 with
  | (s1, .panic m) => { s1 with panicked := some m }
  | (s1, .err _) => s1
  | (s1, .ok (_, authEntity)) =>
    match (match r.Body with | .error e => Except.error e | .ok b => L.decodeClient b) with
    | .error errDec =>
      (s1.Println [.str errDec]).httpError (InvalidRequestPayload.Error L) 400
    | .ok client0 =>
      match client0.zeroFields with
      | f :: fs =>
        (s1.Println [.str (L.validatorErrorText (f :: fs))]).httpError
          (MissingRequiredFieldsPayload.Error L) 400
      | [] =>
        let client1 := applyRedirectUris client0
        let s2 := s1.Println [.str "Authenticating app admin user"]
        match httpClient.authenticate config r (getAdminAuthBody L) s2 with
        | (s3, .panic m) => { s3 with panicked := some m }
        | (s3, .err _) => s3
        | (s3, .ok (token, _)) =>
          let client : Client :=
            { client1 with PublicClient := false,
                           Description := "Client created by " ++ authEntity }
          match httpClient.createClient config token client s3 with
          | (s4, .panic m) => { s4 with panicked := some m }
          | (s4, .err _) => s4
          | (s4, .ok _) =>
            match httpClient.getClient config token client s4 with
            | (s5, .panic m) => { s5 with panicked := some m }
            | (s5, .err _) => s5
            | (s5, .ok clientInf) =>
              match httpClient.getClientSecret config token clientInf.ID s5 with
              | (s6, .panic m) => { s6 with panicked := some m }
              | (s6, .err _) => s6
              | (s6, .ok clientSec) =>
                let secOut := L.jsonMarshal (ClientSecret.toJson { Value := clientSec })
                let s7 := s6.writeJSONHeader 201
                { s7 with w := s7.w.Write secOut }

/-- The method `Controller.UpdateResource`. -/
def UpdateResource (L : GoLib) (httpClient : APIClientIntf) (config : Config) (r : Request)
    (s : St) : St :=
  match httpClient.authenticate config r (getAuthBodyFromBasicAuth L) s with
  | (s1, .panic m) => { s1 with panicked := some m }
  | (s1, .err _) => s1
  | (s1, .ok _) =>
    match r.Body with
    | .error errBio => (s1.Println [.str errBio]).httpError errBio 500
    | .ok bodyBytes =>
      match L.decodeClient bodyBytes with
      | .error errDec =>
        (s1.Println [.str errDec]).httpError (InvalidRequestPayload.Error L) 400
      | .ok client0 =>
        match L.decodeClientWithSecret bodyBytes with
        | .error errDecc =>
          (s1.Println [.str errDecc]).httpError (InvalidRequestPayload.Error L) 400
        | .ok clientWithSecret =>
          match clientWithSecret.zeroFields with
          | f :: fs =>
            (s1.Println [.str (L.validatorErrorText (f :: fs))]).httpError
              (MissingRequiredFieldsPayload.Error L) 400
          | [] =>
            let client1 := applyRedirectUris client0
            match httpClient.authenticate config r (getAdminAuthBody L) s1 with
            | (s2, .panic m) => { s2 with panicked := some m }
            | (s2, .err _) => s2
            | (s2, .ok (token, _)) =>
              let client : Client := { client1 with PublicClient := false }
              match httpClient.getClient config token client s2 with
              | (s3, .panic m) => { s3 with panicked := some m }
              | (s3, .err _) => s3
              | (s3, .ok clientInfo) =>
                match httpClient.getClientSecret config token clientInfo.ID s3 with
                | (s4, .panic m) => { s4 with panicked := some m }
                | (s4, .err _) => s4
                | (s4, .ok clientSecret) =>
                  if clientWithSecret.Secret ≠ clientSecret then
                    (s4.Println [.nil]).httpError (BadClientSecret.Error L) 401
                  else
                    match httpClient.updateClient config token client clientInfo.ID s4 with
                    | (s5, .panic m) => { s5 with panicked := some m }
                    | (s5, .err _) => s5
                    | (s5, .ok _) => s5.writeJSONHeader 201

/-- The method `Controller.DeleteResource`. -/
def DeleteResource (L : GoLib) (httpClient : APIClientIntf) (config : Config) (r : Request)
    (s : St) : St :=
  match httpClient.authenticate config r (getAuthBodyFromBasicAuth L) s with
  | (s1, .panic m) => { s1 with panicked := some m }
  | (s1, .err _) => s1
  | (s1, .ok _) =>
    match r.Body with
    | .error errBio => (s1.Println [.str errBio]).httpError errBio 500
    | .ok bodyBytes =>
      match L.decodeClient bodyBytes with
      | .error errDec =>
        (s1.Println [.str errDec]).httpError (InvalidRequestPayload.Error L) 400
      | .ok client =>
        match L.decodeClientWithSecret bodyBytes with
        | .error errDecc =>
          (s1.Println [.str errDecc]).httpError (InvalidRequestPayload.Error L) 400
        | .ok clientWithSecret =>
          match client.zeroFields with
          | f :: fs =>
            (s1.Println [.str (L.validatorErrorText (f :: fs))]).httpError
              (MissingRequiredFieldsPayload.Error L) 400
          | [] =>
            match httpClient.authenticate config r (getAdminAuthBody L) s1 with
            | (s2, .panic m) => { s2 with panicked := some m }
            | (s2, .err _) => s2
            | (s2, .ok (token, _)) =>
              match httpClient.getClient config token client s2 with
              | (s3, .panic m) => { s3 with panicked := some m }
              | (s3, .err _) => s3
              | (s3, .ok clientInfo) =>
                match httpClient.getClientSecret config token clientInfo.ID s3 with
                | (s4, .panic m) => { s4 with panicked := some m }
                | (s4, .err _) => s4
                | (s4, .ok clientSecret) =>
                  if clientWithSecret.Secret ≠ clientSecret then
                    (s4.Println [.nil]).httpError (BadClientSecret.Error L) 401
                  else
                    match httpClient.deleteClient config token clientInfo.ID s4 with
                    | (s5, .panic m) => { s5 with panicked := some m }
                    | (s5, .err _) => s5
                    | (s5, .ok _) => s5.writeJSONHeader 201

/-! ## A small library instance and sample upstreams for the worked examples -/

/-- Substitution of `%s` verbs, enough for the URI formats of `app.go`. -/
def fillVerbs : List Char → List String → List Char
  | '%' :: 's' :: rest, a :: args => a.data ++ fillVerbs rest args
  | c :: rest, args => c :: fillVerbs rest args
  | [], _ => []

def quoted (t : String) : String := "\"" ++ t ++ "\""

/-- Rendering of the values that occur inside the structs the program marshals. -/
def renderValue : Json → String
  | .null => "null"
  | .bool true => "true"
  | .bool false => "false"
  | .num n => n
  | .str t => quoted t
  | .arr items => "[" ++ ",".intercalate (items.map fun
      | .str t => quoted t
      | _ => "null") ++ "]"
  | .obj _ => "\x7b\x7d"

/-- Rendering of a flat JSON object. -/
def renderJson : Json → String
  | .obj fields =>
    "\x7b" ++ ",".intercalate (fields.map fun kv => quoted kv.1 ++ ":" ++ renderValue kv.2)
      ++ "\x7d"
  | j => renderValue j

/-- Whether a collection element is an object whose `key` is the string `val`. -/
def hasField (key val : String) : Json → Bool
  | .obj fields =>
    match Json.field? fields key with
    | some (.str t) => t = val
    | _ => false
  | _ => false

/-- The elements of the array under `node` that pass `hasField`. -/
def selectWhere (root : Json) (node key val : String) : List Json :=
  match root with
  | .obj fields =>
    match Json.field? fields node with
    | some (.arr items) => items.filter (hasField key val)
    | _ => []
  | _ => []

/-- The string under `key` of a decoded object, or the value already held. -/
def stringField (data : Json) (key : String) (old : String) : String :=
  match data with
  | .obj fields =>
    match Json.field? fields key with
    | some (.str t) => t
    | _ => old
  | _ => old

def sampleTokenBody (token : String) : String :=
  "\x7b\"access_token\":\"" ++ token ++ "\"\x7d"

def sampleCollection : String :=
  "[\x7b\"clientId\":\"test\",\"id\":\"40b5444c-5990-496d-bb67-64c535df8dc4\"\x7d]"

def sampleSecretBody : String := "\x7b\"type\":\"secret\",\"value\":\"test_secret\"\x7d"

def samplePayload : String :=
  "\x7b\"clientId\":\"test\",\"clientSecret\":\"wrong_secret\"\x7d"

def sampleMatchingPayload : String :=
  "\x7b\"clientId\":\"test\",\"clientSecret\":\"test_secret\"\x7d"

def sampleClient : Client :=
  { ClientID := "test", PublicClient := false, RedirectUris := none, RootUrl := "",
    WebOrigins := none, AdminUrl := "", DirectAccessGrantsEnabled := false,
    ServiceAccountsEnabled := false, StandardFlowEnabled := false,
    ImplicitFlowEnabled := false, Description := "" }

def sampleClientWithSecret (secret : String) : ClientWithSecret :=
  { ClientID := "test", PublicClient := false, DirectAccessGrantsEnabled := false,
    ServiceAccountsEnabled := false, StandardFlowEnabled := false,
    ImplicitFlowEnabled := false, Secret := secret }

/-- A library instance that agrees with the Go libraries on the sample documents:
the decoders are tables over those documents. -/
def sampleLib : GoLib :=
  { Sprintf := fun format args => String.mk (fillVerbs format.data args)
    NewRequest := fun _ _ => none
    Encode := fun v => "&".intercalate (v.map fun kv => kv.1 ++ "=" ++ kv.2.headD "")
    jsonMarshal := renderJson
    unmarshalToken := fun b =>
      if b = sampleTokenBody "caller-token" then .ok { Value := "caller-token" }
      else if b = sampleTokenBody "admin-token" then .ok { Value := "admin-token" }
      else .error "invalid character"
    unmarshalClientSecret := fun b =>
      if b = sampleSecretBody then .ok { Value := "test_secret" }
      else .error "invalid character"
    decodeClient := fun b =>
      if b = samplePayload ∨ b = sampleMatchingPayload then .ok sampleClient
      else .error "invalid character"
    decodeClientWithSecret := fun b =>
      if b = samplePayload then .ok (sampleClientWithSecret "wrong_secret")
      else if b = sampleMatchingPayload then .ok (sampleClientWithSecret "test_secret")
      else .error "invalid character"
    jqFromString := fun doc =>
      if doc = addRoot sampleCollection then
        .ok (.obj [("root", .arr [.obj [("clientId", .str "test"),
          ("id", .str "40b5444c-5990-496d-bb67-64c535df8dc4")]])])
      else .error "invalid character"
    jqFirst := fun root node key val => (selectWhere root node key val).headD .null
    jqOnly := fun root node key val prop =>
      (.arr ((selectWhere root node key val).filterMap fun
        | .obj fields => (Json.field? fields prop).map fun v => .obj [(prop, v)]
        | _ => none), [])
    mapstructureDecode := fun data out =>
      { out with ID := stringField data "id" out.ID,
                 ClientID := stringField data "clientId" out.ClientID }
    validatorErrorText := fun fields =>
      ", ".intercalate (fields.map fun f => f ++ ": zero value") }

def sampleConfig : Config :=
  { IdpURL := "https://fake.com", ClientID := "fake", ClientSecret := "fake",
    ApiClientID := "test", ApiClientSecret := "test", IdpAdmin := "fake", IdpPass := "fake",
    IdpRealm := "master", CheckURI := "%s/auth/admin",
    ClientsURI := "%s/auth/admin/realms/%s/clients",
    ClientURI := "%s/auth/admin/realms/%s/clients/%s",
    ClientSecretURI := "%s/auth/admin/realms/%s/clients/%s/client-secret",
    TokenURI := "%s/auth/realms/%s/protocol/openid-connect/token",
    UsersURI := "%s/auth/admin/realms/%s/users",
    UserURI := "%s/auth/admin/realms/%s/users/%s",
    UserPasswordURI := "%s/auth/admin/realms/%s/users/%s/reset-password" }

/-- An identity provider that answers every request with status 500 and `FAIL`. -/
def failingUpstream : Upstream := fun _ _ => .response 500 "FAIL"

/-- An identity provider that knows the user `alice` with password `pw`, the
service client `svc` with secret `svc-secret`, the administrator of `sampleConfig`
and the client collection `sampleCollection`. -/
def sampleUpstream : Upstream := fun _ req =>
  if req.Method = "POST" then
    if req.Body = "username=alice&password=pw&grant_type=password&client_id=fake&client_secret=fake"
    then .response 200 (sampleTokenBody "caller-token")
    else if req.Body = "grant_type=client_credentials&client_id=svc&client_secret=svc-secret"
    then .response 200 (sampleTokenBody "caller-token")
    else if req.Body = "username=fake&password=fake&grant_type=password&client_id=test&client_secret=test"
    then .response 200 (sampleTokenBody "admin-token")
    else .response 401 "invalid_grant"
  else if req.Method = "GET" then
    if req.URL = "https://fake.com/auth/admin/realms/master/clients"
    then .response 200 sampleCollection
    else .response 200 sampleSecretBody
  else .response 204 ""

def aliceRequest (body : String) : Request :=
  { BasicAuth := some ("alice", "pw"), Body := .ok body }

/-! ## Vocabulary of the statements -/

/-- A status `doRequest` treats as success. -/
def okStatus (status : Nat) : Prop := status = 200 ∨ status = 201 ∨ status = 204

instance (status : Nat) : Decidable (okStatus status) := by unfold okStatus; infer_instance

/-- What `doRequest` returns for a reply. -/
def Reply.result : Reply → Res String
  | .doError e => .err (.other e)
  | .readError _ e => .err (.other e)
  | .response status body => if okStatus status then .ok body else .err (.other body)

/-- Whether a reply makes `doRequest` return without error. -/
def Reply.succeeded : Reply → Bool
  | .response status _ => decide (okStatus status)
  | _ => false

/-- The text of the error `doRequest` returns for a reply that did not succeed. -/
def Reply.errorText : Reply → String
  | .doError e => e
  | .readError _ e => e
  | .response _ body => body

/-- The records `doRequest` logs for a reply to a request to `url`. -/
def Reply.logged (url : String) : Reply → List LogRecord
  | .response status body =>
    if okStatus status then []
    else [.printf "Response code from URL: %s is %d" [.url url, .int status], .printf body []]
  | _ => []

/-- The operands of a log record. -/
def LogRecord.args : LogRecord → List LogArg
  | .println a => a
  | .printf _ a => a
  | .stdPrintln a => a

/-- A grant body whose `password` and `client_secret`, where present, hold the
placeholder. -/
def Values.masked (v : Values) : Prop :=
  (Values.get? v "password" = none ∨ Values.get? v "password" = some ["xxx"]) ∧
  (Values.get? v "client_secret" = none ∨ Values.get? v "client_secret" = some ["xxx"])

/-- The token URL of caller negotiation. -/
def callerTokenURL (L : GoLib) (config : Config) : String :=
  L.Sprintf config.TokenURI [config.IdpURL, config.IdpRealm]

/-- The token URL of administrative negotiation. -/
def adminTokenURL (L : GoLib) (config : Config) : String :=
  L.Sprintf config.TokenURI [config.IdpURL, "master"]

/-- The token request of the password grant of caller negotiation. -/
def passwordGrantRequest (L : GoLib) (config : Config) (u p : String) : HttpRequest :=
  tokenRequest L (callerTokenURL L config) (authResourceOwnerBody config u p)

/-- The token request of the client-credentials grant of caller negotiation. -/
def clientCredentialsRequest (L : GoLib) (config : Config) (u p : String) : HttpRequest :=
  tokenRequest L (callerTokenURL L config) (authClientBody u p)

/-- The state once the token request for `b` was issued and `doRequest` returned. -/
def attemptState (L : GoLib) (up : Upstream) (url : String) (b : Values) (s : St) : St :=
  { s with calls := s.calls ++ [(tokenRequest L url b, up s.calls (tokenRequest L url b))],
           log := s.log ++ [.println [.str url]] ++
             (up s.calls (tokenRequest L url b)).logged url }

/-- Between the states `s` and `out` exactly one request was issued, and the upstream
answered it with `status` and body `m`. -/
def answeredWith (s out : St) (status : Nat) (m : String) : Prop :=
  ∃ req, out.calls = s.calls ++ [(req, .response status m)]

/-- Between `s` and `out` the inbound response received `http.Error` with the JSON of
the `ApiError` of code `"10000"` and message `m`, and status 500; on a response not yet
started this fixes the status and appends the JSON line to the body. -/
def wroteUpstreamFailure (L : GoLib) (s out : St) (m : String) : Prop :=
  out.w = s.w.Error (L.jsonMarshal (ApiError.toJson ⟨"10000", m⟩)) 500 ∧
  (s.w.wroteHeader = false →
    out.w.Code = 500 ∧
    out.w.Body = s.w.Body ++ (L.jsonMarshal (ApiError.toJson ⟨"10000", m⟩) ++ "\n"))

/-- The records `authenticate` logs once its loop is left. -/
def LoopExit.postLog (L : GoLib) : LoopExit → List LogRecord
  | .done _ (some authErr) _ => [.printf "Failed all auth attempts %s" [.str (authErr.Error L)]]
  | .done tokenBody none _ =>
    match L.unmarshalToken tokenBody with
    | .error uerr => [.println [.str uerr]]
    | .ok _ => []
  | _ => []

/-- Caller requests of `alice` with two different passwords. -/
def aliceWith (password : String) : Request :=
  { BasicAuth := some ("alice", password), Body := .ok "" }

/-- The request of `getClient`. -/
def getClientRequest (L : GoLib) (config : Config) (token : String) (client : Client) :
    HttpRequest :=
  { Method := "GET", URL := L.Sprintf config.ClientsURI [config.IdpURL, config.IdpRealm],
    Header := [("Authorization", bearer token), ("Content-Type", "application/json")],
    Body := L.jsonMarshal client.toJson }

/-- The request of `getClientSecret`. -/
def getClientSecretRequest (L : GoLib) (config : Config) (token clientUID : String) :
    HttpRequest :=
  { Method := "GET",
    URL := L.Sprintf config.ClientSecretURI [config.IdpURL, config.IdpRealm, clientUID],
    Header := [("Authorization", bearer token)], Body := "" }

/-- The request of `updateClient`. -/
def updateClientRequest (L : GoLib) (config : Config) (token : String) (client : Client)
    (clientUID : String) : HttpRequest :=
  { Method := "PUT",
    URL := L.Sprintf config.ClientURI [config.IdpURL, config.IdpRealm, clientUID],
    Header := [("Authorization", bearer token), ("Content-Type", "application/json")],
    Body := L.jsonMarshal client.toJson }

/-- The request of `deleteClient`. -/
def deleteClientRequest (L : GoLib) (config : Config) (token clientUID : String) :
    HttpRequest :=
  { Method := "DELETE",
    URL := L.Sprintf config.ClientURI [config.IdpURL, config.IdpRealm, clientUID],
    Header := [("Authorization", bearer token), ("Content-Type", "application/json")],
    Body := "" }

/-- The record the sample collection holds for the client `test`. -/
def sampleInfo : ClientOut :=
  { ClientOut.zero with ID := "40b5444c-5990-496d-bb67-64c535df8dc4", ClientID := "test" }

/-- The state after caller negotiation of `alice` on the sample upstream. -/
def sampleS1 (body : String) : St :=
  (authenticate sampleLib sampleUpstream sampleConfig (aliceRequest body)
    (getAuthBodyFromBasicAuth sampleLib) St.fresh).1

/-- The state after administrative negotiation. -/
def sampleS2 (body : String) : St :=
  (authenticate sampleLib sampleUpstream sampleConfig (aliceRequest body)
    (getAdminAuthBody sampleLib) (sampleS1 body)).1

/-- The state after the lookup of the client `test`. -/
def sampleS3 (body : String) : St :=
  (getClient sampleLib sampleUpstream sampleConfig "admin-token" sampleClient (sampleS2 body)).1

/-- The state after the secret fetch. -/
def sampleS4 (body : String) : St :=
  (getClientSecret sampleLib sampleUpstream sampleConfig "admin-token" sampleInfo.ID
    (sampleS3 body)).1

/-! ## The mock clients of `idp_api_client.go` -/

/-- The struct `APIClientMock`: every operation succeeds without touching anything. -/
def APIClientMock : APIClientIntf :=
  { doRequest := fun _ s => (s, .ok "")
    authenticate := fun _ _ _ s => (s, .ok ("", ""))
    createClient := fun _ _ _ s => (s, .ok ())
    getClientID := fun _ _ _ s => (s, .ok "")
    getClient := fun _ _ _ s => (s, .ok { ClientOut.zero with ID := "test" })
    getClientSecret := fun _ _ _ s => (s, .ok "testsecret")
    updateClient := fun _ _ _ _ s => (s, .ok ())
    deleteClient := fun _ _ _ s => (s, .ok ()) }

/-- The struct `APIClientInternalServerErrorMock`. -/
def APIClientInternalServerErrorMock : APIClientIntf :=
  { doRequest := fun _ s => (s, .err (.other "Test Idp API Failure"))
    authenticate := fun _ _ _ s => (s, .ok ("", ""))
    createClient := fun _ _ _ s =>
      (s.httpError "Test Idp API Failure" 500, .err (.other "Test Idp API Failure"))
    getClientID := fun _ _ _ s => (s, .ok "")
    getClient := fun _ _ _ s => (s, .ok { ClientOut.zero with ID := "test" })
    getClientSecret := fun _ _ _ s => (s, .ok "testsecret")
    updateClient := fun _ _ _ _ s =>
      (s.httpError "Test Idp API Failure" 500, .err (.other "Test Idp API Failure"))
    deleteClient := fun _ _ _ s => (s, .ok ()) }

/-! ## `Controller.HealthCheck` -/

/-- The method `Controller.HealthCheck`; it reads nothing from the inbound request. -/
def HealthCheck (L : GoLib) (httpClient : APIClientIntf) (config : Config) (_r : Request)
    (s : St) : St :=
  let url := L.Sprintf config.CheckURI [config.IdpURL]
  match L.NewRequest "GET" url with
  | some e => (s.Println [.str e]).httpError e 500
  | none =>
    let req : HttpRequest := { Method := "GET", URL := url, Header := [], Body := "" }
    match httpClient.doRequest req s with
    | (s1, .panic m) => { s1 with panicked := some m }
    | (s1, .err errReq) =>
      let s2 := s1.Println [.str (errReq.Error L)]
      let errStr := errReq.Error L
      let inverr : ApiError := { Code := "10000", Message := errStr }
      s2.httpError ((GoError.api inverr).Error L) 500
    | (s1, .ok _) => s1.writeJSONHeader 200

/-! ## Behaviour of gojsonq and mapstructure assumed in the statements -/

/-- The boolean under `key` of a decoded object, or the value already held. -/
def boolField (data : Json) (key : String) (old : Bool) : Bool :=
  match data with
  | .obj fields =>
    match Json.field? fields key with
    | some (.bool b) => b
    | _ => old
  | _ => old

/-- What `mapstructure.Decode` leaves in a `ClientOut` for a decoded record whose keys
are spelled as in the upstream's JSON: a field is filled from the key that matches its
name without regard to case, when the value has the field's type. -/
def decodeClientOut (data : Json) (out : ClientOut) : ClientOut :=
  { ID := stringField data "id" out.ID
    ClientID := stringField data "clientId" out.ClientID
    PublicClient := boolField data "publicClient" out.PublicClient
    DirectAccessGrantsEnabled :=
      boolField data "directAccessGrantsEnabled" out.DirectAccessGrantsEnabled
    ServiceAccountsEnabled := boolField data "serviceAccountsEnabled" out.ServiceAccountsEnabled
    StandardFlowEnabled := boolField data "standardFlowEnabled" out.StandardFlowEnabled
    ImplicitFlowEnabled := boolField data "implicitFlowEnabled" out.ImplicitFlowEnabled }

/-- What gojsonq's `First()` returns after `Where(key, "=", val)` on an array of
records: the first record, in array order, whose `key` is the string `val`, or nil. -/
def firstWhere (items : List Json) (key val : String) : Json :=
  (items.filter (hasField key val)).headD .null

/-! ## Further samples -/

def sampleUsers : String :=
  "[\x7b\"id\":\"06b4f835-a8c7-40f4-887b-cd76c7623267\",\"username\":\"test\"\x7d]"

def sampleNoSecretPayload : String := "\x7b\"clientId\":\"test\"\x7d"

def sampleEmptyObject : String := "\x7b\x7d"

/-- A payload whose `clientSecret` is a number: it decodes into a `Client`, which has
no such field, and not into a `ClientWithSecret`. -/
def sampleBadSecretPayload : String := "\x7b\"clientId\":\"test\",\"clientSecret\":5\x7d"

/-- The sample library extended by four documents: the users collection, a payload
without `clientSecret`, a payload with a numeric `clientSecret`, and the empty JSON
object, which decodes into every struct and leaves it at its zero value. -/
def sampleLib2 : GoLib :=
  { sampleLib with
    unmarshalToken := fun b =>
      if b = sampleEmptyObject then .ok { Value := "" } else sampleLib.unmarshalToken b
    decodeClient := fun b =>
      if b = sampleNoSecretPayload ∨ b = sampleBadSecretPayload then .ok sampleClient
      else if b = sampleEmptyObject then .ok { sampleClient with ClientID := "" }
      else sampleLib.decodeClient b
    decodeClientWithSecret := fun b =>
      if b = sampleNoSecretPayload then .ok (sampleClientWithSecret "")
      else if b = sampleEmptyObject then .ok { sampleClientWithSecret "" with ClientID := "" }
      else sampleLib.decodeClientWithSecret b
    jqFromString := fun doc =>
      if doc = addRoot sampleUsers then
        .ok (.obj [("root", .arr [.obj [("id", .str "06b4f835-a8c7-40f4-887b-cd76c7623267"),
          ("username", .str "test")]])])
      else sampleLib.jqFromString doc }

/-- An identity provider that answers every request with status 200 and the sample
users collection. -/
def usersUpstream : Upstream := fun _ _ => .response 200 sampleUsers

/-- An identity provider that answers every request with status 200 and the empty JSON
object. -/
def emptyObjectUpstream : Upstream := fun _ _ => .response 200 sampleEmptyObject

/-- The request of `HealthCheck`. -/
def checkRequest (L : GoLib) (config : Config) : HttpRequest :=
  { Method := "GET", URL := L.Sprintf config.CheckURI [config.IdpURL], Header := [],
    Body := "" }

/-- The request of `createClient`. -/
def createClientRequest (L : GoLib) (config : Config) (token : String) (client : Client) :
    HttpRequest :=
  { Method := "POST", URL := L.Sprintf config.ClientsURI [config.IdpURL, config.IdpRealm],
    Header := [("Content-Type", "application/json"), ("Authorization", bearer token)],
    Body := L.jsonMarshal client.toJson }

/-- The request of `getUserID`. -/
def getUserIDRequest (L : GoLib) (config : Config) (token : String) (user : User) :
    HttpRequest :=
  { Method := "GET", URL := L.Sprintf config.UsersURI [config.IdpURL, config.IdpRealm],
    Header := [("Authorization", bearer token), ("Content-Type", "application/json")],
    Body := L.jsonMarshal user.toJson }

/-- The token request of administrative negotiation. -/
def adminGrantRequest (L : GoLib) (config : Config) : HttpRequest :=
  tokenRequest L (adminTokenURL L config) (authClientCredentialAdminBody config)

/-- The sample identity provider, which in addition accepts the creation of clients. -/
def creatingUpstream : Upstream := fun history req =>
  if req.Method = "POST" ∧ req.URL = "https://fake.com/auth/admin/realms/master/clients"
  then .response 201 ""
  else sampleUpstream history req

/-- The state in which `CreateResource` starts caller negotiation for a fresh request. -/
def createStart : St := St.fresh.Println [.str "Authenticating external user"]

/-- The state after the caller negotiation of `alice`, started in `s`. -/
def callerState (L : GoLib) (up : Upstream) (body : String) (s : St) : St :=
  (authenticate L up sampleConfig (aliceRequest body) (getAuthBodyFromBasicAuth L) s).1

/-- The client `CreateResource` hands to the upstream when `alice` sends `samplePayload`. -/
def createdClient : Client :=
  { applyRedirectUris sampleClient with
    PublicClient := false, Description := "Client created by alice" }

/-- The state after the caller negotiation of the sample create request. -/
def createS1 : St := callerState sampleLib creatingUpstream samplePayload createStart

/-- The state after its administrative negotiation. -/
def createS3 : St :=
  (authenticate sampleLib creatingUpstream sampleConfig (aliceRequest samplePayload)
    (getAdminAuthBody sampleLib) (createS1.Println [.str "Authenticating app admin user"])).1

/-- The state after the creation of the client. -/
def createS4 : St :=
  (createClient sampleLib creatingUpstream sampleConfig "admin-token" createdClient createS3).1

/-- The state after the lookup of the created client. -/
def createS5 : St :=
  (getClient sampleLib creatingUpstream sampleConfig "admin-token" createdClient createS4).1

/-- The state after the fetch of its secret. -/
def createS6 : St :=
  (getClientSecret sampleLib creatingUpstream sampleConfig "admin-token" sampleInfo.ID
    createS5).1



/-- An identity provider that answers every request with status 200 and a body that is
not JSON. -/
def garbledUpstream : Upstream := fun _ _ => .response 200 "[bad_token]"







/-- A collection in which two records share the `clientId` `test`. -/
def sampleDuplicates : String :=
  "[\x7b\"clientId\":\"other\",\"id\":\"1\"\x7d,\x7b\"clientId\":\"test\",\"id\":\"2\"\x7d,"
    ++ "\x7b\"clientId\":\"test\",\"id\":\"3\"\x7d]"

/-- The sample library, which in addition parses `sampleDuplicates`. -/
def sampleLib3 : GoLib :=
  { sampleLib with
    jqFromString := fun doc =>
      if doc = addRoot sampleDuplicates then
        .ok (.obj [("root", .arr [.obj [("clientId", .str "other"), ("id", .str "1")],
          .obj [("clientId", .str "test"), ("id", .str "2")],
          .obj [("clientId", .str "test"), ("id", .str "3")]])])
      else sampleLib.jqFromString doc }

/-- An identity provider that answers every request with status 200 and
`sampleDuplicates`. -/
def duplicatesUpstream : Upstream := fun _ _ => .response 200 sampleDuplicates

/-- An identity provider that grants tokens as the sample one does and answers every
other request with status 500 and `FAIL`. -/
def tokensOnlyUpstream : Upstream := fun history req =>
  if req.URL = "https://fake.com/auth/realms/master/protocol/openid-connect/token"
  then sampleUpstream history req
  else .response 500 "FAIL"

/-- The state after the administrative negotiation of `alice`, started in `s`. -/
def adminState (L : GoLib) (up : Upstream) (body : String) (s : St) : St :=
  (authenticate L up sampleConfig (aliceRequest body) (getAdminAuthBody L) s).1

/-! ## Vocabulary for requests and error codes -/

/-- The values a request carries under a header name, in the order they were added. -/
def HttpRequest.headerValues (req : HttpRequest) (name : String) : List String :=
  (req.Header.filter (fun h => h.1 = name)).map Prod.snd

/-- The request of `getClientID`. -/
def getClientIDRequest (L : GoLib) (config : Config) (token : String)
    (client : ClientWithSecret) : HttpRequest :=
  { Method := "GET", URL := L.Sprintf config.ClientsURI [config.IdpURL, config.IdpRealm],
    Header := [("Authorization", bearer token), ("Content-Type", "application/json")],
    Body := L.jsonMarshal client.toJson }

/-- The request of `createUser`. -/
def createUserRequest (L : GoLib) (config : Config) (token : String) (user : User) :
    HttpRequest :=
  { Method := "POST", URL := L.Sprintf config.UsersURI [config.IdpURL, config.IdpRealm],
    Header := [("Authorization", bearer token), ("Content-Type", "application/json")],
    Body := L.jsonMarshal user.toJson }

/-- The request of `deleteUser`. -/
def deleteUserRequest (L : GoLib) (config : Config) (token userUID : String) : HttpRequest :=
  { Method := "DELETE",
    URL := L.Sprintf config.UserURI [config.IdpURL, config.IdpRealm, userUID],
    Header := [("Authorization", bearer token), ("Content-Type", "application/json")],
    Body := "" }

/-- The request of `setUserPassword`. -/
def setUserPasswordRequest (L : GoLib) (config : Config) (token : String)
    (userCredential : UserSecret) (userUID : String) : HttpRequest :=
  { Method := "PUT",
    URL := L.Sprintf config.UserPasswordURI [config.IdpURL, config.IdpRealm, userUID],
    Header := [("Authorization", bearer token), ("Content-Type", "application/json")],
    Body := L.jsonMarshal userCredential.toJson }

/-- The code of an error, when it is an `ApiError`. -/
def GoError.code? : GoError → Option String
  | .api e => some e.Code
  | .other _ => none

/-- The values of the error constructors of package `apierror`, `TestError` apart, in
the order of the source. -/
def errorConstructors : List GoError :=
  [NotFoundError, NotImplementedError, InvalidIDError, InvalidRequestPayload,
    QueryParamMissing, ParamStartBadValue, ParamCountBadValue, MissingRequiredFieldsPayload,
    InvalidBasicAuthHeaders, BadClientSecret, InternalServerError]

/-- The request carries the token as its one `Authorization` value and the JSON content
type as its one `Content-Type` value. -/
def HttpRequest.bearerJSON (req : HttpRequest) (token : String) : Prop :=
  req.headerValues "Authorization" = [bearer token] ∧
  req.headerValues "Content-Type" = ["application/json"]

/-- Between `s` and `out` one call was issued, and its request satisfies `P`. -/
def issuesOne (s out : St) (P : HttpRequest → Prop) : Prop :=
  ∃ req reply, out.calls = s.calls ++ [(req, reply)] ∧ P req



/-- A secret document without the field `value`. -/
def sampleSecretNoValue : String := "\x7b\"type\":\"secret\"\x7d"

/-- The sample library of `sampleLib2`, which in addition decodes `sampleSecretNoValue`
into a `ClientSecret` with the zero value. -/
def sampleLib4 : GoLib :=
  { sampleLib2 with
    unmarshalClientSecret := fun b =>
      if b = sampleSecretNoValue then .ok { Value := "" }
      else sampleLib2.unmarshalClientSecret b }

/-- The sample identity provider, except that the secret document it serves has no
`value`. -/
def noValueUpstream : Upstream := fun history req =>
  if req.Method = "GET" ∧ req.URL ≠ "https://fake.com/auth/admin/realms/master/clients"
  then .response 200 sampleSecretNoValue
  else sampleUpstream history req

/-- The states of the sample delete request without `clientSecret` against
`noValueUpstream`: after caller negotiation, administrative negotiation, lookup and
secret fetch. -/
def noValueS1 : St := callerState sampleLib4 noValueUpstream sampleNoSecretPayload St.fresh

def noValueS2 : St := adminState sampleLib4 noValueUpstream sampleNoSecretPayload noValueS1

def noValueS3 : St :=
  (getClient sampleLib4 noValueUpstream sampleConfig "admin-token" sampleClient noValueS2).1

def noValueS4 : St :=
  (getClientSecret sampleLib4 noValueUpstream sampleConfig "admin-token" sampleInfo.ID
    noValueS3).1

/-- An identity provider that rejects the first request with `first` and every later
one with `second`. -/
def twoErrorsUpstream : Upstream := fun history _ =>
  match history with
  | [] => .response 401 "first"
  | _ :: _ => .response 403 "second"

/-- The first redirect URI of a definition, when it has one. -/
def firstRedirect (c : Client) : Option String :=
  match c.RedirectUris with
  | some (first :: _) => some first
  | _ => none

/-- The definition the specification says is sent to the identity provider for a
decoded request body: `publicClient` is false, `description` is the given text, and
when `standardFlowEnabled` is set and there is a redirect URI, `rootUrl` and `adminUrl`
are the first redirect URI and `webOrigins` are the redirect URIs; every other field is
the decoded one. -/
def sentDefinition (decoded : Client) (description : String) : Client :=
  { ClientID := decoded.ClientID
    PublicClient := false
    RedirectUris := decoded.RedirectUris
    RootUrl :=
      if decoded.StandardFlowEnabled then (firstRedirect decoded).getD decoded.RootUrl
      else decoded.RootUrl
    WebOrigins :=
      if decoded.StandardFlowEnabled && (firstRedirect decoded).isSome
      then decoded.RedirectUris else decoded.WebOrigins
    AdminUrl :=
      if decoded.StandardFlowEnabled then (firstRedirect decoded).getD decoded.AdminUrl
      else decoded.AdminUrl
    DirectAccessGrantsEnabled := decoded.DirectAccessGrantsEnabled
    ServiceAccountsEnabled := decoded.ServiceAccountsEnabled
    StandardFlowEnabled := decoded.StandardFlowEnabled
    ImplicitFlowEnabled := decoded.ImplicitFlowEnabled
    Description := description }

/-- A payload of a client with the standard flow and two redirect URIs. -/
def sampleRedirectPayload : String :=
  "\x7b\"clientId\":\"test\",\"publicClient\":true,\"standardFlowEnabled\":true,"
    ++ "\"redirectUris\":[\"u1\",\"u2\"],"
    ++ "\"rootUrl\":\"old\",\"description\":\"mine\","
    ++ "\"clientSecret\":\"test_secret\"\x7d"

/-- The client `sampleRedirectPayload` decodes into. -/
def sampleRedirectClient : Client :=
  { ClientID := "test", PublicClient := true,
    RedirectUris := some ["u1", "u2"],
    RootUrl := "old", WebOrigins := none, AdminUrl := "",
    DirectAccessGrantsEnabled := false, ServiceAccountsEnabled := false,
    StandardFlowEnabled := true, ImplicitFlowEnabled := false, Description := "mine" }

/-- The sample library, which in addition decodes `sampleRedirectPayload`. -/
def sampleLib5 : GoLib :=
  { sampleLib with
    decodeClient := fun b =>
      if b = sampleRedirectPayload then .ok sampleRedirectClient
      else sampleLib.decodeClient b
    decodeClientWithSecret := fun b =>
      if b = sampleRedirectPayload then .ok { sampleClientWithSecret "test_secret" with
        PublicClient := true, StandardFlowEnabled := true }
      else sampleLib.decodeClientWithSecret b }

/-- The `ClientWithSecret` that `sampleRedirectPayload` decodes into. -/
def sampleRedirectClientWithSecret : ClientWithSecret :=
  { sampleClientWithSecret "test_secret" with PublicClient := true, StandardFlowEnabled := true }

/-- The states of the sample update request with `sampleRedirectPayload`: after caller
negotiation, administrative negotiation, lookup and secret fetch. -/
def redirectS1 : St := callerState sampleLib5 sampleUpstream sampleRedirectPayload St.fresh

def redirectS2 : St := adminState sampleLib5 sampleUpstream sampleRedirectPayload redirectS1

def redirectS3 : St :=
  (getClient sampleLib5 sampleUpstream sampleConfig "admin-token"
    (sentDefinition sampleRedirectClient "mine") redirectS2).1

def redirectS4 : St :=
  (getClientSecret sampleLib5 sampleUpstream sampleConfig "admin-token" sampleInfo.ID
    redirectS3).1



/-! ## Basic facts -/

@[simp] theorem St.Println_calls (s : St) (a : List LogArg) : (s.Println a).calls = s.calls := rfl

@[simp] theorem St.Println_w (s : St) (a : List LogArg) : (s.Println a).w = s.w := rfl

@[simp] theorem St.Println_panicked (s : St) (a : List LogArg) :
    (s.Println a).panicked = s.panicked := rfl

@[simp] theorem St.Println_log (s : St) (a : List LogArg) :
    (s.Println a).log = s.log ++ [.println a] := rfl

@[simp] theorem St.Printf_calls (s : St) (f : String) (a : List LogArg) :
    (s.Printf f a).calls = s.calls := rfl

@[simp] theorem St.Printf_w (s : St) (f : String) (a : List LogArg) : (s.Printf f a).w = s.w := rfl

@[simp] theorem St.Printf_panicked (s : St) (f : String) (a : List LogArg) :
    (s.Printf f a).panicked = s.panicked := rfl

@[simp] theorem St.Printf_log (s : St) (f : String) (a : List LogArg) :
    (s.Printf f a).log = s.log ++ [.printf f a] := rfl

@[simp] theorem St.StdPrintln_calls (s : St) (a : List LogArg) :
    (s.StdPrintln a).calls = s.calls := rfl

@[simp] theorem St.StdPrintln_w (s : St) (a : List LogArg) : (s.StdPrintln a).w = s.w := rfl

@[simp] theorem St.StdPrintln_panicked (s : St) (a : List LogArg) :
    (s.StdPrintln a).panicked = s.panicked := rfl

@[simp] theorem St.StdPrintln_log (s : St) (a : List LogArg) :
    (s.StdPrintln a).log = s.log ++ [.stdPrintln a] := rfl

@[simp] theorem St.httpError_calls (s : St) (e : String) (c : Nat) :
    (s.httpError e c).calls = s.calls := rfl

@[simp] theorem St.httpError_w (s : St) (e : String) (c : Nat) :
    (s.httpError e c).w = s.w.Error e c := rfl

@[simp] theorem St.httpError_panicked (s : St) (e : String) (c : Nat) :
    (s.httpError e c).panicked = s.panicked := rfl

@[simp] theorem St.httpError_log (s : St) (e : String) (c : Nat) :
    (s.httpError e c).log = s.log := rfl

/-- On a response that was not started, `http.Error` fixes the status and appends the
message and a newline to the body. -/
theorem ResponseRecorder.Error_unwritten (w : ResponseRecorder) (e : String) (c : Nat)
    (hw : w.wroteHeader = false) :
    (w.Error e c).Code = c ∧ (w.Error e c).Body = w.Body ++ (e ++ "\n") ∧
      (w.Error e c).wroteHeader = true := by
  simp [ResponseRecorder.Error, ResponseRecorder.Write, ResponseRecorder.WriteHeader,
    ResponseRecorder.SetHeader, hw]

theorem wroteUpstreamFailure_of_eq (L : GoLib) (s out : St) (m : String)
    (h : out.w = s.w.Error (L.jsonMarshal (ApiError.toJson ⟨"10000", m⟩)) 500) :
    wroteUpstreamFailure L s out m := by
  refine ⟨h, fun hw => ?_⟩
  rw [h]
  exact ⟨(ResponseRecorder.Error_unwritten _ _ _ hw).1, (ResponseRecorder.Error_unwritten _ _ _ hw).2.1⟩

/-- The state and the result of `doRequest` in terms of the upstream's reply. -/
theorem doRequest_spec (up : Upstream) (req : HttpRequest) (s s1 : St) (res : Res String)
    (h : doRequest up req s = (s1, res)) :
    s1.calls = s.calls ++ [(req, up s.calls req)] ∧ s1.w = s.w ∧ s1.panicked = s.panicked ∧
      res = (up s.calls req).result := by
  unfold doRequest at h
  cases hr : up s.calls req with
  | doError e => simp [hr] at h; obtain ⟨rfl, rfl⟩ := h; simp [Reply.result]
  | readError c e => simp [hr] at h; obtain ⟨rfl, rfl⟩ := h; simp [Reply.result]
  | response st b =>
    simp only [hr] at h
    by_cases hok : okStatus st
    · have : ¬ (200 ≠ st ∧ 201 ≠ st ∧ 204 ≠ st) := by unfold okStatus at hok; omega
      simp [this] at h; obtain ⟨rfl, rfl⟩ := h; simp [Reply.result, hok]
    · have : (200 ≠ st ∧ 201 ≠ st ∧ 204 ≠ st) := by unfold okStatus at hok; omega
      simp [this] at h; obtain ⟨rfl, rfl⟩ := h; simp [Reply.result, hok]

/-- If the exchange `doRequest` recorded carries a rejected reply, the call returned
the reply's body as its error. -/
theorem doRequest_rejected_of_trace (up : Upstream) (req req' : HttpRequest) (s s1 : St)
    (res : Res String) (status : Nat) (m : String)
    (h : doRequest up req s = (s1, res))
    (ht : s1.calls = s.calls ++ [(req', .response status m)]) (hs : ¬ okStatus status) :
    res = .err (.other m) ∧ s1.w = s.w := by
  obtain ⟨hc, hw, -, hres⟩ := doRequest_spec up req s s1 res h
  rw [hc] at ht
  simp only [List.append_cancel_left_eq, List.cons.injEq, Prod.mk.injEq, and_true] at ht
  rw [ht.2] at hres
  simp [hres, hw, Reply.result, hs]

/-- The state and result of `doRequest` in closed form. -/
theorem doRequest_eq (up : Upstream) (req : HttpRequest) (s : St) :
    doRequest up req s =
      ({ s with calls := s.calls ++ [(req, up s.calls req)],
                log := s.log ++ (up s.calls req).logged req.URL },
        (up s.calls req).result) := by
  unfold doRequest
  cases hr : up s.calls req with
  | doError e => simp [Reply.result, Reply.logged]
  | readError c e => simp [Reply.result, Reply.logged]
  | response st b =>
    by_cases hok : okStatus st
    · have : ¬ (200 ≠ st ∧ 201 ≠ st ∧ 204 ≠ st) := by unfold okStatus at hok; omega
      simp [this, Reply.result, Reply.logged, hok]
    · have : (200 ≠ st ∧ 201 ≠ st ∧ 204 ≠ st) := by unfold okStatus at hok; omega
      simp [this, Reply.result, Reply.logged, hok, St.Printf]

theorem Reply.result_ok_iff (rp : Reply) (b : String) :
    rp.result = .ok b → rp.succeeded = true := by
  intro h
  cases rp with
  | doError e => simp [Reply.result] at h
  | readError c e => simp [Reply.result] at h
  | response st body =>
    by_cases hok : okStatus st <;> simp_all [Reply.result, Reply.succeeded]

theorem Reply.result_cases (rp : Reply) :
    (∃ b, rp.result = .ok b) ∨ ∃ e, rp.result = .err e := by
  cases rp with
  | doError e => exact Or.inr ⟨_, rfl⟩
  | readError c e => exact Or.inr ⟨_, rfl⟩
  | response st body =>
    by_cases hok : okStatus st
    · exact Or.inl ⟨body, by simp [Reply.result, hok]⟩
    · exact Or.inr ⟨.other body, by simp [Reply.result, hok]⟩

theorem Reply.result_err (rp : Reply) (h : rp.succeeded = false) :
    rp.result = .err (.other rp.errorText) := by
  cases rp <;> simp_all [Reply.result, Reply.succeeded, Reply.errorText]

theorem Reply.result_of_succeeded (rp : Reply) (h : rp.succeeded = true) :
    rp.result = .ok rp.errorText := by
  cases rp <;> simp_all [Reply.result, Reply.succeeded, Reply.errorText]

@[simp] theorem tokenRequest_URL (L : GoLib) (url : String) (b : Values) :
    (tokenRequest L url b).URL = url := rfl

@[simp] theorem attemptState_calls (L : GoLib) (up : Upstream) (url : String) (b : Values)
    (s : St) : (attemptState L up url b s).calls
      = s.calls ++ [(tokenRequest L url b, up s.calls (tokenRequest L url b))] := rfl

@[simp] theorem attemptState_w (L : GoLib) (up : Upstream) (url : String) (b : Values)
    (s : St) : (attemptState L up url b s).w = s.w := rfl

@[simp] theorem attemptState_log (L : GoLib) (up : Upstream) (url : String) (b : Values)
    (s : St) : (attemptState L up url b s).log
      = s.log ++ [.println [.str url]] ++ (up s.calls (tokenRequest L url b)).logged url := rfl

/-- One turn of the loop of `authenticate` when the request can be built. -/
theorem authLoop_cons (L : GoLib) (up : Upstream) (url : String) (b : Values)
    (rest : List Values) (tb : String) (ae : Option GoError) (s : St)
    (hN : L.NewRequest "POST" url = none) :
    authLoop L up url (b :: rest) tb ae s =
      (if (up s.calls (tokenRequest L url b)).succeeded then
         match authEntityOf (redact b) with
         | .ok authEntity =>
           ((attemptState L up url b s).Printf "Successful auth %s" [.values (redact b)],
             .done (up s.calls (tokenRequest L url b)).errorText none authEntity)
         | .err e =>
           ((attemptState L up url b s).Printf "Successful auth %s" [.values (redact b)],
             .returned e)
         | .panic m =>
           ((attemptState L up url b s).Printf "Successful auth %s" [.values (redact b)],
             .panicked m)
       else
         authLoop L up url rest "" (some (.other (up s.calls (tokenRequest L url b)).errorText))
           ((attemptState L up url b s).Printf "Failed auth attempt %s"
             [.values (redact b)])) := by
  rw [authLoop]
  simp only [hN, doRequest_eq, St.Println_calls, St.Println_log, attemptState]
  generalize up s.calls (tokenRequest L url b) = rp
  cases hs : rp.succeeded
  · simp [Reply.result_err _ hs, St.Printf]
  · simp [Reply.result_of_succeeded _ hs, St.Printf]

theorem authLoop_cons_bad (L : GoLib) (up : Upstream) (url : String) (b : Values)
    (rest : List Values) (tb : String) (ae : Option GoError) (s : St) (e : String)
    (hN : L.NewRequest "POST" url = some e) :
    authLoop L up url (b :: rest) tb ae s =
      (((s.Println [.str url]).Println [.str e]).httpError e 401, .returned (.other e)) := by
  rw [authLoop]
  simp only [hN]

/-- The exchanges the loop of `authenticate` adds: token requests for a prefix of the
grant bodies, in order, each answered by the upstream, none after a success, and none
missing before one. -/
theorem authLoop_trace (L : GoLib) (up : Upstream) (url : String) :
    ∀ (bodies : List Values) (tb : String) (ae : Option GoError) (s : St),
      ∃ issued : List Exchange,
        (authLoop L up url bodies tb ae s).1.calls = s.calls ++ issued ∧
        issued.map Prod.fst = (bodies.take issued.length).map (tokenRequest L url) ∧
        (∀ i (hi : i < issued.length),
          (issued.get ⟨i, hi⟩).2 = up (s.calls ++ issued.take i) (issued.get ⟨i, hi⟩).1) ∧
        (∀ i (hi : i < issued.length),
          (issued.get ⟨i, hi⟩).2.succeeded = true → issued.length = i + 1) ∧
        (L.NewRequest "POST" url = none →
          issued.length = bodies.length ∨
            ∃ x, issued.getLast? = some x ∧ x.2.succeeded = true) := by
  intro bodies
  induction bodies with
  | nil =>
    intro tb ae s
    exact ⟨[], by simp [authLoop], by simp, by simp, by simp, by simp⟩
  | cons b rest ih =>
    intro tb ae s
    cases hN : L.NewRequest "POST" url with
    | some e =>
      refine ⟨[], ?_, by simp, by simp, by simp, by simp⟩
      rw [authLoop_cons_bad L up url b rest tb ae s e hN]
      simp
    | none =>
      rw [authLoop_cons L up url b rest tb ae s hN]
      cases hs : (up s.calls (tokenRequest L url b)).succeeded with
      | true =>
        refine ⟨[(tokenRequest L url b, up s.calls (tokenRequest L url b))], ?_, by simp, ?_,
          ?_, ?_⟩
        · simp only [hs, if_true]
          cases authEntityOf (redact b) <;> simp
        · intro i hi
          have : i = 0 := by simpa using hi
          subst this
          simp
        · intro i hi _
          have : i = 0 := by simpa using hi
          subst this
          simp
        · intro _
          right
          exact ⟨_, rfl, hs⟩
      | false =>
        simp only [hs, Bool.false_eq_true, if_false]
        obtain ⟨issued, h1, h2, h3, h4, h5⟩ := ih "" (some (.other
          (up s.calls (tokenRequest L url b)).errorText))
          ((attemptState L up url b s).Printf "Failed auth attempt %s" [.values (redact b)])
        refine ⟨(tokenRequest L url b, up s.calls (tokenRequest L url b)) :: issued, ?_, ?_, ?_,
          ?_, ?_⟩
        · simpa using h1
        · simpa using h2
        · intro i hi
          cases i with
          | zero => simp
          | succ j =>
            have := h3 j (by simpa using hi)
            simpa using this
        · intro i hi hsucc
          cases i with
          | zero => simp [hs] at hsucc
          | succ j =>
            have := h4 j (by simpa using hi) (by simpa using hsucc)
            simpa using this
        · intro _
          rcases h5 hN with h | ⟨x, hx, hxs⟩
          · left; simp [h]
          · right
            refine ⟨x, ?_, hxs⟩
            cases issued with
            | nil => simp at hx
            | cons y ys => simpa [List.getLast?_cons_cons] using hx

theorem authEntityOf_resourceOwner (config : Config) (u p : String) :
    authEntityOf (redact (authResourceOwnerBody config u p)) = .ok u := by
  simp [authEntityOf, redact, authResourceOwnerBody, Values.get?, Values.set]

theorem authEntityOf_client (u p : String) :
    authEntityOf (redact (authClientBody u p)) = .ok u := by
  simp [authEntityOf, redact, authClientBody, Values.get?, Values.set]

theorem authEntityOf_admin (config : Config) :
    authEntityOf (redact (authClientCredentialAdminBody config)) = .ok config.IdpAdmin := by
  simp [authEntityOf, redact, authClientCredentialAdminBody, Values.get?, Values.set]

/-- The calls `authenticate` leaves are the calls its loop leaves. -/
theorem authenticate_calls (L : GoLib) (up : Upstream) (config : Config) (r : Request)
    (f : AuthBodyGetter) (s s1 : St) (authBody : List Values) (url : String)
    (hf : f config r s = (s1, .ok (authBody, url))) :
    (authenticate L up config r f s).1.calls = (authLoop L up url authBody "" none s1).1.calls := by
  simp only [authenticate, hf]
  split
  · rename_i h; simp [h]
  · rename_i h; simp [h]
  · rename_i h; simp [h]
  · rename_i h; simp only [h]; split <;> simp

/-- A loop that ends without error and without early return ends on a grant body that
was accepted; the label is read from that body. -/
theorem authLoop_done_entity (L : GoLib) (up : Upstream) (url : String) :
    ∀ (bodies : List Values) (tb : String) (ae : Option GoError) (s s2 : St) (tb' ent : String),
      authLoop L up url bodies tb ae s = (s2, .done tb' none ent) →
      (bodies = [] ∧ ae = none) ∨ ∃ b ∈ bodies, authEntityOf (redact b) = .ok ent := by
  intro bodies
  induction bodies with
  | nil =>
    intro tb ae s s2 tb' ent h
    simp [authLoop] at h
    exact Or.inl ⟨rfl, h.2.2.1⟩
  | cons b rest ih =>
    intro tb ae s s2 tb' ent h
    right
    cases hN : L.NewRequest "POST" url with
    | some e =>
      rw [authLoop_cons_bad L up url b rest tb ae s e hN] at h
      simp at h
    | none =>
      rw [authLoop_cons L up url b rest tb ae s hN] at h
      cases hs : (up s.calls (tokenRequest L url b)).succeeded with
      | true =>
        simp only [hs, if_true] at h
        cases he : authEntityOf (redact b) with
        | ok v =>
          simp only [he] at h
          simp at h
          exact ⟨b, by simp, by rw [he, h.2.2]⟩
        | err e => simp [he] at h
        | panic m => simp [he] at h
      | false =>
        simp only [hs, Bool.false_eq_true, if_false] at h
        rcases ih _ _ _ _ _ _ h with ⟨-, h2⟩ | ⟨b', hb', he⟩
        · simp at h2
        · exact ⟨b', by simp [hb'], he⟩

/-- A successful `authenticate` took its label from one of the getter's grant bodies. -/
theorem authenticate_ok_entity (L : GoLib) (up : Upstream) (config : Config) (r : Request)
    (f : AuthBodyGetter) (s s1 s' : St) (authBody : List Values) (url tok ent : String)
    (hf : f config r s = (s1, .ok (authBody, url)))
    (h : authenticate L up config r f s = (s', .ok (tok, ent))) :
    authBody = [] ∨ ∃ b ∈ authBody, authEntityOf (redact b) = .ok ent := by
  simp only [authenticate, hf] at h
  split at h
  · simp at h
  · simp at h
  · simp at h
  · rename_i hloop
    split at h
    · simp at h
    · simp only [Prod.mk.injEq, Res.ok.injEq] at h
      obtain ⟨-, -, rfl⟩ := h
      rcases authLoop_done_entity L up url authBody _ _ _ _ _ _ hloop with ⟨h1, -⟩ | h2
      · exact Or.inl h1
      · exact Or.inr h2

/-- Caller negotiation when the upstream rejects both grants. -/
theorem authenticate_caller_rejected (L : GoLib) (up : Upstream) (config : Config)
    (r : Request) (s : St) (u p : String) (hr : r.BasicAuth = some (u, p))
    (hN : L.NewRequest "POST" (callerTokenURL L config) = none)
    (h1 : (up s.calls (passwordGrantRequest L config u p)).succeeded = false)
    (h2 : (up (s.calls ++ [(passwordGrantRequest L config u p,
        up s.calls (passwordGrantRequest L config u p))])
        (clientCredentialsRequest L config u p)).succeeded = false) :
    ∃ S : St,
      authenticate L up config r (getAuthBodyFromBasicAuth L) s
        = (S, .err (.other (up (s.calls ++ [(passwordGrantRequest L config u p,
            up s.calls (passwordGrantRequest L config u p))])
            (clientCredentialsRequest L config u p)).errorText)) ∧
      S.calls = s.calls ++ [(passwordGrantRequest L config u p,
          up s.calls (passwordGrantRequest L config u p)),
        (clientCredentialsRequest L config u p,
          up (s.calls ++ [(passwordGrantRequest L config u p,
            up s.calls (passwordGrantRequest L config u p))])
            (clientCredentialsRequest L config u p))] ∧
      S.w = s.w.Error (L.jsonMarshal (ApiError.toJson ⟨"10000",
        (up (s.calls ++ [(passwordGrantRequest L config u p,
            up s.calls (passwordGrantRequest L config u p))])
            (clientCredentialsRequest L config u p)).errorText⟩)) 401 := by
  have hf : getAuthBodyFromBasicAuth L config r s
      = (s, .ok ([authResourceOwnerBody config u p, authClientBody u p],
          callerTokenURL L config)) := by
    simp [getAuthBodyFromBasicAuth, hr, callerTokenURL]
  unfold passwordGrantRequest clientCredentialsRequest at *
  simp only [authenticate, hf]
  rw [authLoop_cons L up _ _ _ _ _ _ hN]
  simp only [h1, Bool.false_eq_true, if_false]
  rw [authLoop_cons L up _ _ _ _ _ _ hN]
  simp only [St.Printf_calls, attemptState_calls, h2, Bool.false_eq_true, if_false, authLoop]
  refine ⟨_, rfl, ?_, ?_⟩
  · simp
  · simp [GoError.Error]

theorem createClient_rejected (L : GoLib) (up : Upstream) (config : Config) (token : String)
    (client : Client) (s : St) (status : Nat) (m : String) (hs : ¬ okStatus status)
    (h : answeredWith s (createClient L up config token client s).1 status m) :
    (createClient L up config token client s).2 = .err (.api ⟨"10000", m⟩) ∧
    (createClient L up config token client s).1.w
      = s.w.Error (L.jsonMarshal (ApiError.toJson ⟨"10000", m⟩)) 500 := by
  obtain ⟨req, h⟩ := h
  simp only [createClient] at h ⊢
  split at h
  · simp at h
  · split at h <;> rename_i s2 _ heq <;> (try simp only [heq]) <;>
      have hcalls : s2.calls = s.calls ++ [(req, Reply.response status m)] := by
        all_goals simpa using h
    all_goals have hr := doRequest_rejected_of_trace _ _ _ _ _ _ _ _ heq hcalls hs
    all_goals simp_all [GoError.Error]

theorem getClientID_rejected (L : GoLib) (up : Upstream) (config : Config) (token : String)
    (client : ClientWithSecret) (s : St) (status : Nat) (m : String) (hs : ¬ okStatus status)
    (h : answeredWith s (getClientID L up config token client s).1 status m) :
    (getClientID L up config token client s).2 = .err (.api ⟨"10000", m⟩) ∧
    (getClientID L up config token client s).1.w
      = s.w.Error (L.jsonMarshal (ApiError.toJson ⟨"10000", m⟩)) 500 := by
  obtain ⟨req, h⟩ := h
  simp only [getClientID] at h ⊢
  split at h
  · simp at h
  · split at h <;> rename_i s2 _ heq <;> (try simp only [heq]) <;>
      have hcalls : s2.calls = s.calls ++ [(req, Reply.response status m)] := by
        repeat' split at h
        all_goals simpa using h
    all_goals have hr := doRequest_rejected_of_trace _ _ _ _ _ _ _ _ heq hcalls hs
    all_goals simp_all [GoError.Error]

theorem getClient_rejected (L : GoLib) (up : Upstream) (config : Config) (token : String)
    (client : Client) (s : St) (status : Nat) (m : String) (hs : ¬ okStatus status)
    (h : answeredWith s (getClient L up config token client s).1 status m) :
    (getClient L up config token client s).2 = .err (.api ⟨"10000", m⟩) ∧
    (getClient L up config token client s).1.w
      = s.w.Error (L.jsonMarshal (ApiError.toJson ⟨"10000", m⟩)) 500 := by
  obtain ⟨req, h⟩ := h
  simp only [getClient] at h ⊢
  split at h
  · simp at h
  · split at h <;> rename_i s2 _ heq <;> (try simp only [heq]) <;>
      have hcalls : s2.calls = s.calls ++ [(req, Reply.response status m)] := by
        repeat' split at h
        all_goals simpa using h
    all_goals have hr := doRequest_rejected_of_trace _ _ _ _ _ _ _ _ heq hcalls hs
    all_goals simp_all [GoError.Error]

theorem getClientSecret_rejected (L : GoLib) (up : Upstream) (config : Config) (token : String)
    (clientUID : String) (s : St) (status : Nat) (m : String) (hs : ¬ okStatus status)
    (h : answeredWith s (getClientSecret L up config token clientUID s).1 status m) :
    (getClientSecret L up config token clientUID s).2 = .err (.api ⟨"10000", m⟩) ∧
    (getClientSecret L up config token clientUID s).1.w
      = s.w.Error (L.jsonMarshal (ApiError.toJson ⟨"10000", m⟩)) 500 := by
  obtain ⟨req, h⟩ := h
  simp only [getClientSecret] at h ⊢
  split at h
  · simp at h
  · split at h <;> rename_i s2 _ heq <;> (try simp only [heq]) <;>
      have hcalls : s2.calls = s.calls ++ [(req, Reply.response status m)] := by
        repeat' split at h
        all_goals simpa using h
    all_goals have hr := doRequest_rejected_of_trace _ _ _ _ _ _ _ _ heq hcalls hs
    all_goals simp_all [GoError.Error]

theorem updateClient_rejected (L : GoLib) (up : Upstream) (config : Config) (token : String)
    (client : Client) (clientUID : String) (s : St) (status : Nat) (m : String) (hs : ¬ okStatus status)
    (h : answeredWith s (updateClient L up config token client clientUID s).1 status m) :
    (updateClient L up config token client clientUID s).2 = .err (.api ⟨"10000", m⟩) ∧
    (updateClient L up config token client clientUID s).1.w
      = s.w.Error (L.jsonMarshal (ApiError.toJson ⟨"10000", m⟩)) 500 := by
  obtain ⟨req, h⟩ := h
  simp only [updateClient] at h ⊢
  split at h
  · simp at h
  · split at h <;> rename_i s2 _ heq <;> (try simp only [heq]) <;>
      have hcalls : s2.calls = s.calls ++ [(req, Reply.response status m)] := by
        all_goals simpa using h
    all_goals have hr := doRequest_rejected_of_trace _ _ _ _ _ _ _ _ heq hcalls hs
    all_goals simp_all [GoError.Error]

theorem deleteClient_rejected (L : GoLib) (up : Upstream) (config : Config) (token : String)
    (clientUID : String) (s : St) (status : Nat) (m : String) (hs : ¬ okStatus status)
    (h : answeredWith s (deleteClient L up config token clientUID s).1 status m) :
    (deleteClient L up config token clientUID s).2 = .err (.api ⟨"10000", m⟩) ∧
    (deleteClient L up config token clientUID s).1.w
      = s.w.Error (L.jsonMarshal (ApiError.toJson ⟨"10000", m⟩)) 500 := by
  obtain ⟨req, h⟩ := h
  simp only [deleteClient] at h ⊢
  split at h
  · simp at h
  · split at h <;> rename_i s2 _ heq <;> (try simp only [heq]) <;>
      have hcalls : s2.calls = s.calls ++ [(req, Reply.response status m)] := by
        all_goals simpa using h
    all_goals have hr := doRequest_rejected_of_trace _ _ _ _ _ _ _ _ heq hcalls hs
    all_goals simp_all [GoError.Error]

theorem createUser_rejected (L : GoLib) (up : Upstream) (config : Config) (token : String)
    (user : User) (s : St) (status : Nat) (m : String) (hs : ¬ okStatus status)
    (h : answeredWith s (createUser L up config token user s).1 status m) :
    (createUser L up config token user s).2 = .err (.api ⟨"10000", m⟩) ∧
    (createUser L up config token user s).1.w = s.w := by
  obtain ⟨req, h⟩ := h
  simp only [createUser] at h ⊢
  split at h
  · simp at h
  · split at h <;> rename_i s2 _ heq <;> (try simp only [heq]) <;>
      have hcalls : s2.calls = s.calls ++ [(req, Reply.response status m)] := by
        all_goals simpa using h
    all_goals have hr := doRequest_rejected_of_trace _ _ _ _ _ _ _ _ heq hcalls hs
    all_goals simp_all [GoError.Error]

theorem getUserID_rejected (L : GoLib) (up : Upstream) (config : Config) (token : String)
    (user : User) (s : St) (status : Nat) (m : String) (hs : ¬ okStatus status)
    (h : answeredWith s (getUserID L up config token user s).1 status m) :
    (getUserID L up config token user s).2 = .err (.api ⟨"10000", m⟩) ∧
    (getUserID L up config token user s).1.w = s.w := by
  obtain ⟨req, h⟩ := h
  simp only [getUserID] at h ⊢
  split at h
  · simp at h
  · split at h <;> rename_i s2 _ heq <;> (try simp only [heq]) <;>
      have hcalls : s2.calls = s.calls ++ [(req, Reply.response status m)] := by
        repeat' split at h
        all_goals simpa using h
    all_goals have hr := doRequest_rejected_of_trace _ _ _ _ _ _ _ _ heq hcalls hs
    all_goals simp_all [GoError.Error]

theorem deleteUser_rejected (L : GoLib) (up : Upstream) (config : Config) (token : String)
    (userUID : String) (s : St) (status : Nat) (m : String) (hs : ¬ okStatus status)
    (h : answeredWith s (deleteUser L up config token userUID s).1 status m) :
    (deleteUser L up config token userUID s).2 = .err (.api ⟨"10000", m⟩) ∧
    (deleteUser L up config token userUID s).1.w = s.w := by
  obtain ⟨req, h⟩ := h
  simp only [deleteUser] at h ⊢
  split at h
  · simp at h
  · split at h <;> rename_i s2 _ heq <;> (try simp only [heq]) <;>
      have hcalls : s2.calls = s.calls ++ [(req, Reply.response status m)] := by
        all_goals simpa using h
    all_goals have hr := doRequest_rejected_of_trace _ _ _ _ _ _ _ _ heq hcalls hs
    all_goals simp_all [GoError.Error]

theorem setUserPassword_rejected (L : GoLib) (up : Upstream) (config : Config) (token : String)
    (userCredential : UserSecret) (userUID : String) (s : St) (status : Nat) (m : String) (hs : ¬ okStatus status)
    (h : answeredWith s (setUserPassword L up config token userCredential userUID s).1 status m) :
    (setUserPassword L up config token userCredential userUID s).2 = .err (.api ⟨"10000", m⟩) ∧
    (setUserPassword L up config token userCredential userUID s).1.w = s.w := by
  obtain ⟨req, h⟩ := h
  simp only [setUserPassword] at h ⊢
  split at h
  · simp at h
  · split at h <;> rename_i s2 _ heq <;> (try simp only [heq]) <;>
      have hcalls : s2.calls = s.calls ++ [(req, Reply.response status m)] := by
        all_goals simpa using h
    all_goals have hr := doRequest_rejected_of_trace _ _ _ _ _ _ _ _ heq hcalls hs
    all_goals simp_all [GoError.Error]

theorem Values.get?_append (a b : Values) (k : String) :
    Values.get? (a ++ b) k = match Values.get? a k with
      | some x => some x
      | none => Values.get? b k := by
  induction a with
  | nil => simp [Values.get?]
  | cons e rest ih =>
    obtain ⟨k0, x0⟩ := e
    by_cases h : k0 = k
    · simp [Values.get?, h]
    · simp [Values.get?, h, ih]

theorem Values.get?_map_set (v : Values) (key : String) (x : List String) (k : String) :
    Values.get? (v.map (fun e => if e.1 = key then (key, x) else e)) k
      = if k = key then (Values.get? v key).map (fun _ => x) else Values.get? v k := by
  induction v with
  | nil => simp [Values.get?]
  | cons e rest ih =>
    obtain ⟨k0, x0⟩ := e
    simp only [List.map_cons]
    by_cases h0 : k0 = key
    · rw [if_pos (show (k0, x0).1 = key from h0)]
      by_cases h : k = key
      · rw [if_pos h, Values.get?, Values.get?, if_pos h.symm, if_pos h0]
        rfl
      · rw [if_neg h, Values.get?, Values.get?, if_neg (fun hh => h hh.symm),
          if_neg (fun hh => h (hh.symm.trans h0)), ih, if_neg h]
    · rw [if_neg (show ¬ (k0, x0).1 = key from h0)]
      by_cases h : k = key
      · rw [if_pos h, Values.get?, Values.get?, if_neg (fun hh => h0 (hh.trans h)), if_neg h0,
          ih, if_pos h]
      · rw [if_neg h, Values.get?, Values.get?, ih, if_neg h]

theorem Values.get?_set (v : Values) (key : String) (x : List String) (k : String) :
    Values.get? (Values.set v key x) k = if k = key then some x else Values.get? v k := by
  unfold Values.set
  cases h : Values.get? v key with
  | none =>
    simp only [Values.get?_append]
    by_cases hk : k = key
    · subst hk
      simp [h, Values.get?]
    · have : ¬ key = k := fun hh => hk hh.symm
      cases Values.get? v k <;> simp [Values.get?, hk, this]
  | some y =>
    simp only [Values.get?_map_set, h]
    by_cases hk : k = key <;> simp [hk]

/-- After the masking statements a present `password` and a present `client_secret`
hold the placeholder. -/
theorem redact_masked (b : Values) : (redact b).masked := by
  unfold Values.masked redact
  cases hp : Values.get? b "password" <;> cases hc : Values.get? b "client_secret" <;>
    simp [hp, hc, Values.get?_set]

/-- The records `doRequest` logs carry no grant body. -/
theorem Reply.logged_no_values (url : String) (rp : Reply) :
    ∀ rec ∈ rp.logged url, ∀ v, LogArg.values v ∉ rec.args := by
  intro rec hrec v
  cases rp with
  | doError e => simp [Reply.logged] at hrec
  | readError c e => simp [Reply.logged] at hrec
  | response st body =>
    by_cases hok : okStatus st
    · simp [Reply.logged, hok] at hrec
    · simp only [Reply.logged, hok, if_false, List.mem_cons, List.mem_singleton,
        List.not_mem_nil, or_false] at hrec
      rcases hrec with rfl | rfl <;> simp [LogRecord.args]

/-- Every grant body the loop of `authenticate` logs is the masked form of one of the
bodies it was given. -/
theorem authLoop_log_masked (L : GoLib) (up : Upstream) (url : String) :
    ∀ (bodies : List Values) (tb : String) (ae : Option GoError) (s : St),
      ∃ new : List LogRecord,
        (authLoop L up url bodies tb ae s).1.log = s.log ++ new ∧
        ∀ rec ∈ new, ∀ v, LogArg.values v ∈ rec.args → ∃ b ∈ bodies, v = redact b := by
  intro bodies
  induction bodies with
  | nil =>
    intro tb ae s
    exact ⟨[], by simp [authLoop], by simp⟩
  | cons b rest ih =>
    intro tb ae s
    cases hN : L.NewRequest "POST" url with
    | some e =>
      rw [authLoop_cons_bad L up url b rest tb ae s e hN]
      refine ⟨[.println [.str url], .println [.str e]], by simp, ?_⟩
      intro rec hrec v hv
      simp only [List.mem_cons, List.mem_singleton, List.not_mem_nil, or_false] at hrec
      rcases hrec with rfl | rfl <;> simp [LogRecord.args] at hv
    | none =>
      rw [authLoop_cons L up url b rest tb ae s hN]
      cases hs : (up s.calls (tokenRequest L url b)).succeeded with
      | true =>
        simp only [if_true]
        refine ⟨[.println [.str url]] ++ (up s.calls (tokenRequest L url b)).logged url ++
          [.printf "Successful auth %s" [.values (redact b)]], ?_, ?_⟩
        · cases authEntityOf (redact b) <;> simp
        · intro rec hrec v hv
          simp only [List.mem_append, List.mem_singleton] at hrec
          rcases hrec with (rfl | hrec) | rfl
          · simp [LogRecord.args] at hv
          · exact absurd hv (Reply.logged_no_values url _ rec hrec v)
          · simp only [LogRecord.args, List.mem_singleton, LogArg.values.injEq] at hv
            exact ⟨b, by simp, hv⟩
      | false =>
        simp only [Bool.false_eq_true, if_false]
        obtain ⟨new, h1, h2⟩ := ih "" (some (.other
          (up s.calls (tokenRequest L url b)).errorText))
          ((attemptState L up url b s).Printf "Failed auth attempt %s" [.values (redact b)])
        refine ⟨[.println [.str url]] ++ (up s.calls (tokenRequest L url b)).logged url ++
          [.printf "Failed auth attempt %s" [.values (redact b)]] ++ new, ?_, ?_⟩
        · rw [h1]; simp
        · intro rec hrec v hv
          simp only [List.mem_append, List.mem_singleton] at hrec
          rcases hrec with ((rfl | hrec) | rfl) | hrec
          · simp [LogRecord.args] at hv
          · exact absurd hv (Reply.logged_no_values url _ rec hrec v)
          · simp only [LogRecord.args, List.mem_singleton, LogArg.values.injEq] at hv
            exact ⟨b, by simp, hv⟩
          · obtain ⟨b', hb', hv'⟩ := h2 rec hrec v hv
            exact ⟨b', by simp [hb'], hv'⟩

/-- The first exchange of a loop that can build its request. -/
theorem authLoop_cons_calls (L : GoLib) (up : Upstream) (url : String) (b : Values)
    (rest : List Values) (tb : String) (ae : Option GoError) (s : St)
    (hN : L.NewRequest "POST" url = none) :
    ∃ more : List Exchange, (authLoop L up url (b :: rest) tb ae s).1.calls
      = s.calls ++ (tokenRequest L url b, up s.calls (tokenRequest L url b)) :: more := by
  rw [authLoop_cons L up url b rest tb ae s hN]
  cases hs : (up s.calls (tokenRequest L url b)).succeeded with
  | true =>
    refine ⟨[], ?_⟩
    simp only [if_true]
    cases authEntityOf (redact b) <;> simp
  | false =>
    simp only [Bool.false_eq_true, if_false]
    obtain ⟨issued, h1, -⟩ := authLoop_trace L up url rest "" (some (.other
      (up s.calls (tokenRequest L url b)).errorText))
      ((attemptState L up url b s).Printf "Failed auth attempt %s" [.values (redact b)])
    exact ⟨issued, by rw [h1]; simp⟩

/-- Two runs of the loop on grant bodies that agree after masking, from states with
the same log and the same replies so far: if the replies of the two runs are the same,
so are the logs and the way the loop is left. -/
theorem authLoop_log_agree (L : GoLib) (up1 up2 : Upstream) (url : String) :
    ∀ (bodies1 bodies2 : List Values) (tb : String) (ae : Option GoError) (sa sb : St),
      bodies1.map redact = bodies2.map redact →
      sa.log = sb.log → sa.calls.map Prod.snd = sb.calls.map Prod.snd →
      (authLoop L up1 url bodies1 tb ae sa).1.calls.map Prod.snd
        = (authLoop L up2 url bodies2 tb ae sb).1.calls.map Prod.snd →
      (authLoop L up1 url bodies1 tb ae sa).1.log = (authLoop L up2 url bodies2 tb ae sb).1.log ∧
      (authLoop L up1 url bodies1 tb ae sa).2 = (authLoop L up2 url bodies2 tb ae sb).2 := by
  intro bodies1
  induction bodies1 with
  | nil =>
    intro bodies2 tb ae sa sb hm hlog _ _
    have : bodies2 = [] := by simpa using hm.symm
    subst this
    simp [authLoop, hlog]
  | cons b1 r1 ih =>
    intro bodies2 tb ae sa sb hm hlog hrep hfin
    cases bodies2 with
    | nil => simp at hm
    | cons b2 r2 =>
      simp only [List.map_cons, List.cons.injEq] at hm
      obtain ⟨hb, hr⟩ := hm
      cases hN : L.NewRequest "POST" url with
      | some e =>
        rw [authLoop_cons_bad L up1 url b1 r1 tb ae sa e hN,
          authLoop_cons_bad L up2 url b2 r2 tb ae sb e hN]
        simp [hlog]
      | none =>
        have hrp : up1 sa.calls (tokenRequest L url b1) = up2 sb.calls (tokenRequest L url b2) := by
          obtain ⟨m1, hm1⟩ := authLoop_cons_calls L up1 url b1 r1 tb ae sa hN
          obtain ⟨m2, hm2⟩ := authLoop_cons_calls L up2 url b2 r2 tb ae sb hN
          rw [hm1, hm2, List.map_append, List.map_append, hrep] at hfin
          have := List.append_cancel_left hfin
          simp only [List.map_cons, List.cons.injEq] at this
          exact this.1
        rw [authLoop_cons L up1 url b1 r1 tb ae sa hN,
          authLoop_cons L up2 url b2 r2 tb ae sb hN] at hfin ⊢
        rw [hrp] at hfin ⊢
        cases hs : (up2 sb.calls (tokenRequest L url b2)).succeeded with
        | true =>
          simp only [if_true, hb]
          cases authEntityOf (redact b2) <;> simp [hlog, hrp]
        | false =>
          simp only [hs, Bool.false_eq_true, if_false] at hfin ⊢
          refine ih r2 _ _ _ _ hr ?_ ?_ hfin
          · simp [hlog, hrp, hb]
          · simp [hrep, hrp]

theorem LoopExit.postLog_no_values (L : GoLib) (x : LoopExit) :
    ∀ rec ∈ x.postLog L, ∀ v, LogArg.values v ∉ rec.args := by
  intro rec hrec v
  cases x with
  | returned e => simp [LoopExit.postLog] at hrec
  | panicked m => simp [LoopExit.postLog] at hrec
  | done tb ae ent =>
    cases ae with
    | some authErr =>
      simp only [LoopExit.postLog, List.mem_singleton] at hrec
      subst hrec
      simp [LogRecord.args]
    | none =>
      simp only [LoopExit.postLog] at hrec
      split at hrec
      · simp only [List.mem_singleton] at hrec
        subst hrec
        simp [LogRecord.args]
      · simp at hrec

/-- The log `authenticate` leaves: the log of its loop, then the closing records. -/
theorem authenticate_log (L : GoLib) (up : Upstream) (config : Config) (r : Request)
    (f : AuthBodyGetter) (s s1 : St) (authBody : List Values) (url : String)
    (hf : f config r s = (s1, .ok (authBody, url))) :
    (authenticate L up config r f s).1.log
      = (authLoop L up url authBody "" none s1).1.log
        ++ (authLoop L up url authBody "" none s1).2.postLog L := by
  simp only [authenticate, hf]
  split
  · rename_i h; simp [h, LoopExit.postLog]
  · rename_i h; simp [h, LoopExit.postLog]
  · rename_i h; simp [h, LoopExit.postLog]
  · rename_i h
    simp only [h, LoopExit.postLog]
    split <;> simp

theorem authLoop_done_w (L : GoLib) (up : Upstream) (url : String) :
    ∀ (bodies : List Values) (tb : String) (ae : Option GoError) (s s2 : St) (tb' : String)
      (ae' : Option GoError) (ent : String),
      authLoop L up url bodies tb ae s = (s2, .done tb' ae' ent) → s2.w = s.w := by
  intro bodies
  induction bodies with
  | nil =>
    intro tb ae s s2 tb' ae' ent h
    simp [authLoop] at h
    rw [← h.1]
  | cons b rest ih =>
    intro tb ae s s2 tb' ae' ent h
    cases hN : L.NewRequest "POST" url with
    | some e =>
      rw [authLoop_cons_bad L up url b rest tb ae s e hN] at h
      simp at h
    | none =>
      rw [authLoop_cons L up url b rest tb ae s hN] at h
      cases hs : (up s.calls (tokenRequest L url b)).succeeded with
      | true =>
        simp only [hs, if_true] at h
        cases he : authEntityOf (redact b) <;> simp [he] at h
        rw [← h.1]; simp
      | false =>
        simp only [hs, Bool.false_eq_true, if_false] at h
        rw [ih _ _ _ _ _ _ _ h]; simp

/-- A successful `authenticate` leaves the inbound response as its getter left it. -/
theorem authenticate_ok_w (L : GoLib) (up : Upstream) (config : Config) (r : Request)
    (f : AuthBodyGetter) (s s1 s' : St) (authBody : List Values) (url : String)
    (x : String × String) (hf : f config r s = (s1, .ok (authBody, url)))
    (h : authenticate L up config r f s = (s', .ok x)) : s'.w = s1.w := by
  simp only [authenticate, hf] at h
  split at h
  · simp at h
  · simp at h
  · simp at h
  · rename_i hloop
    split at h
    · simp at h
    · simp only [Prod.mk.injEq] at h
      rw [← h.1]
      exact authLoop_done_w L up url authBody _ _ _ _ _ _ _ hloop

/-- The exchanges `authenticate` adds are `POST` requests. -/
theorem authenticate_added_posts (L : GoLib) (up : Upstream) (config : Config) (r : Request)
    (f : AuthBodyGetter) (s s1 : St) (authBody : List Values) (url : String)
    (hf : f config r s = (s1, .ok (authBody, url))) :
    ∃ issued : List Exchange, (authenticate L up config r f s).1.calls = s1.calls ++ issued ∧
      ∀ x ∈ issued, x.1.Method = "POST" := by
  rw [authenticate_calls L up config r f s s1 authBody url hf]
  obtain ⟨issued, h1, h2, -⟩ := authLoop_trace L up url authBody "" none s1
  refine ⟨issued, h1, ?_⟩
  intro x hx
  have : x.1 ∈ issued.map Prod.fst := List.mem_map_of_mem _ hx
  rw [h2] at this
  obtain ⟨b, -, hb⟩ := List.mem_map.1 this
  rw [← hb]
  rfl

theorem caller_getter_of_ok (L : GoLib) (up : Upstream) (config : Config) (r : Request)
    (s s' : St) (x : String × String)
    (h : authenticate L up config r (getAuthBodyFromBasicAuth L) s = (s', .ok x)) :
    ∃ u p, getAuthBodyFromBasicAuth L config r s
      = (s, .ok ([authResourceOwnerBody config u p, authClientBody u p],
          callerTokenURL L config)) := by
  cases hr : r.BasicAuth with
  | none =>
    simp [authenticate, getAuthBodyFromBasicAuth, hr] at h
  | some c =>
    exact ⟨c.1, c.2, by simp [getAuthBodyFromBasicAuth, hr, callerTokenURL]⟩

theorem admin_getter_eq (L : GoLib) (config : Config) (r : Request) (s : St) :
    getAdminAuthBody L config r s
      = (s, .ok ([authClientCredentialAdminBody config], adminTokenURL L config)) := rfl

/-- A successful `getClient` issued its one request and left the response alone. -/
theorem getClient_ok (L : GoLib) (up : Upstream) (config : Config) (token : String)
    (client : Client) (s s' : St) (info : ClientOut)
    (h : getClient L up config token client s = (s', .ok info)) :
    s'.calls = s.calls ++ [(getClientRequest L config token client,
        up s.calls (getClientRequest L config token client))] ∧ s'.w = s.w := by
  simp only [getClient, doRequest_eq] at h
  split at h
  · simp at h
  · rcases Reply.result_cases (up s.calls (getClientRequest L config token client))
      with ⟨resp, hres⟩ | ⟨e, hres⟩
    · unfold getClientRequest at hres
      simp only [hres] at h
      split at h
      · simp at h
      · simp only [Prod.mk.injEq] at h
        rw [← h.1]
        exact ⟨rfl, rfl⟩
    · unfold getClientRequest at hres
      simp [hres] at h

/-- A successful `getClientSecret` issued its one request and left the response
alone. -/
theorem getClientSecret_ok (L : GoLib) (up : Upstream) (config : Config) (token : String)
    (clientUID : String) (s s' : St) (secret : String)
    (h : getClientSecret L up config token clientUID s = (s', .ok secret)) :
    s'.calls = s.calls ++ [(getClientSecretRequest L config token clientUID,
        up s.calls (getClientSecretRequest L config token clientUID))] ∧ s'.w = s.w := by
  simp only [getClientSecret, doRequest_eq] at h
  split at h
  · simp at h
  · rcases Reply.result_cases (up s.calls (getClientSecretRequest L config token clientUID))
      with ⟨resp, hres⟩ | ⟨e, hres⟩
    · unfold getClientSecretRequest at hres
      simp only [hres] at h
      split at h
      · simp at h
      · simp only [Prod.mk.injEq] at h
        rw [← h.1]
        exact ⟨rfl, rfl⟩
    · unfold getClientSecretRequest at hres
      simp [hres] at h

/-- When its request can be built, `updateClient` issues it, once. -/
theorem updateClient_calls (L : GoLib) (up : Upstream) (config : Config) (token : String)
    (client : Client) (clientUID : String) (s : St)
    (hN : L.NewRequest "PUT"
      (L.Sprintf config.ClientURI [config.IdpURL, config.IdpRealm, clientUID]) = none) :
    (updateClient L up config token client clientUID s).1.calls
      = s.calls ++ [(updateClientRequest L config token client clientUID,
          up s.calls (updateClientRequest L config token client clientUID))] := by
  simp only [updateClient, doRequest_eq, hN]
  rcases Reply.result_cases (up s.calls (updateClientRequest L config token client clientUID))
    with ⟨resp, hres⟩ | ⟨e, hres⟩ <;>
  · unfold updateClientRequest at hres ⊢
    simp [hres]

/-- When its request can be built, `deleteClient` issues it, once. -/
theorem deleteClient_calls (L : GoLib) (up : Upstream) (config : Config) (token : String)
    (clientUID : String) (s : St)
    (hN : L.NewRequest "DELETE"
      (L.Sprintf config.ClientURI [config.IdpURL, config.IdpRealm, clientUID]) = none) :
    (deleteClient L up config token clientUID s).1.calls
      = s.calls ++ [(deleteClientRequest L config token clientUID,
          up s.calls (deleteClientRequest L config token clientUID))] := by
  simp only [deleteClient, doRequest_eq, hN]
  rcases Reply.result_cases (up s.calls (deleteClientRequest L config token clientUID))
    with ⟨resp, hres⟩ | ⟨e, hres⟩ <;>
  · unfold deleteClientRequest at hres ⊢
    simp [hres]

/-- The state of an update or delete request whose caller negotiation, payload
decoding, administrative negotiation, lookup and secret fetch succeeded: the response
is untouched and the calls so far are token requests and the two `GET` requests. -/
theorem secret_fetched_state (L : GoLib) (up : Upstream) (config : Config) (r : Request)
    (s s1 s2 s3 s4 : St) (callerToken callerLabel token adminLabel : String)
    (client : Client) (clientInfo : ClientOut) (clientSecret : String)
    (hcaller : authenticate L up config r (getAuthBodyFromBasicAuth L) s
      = (s1, .ok (callerToken, callerLabel)))
    (hadmin : authenticate L up config r (getAdminAuthBody L) s1 = (s2, .ok (token, adminLabel)))
    (hget : getClient L up config token client s2 = (s3, .ok clientInfo))
    (hsec : getClientSecret L up config token clientInfo.ID s3 = (s4, .ok clientSecret)) :
    s4.w = s.w ∧
    s4.calls = s2.calls ++ [(getClientRequest L config token client,
        up s2.calls (getClientRequest L config token client)),
      (getClientSecretRequest L config token clientInfo.ID,
        up (s2.calls ++ [(getClientRequest L config token client,
          up s2.calls (getClientRequest L config token client))])
          (getClientSecretRequest L config token clientInfo.ID))] ∧
    ∃ added : List Exchange, s4.calls = s.calls ++ added ∧
      ∀ x ∈ added, x.1.Method = "POST" ∨ x.1.Method = "GET" := by
  obtain ⟨u, p, hf⟩ := caller_getter_of_ok L up config r s s1 _ hcaller
  have hw1 := authenticate_ok_w L up config r _ s s s1 _ _ _ hf hcaller
  have hw2 := authenticate_ok_w L up config r _ s1 s1 s2 _ _ _
    (admin_getter_eq L config r s1) hadmin
  obtain ⟨hc3, hw3⟩ := getClient_ok L up config token client s2 s3 clientInfo hget
  obtain ⟨hc4, hw4⟩ := getClientSecret_ok L up config token clientInfo.ID s3 s4 clientSecret hsec
  obtain ⟨i1, hi1, hp1⟩ := authenticate_added_posts L up config r _ s s _ _ hf
  obtain ⟨i2, hi2, hp2⟩ := authenticate_added_posts L up config r _ s1 s1 _ _
    (admin_getter_eq L config r s1)
  rw [hcaller] at hi1
  rw [hadmin] at hi2
  simp only at hi1 hi2
  refine ⟨by rw [hw4, hw3, hw2, hw1], by rw [hc4, hc3]; simp, ?_⟩
  refine ⟨i1 ++ i2 ++ [(getClientRequest L config token client,
        up s2.calls (getClientRequest L config token client)),
      (getClientSecretRequest L config token clientInfo.ID,
        up s3.calls (getClientSecretRequest L config token clientInfo.ID))], ?_, ?_⟩
  · rw [hc4, hc3, hi2, hi1]; simp
  · intro x hx
    simp only [List.mem_append, List.mem_cons, List.mem_singleton, List.not_mem_nil,
      or_false] at hx
    rcases hx with (hx | hx) | rfl | rfl
    · exact Or.inl (hp1 x hx)
    · exact Or.inl (hp2 x hx)
    · exact Or.inr rfl
    · exact Or.inr rfl

theorem bearer_injective (a b : String) (h : bearer a = bearer b) : a = b := by
  unfold bearer at h
  have := congrArg String.data h
  simp only [String.data_append, List.append_cancel_left_eq] at this
  exact String.ext this

/-! ## C1: a wrong secret stops the mutation -/

/-- C1. Take an update or delete request whose caller negotiation, payload decoding and
validation, administrative negotiation, lookup and secret fetch all succeed. If the
caller-supplied `clientSecret` differs from the secret fetched from the upstream, the
response has status 401 and carries the JSON of the `ApiError` with code `"1009"`, the
handler issues no call after the secret fetch, and no `PUT` (for update) or `DELETE`
(for delete) request is among the calls of the request: `updateClient` and
`deleteClient` are not invoked. -/
theorem secret_mismatch_is_1009 (L : GoLib) (up : Upstream) (config : Config) (r : Request)
    (s s1 s2 s3 s4 : St) (callerToken callerLabel body token adminLabel : String)
    (client : Client) (clientWithSecret : ClientWithSecret) (clientInfo : ClientOut)
    (clientSecret : String)
    (hcaller : authenticate L up config r (getAuthBodyFromBasicAuth L) s
      = (s1, .ok (callerToken, callerLabel)))
    (hbody : r.Body = .ok body)
    (hdec : L.decodeClient body = .ok client)
    (hdecs : L.decodeClientWithSecret body = .ok clientWithSecret)
    (hadmin : authenticate L up config r (getAdminAuthBody L) s1 = (s2, .ok (token, adminLabel)))
    (hne : clientWithSecret.Secret ≠ clientSecret)
    (hw : s.w.wroteHeader = false) :
    (clientWithSecret.zeroFields = [] →
      getClient L up config token { applyRedirectUris client with PublicClient := false } s2
        = (s3, .ok clientInfo) →
      getClientSecret L up config token clientInfo.ID s3 = (s4, .ok clientSecret) →
      (UpdateResource L (APIClient L up) config r s).w.Code = 401 ∧
      (UpdateResource L (APIClient L up) config r s).w.Body
        = s.w.Body ++ (L.jsonMarshal (ApiError.toJson ⟨"1009", "Bad client secret"⟩) ++ "\n") ∧
      (UpdateResource L (APIClient L up) config r s).calls = s4.calls ∧
      ∃ added : List Exchange,
        (UpdateResource L (APIClient L up) config r s).calls = s.calls ++ added ∧
        ∀ x ∈ added, x.1.Method ≠ "PUT") ∧
    (client.zeroFields = [] →
      getClient L up config token client s2 = (s3, .ok clientInfo) →
      getClientSecret L up config token clientInfo.ID s3 = (s4, .ok clientSecret) →
      (DeleteResource L (APIClient L up) config r s).w.Code = 401 ∧
      (DeleteResource L (APIClient L up) config r s).w.Body
        = s.w.Body ++ (L.jsonMarshal (ApiError.toJson ⟨"1009", "Bad client secret"⟩) ++ "\n") ∧
      (DeleteResource L (APIClient L up) config r s).calls = s4.calls ∧
      ∃ added : List Exchange,
        (DeleteResource L (APIClient L up) config r s).calls = s.calls ++ added ∧
        ∀ x ∈ added, x.1.Method ≠ "DELETE") := by
  constructor
  · intro hv hget hsec
    obtain ⟨hw4, -, added, hadd, hmeth⟩ := secret_fetched_state L up config r s s1 s2 s3 s4
      callerToken callerLabel token adminLabel _ clientInfo clientSecret hcaller hadmin hget hsec
    have hout : UpdateResource L (APIClient L up) config r s
        = (s4.Println [.nil]).httpError (BadClientSecret.Error L) 401 := by
      simp only [UpdateResource, APIClient, hcaller, hbody, hdec, hdecs, hv, hadmin, hget, hsec,
        ne_eq, hne, not_false_eq_true, if_true]
    have hE := ResponseRecorder.Error_unwritten s.w (BadClientSecret.Error L) 401 hw
    rw [hout]
    simp only [St.httpError_w, St.Println_w, St.httpError_calls, St.Println_calls, hw4]
    refine ⟨hE.1, hE.2.1, trivial, added, hadd, ?_⟩
    intro x hx
    rcases hmeth x hx with h | h <;> rw [h] <;> decide
  · intro hv hget hsec
    obtain ⟨hw4, -, added, hadd, hmeth⟩ := secret_fetched_state L up config r s s1 s2 s3 s4
      callerToken callerLabel token adminLabel _ clientInfo clientSecret hcaller hadmin hget hsec
    have hout : DeleteResource L (APIClient L up) config r s
        = (s4.Println [.nil]).httpError (BadClientSecret.Error L) 401 := by
      simp only [DeleteResource, APIClient, hcaller, hbody, hdec, hdecs, hv, hadmin, hget, hsec,
        ne_eq, hne, not_false_eq_true, if_true]
    have hE := ResponseRecorder.Error_unwritten s.w (BadClientSecret.Error L) 401 hw
    rw [hout]
    simp only [St.httpError_w, St.Println_w, St.httpError_calls, St.Println_calls, hw4]
    refine ⟨hE.1, hE.2.1, trivial, added, hadd, ?_⟩
    intro x hx
    rcases hmeth x hx with h | h <;> rw [h] <;> decide

/-- C1 on the sample upstream: `alice` sends `wrong_secret` for the client `test`,
whose secret is `test_secret`; every hypothesis holds and both handlers answer 401. -/
theorem secret_mismatch_is_1009_witness :
    authenticate sampleLib sampleUpstream sampleConfig (aliceRequest samplePayload)
        (getAuthBodyFromBasicAuth sampleLib) St.fresh
      = (sampleS1 samplePayload, .ok ("caller-token", "alice")) ∧
    (aliceRequest samplePayload).Body = .ok samplePayload ∧
    sampleLib.decodeClient samplePayload = .ok sampleClient ∧
    sampleLib.decodeClientWithSecret samplePayload = .ok (sampleClientWithSecret "wrong_secret") ∧
    authenticate sampleLib sampleUpstream sampleConfig (aliceRequest samplePayload)
        (getAdminAuthBody sampleLib) (sampleS1 samplePayload)
      = (sampleS2 samplePayload, .ok ("admin-token", "fake")) ∧
    (sampleClientWithSecret "wrong_secret").Secret ≠ "test_secret" ∧
    St.fresh.w.wroteHeader = false ∧
    (sampleClientWithSecret "wrong_secret").zeroFields = [] ∧
    sampleClient.zeroFields = [] ∧
    getClient sampleLib sampleUpstream sampleConfig "admin-token"
        { applyRedirectUris sampleClient with PublicClient := false } (sampleS2 samplePayload)
      = (sampleS3 samplePayload, .ok sampleInfo) ∧
    getClient sampleLib sampleUpstream sampleConfig "admin-token" sampleClient
        (sampleS2 samplePayload)
      = (sampleS3 samplePayload, .ok sampleInfo) ∧
    getClientSecret sampleLib sampleUpstream sampleConfig "admin-token" sampleInfo.ID
        (sampleS3 samplePayload)
      = (sampleS4 samplePayload, .ok "test_secret") ∧
    (UpdateResource sampleLib (APIClient sampleLib sampleUpstream) sampleConfig
      (aliceRequest samplePayload) St.fresh).w.Code = 401 ∧
    (DeleteResource sampleLib (APIClient sampleLib sampleUpstream) sampleConfig
      (aliceRequest samplePayload) St.fresh).w.Code = 401 :=
  ⟨rfl, rfl, rfl, rfl, rfl, by decide, rfl, rfl, rfl, rfl, rfl, rfl,
    ((secret_mismatch_is_1009 sampleLib sampleUpstream sampleConfig (aliceRequest samplePayload)
      St.fresh (sampleS1 samplePayload) (sampleS2 samplePayload) (sampleS3 samplePayload)
      (sampleS4 samplePayload) "caller-token" "alice" samplePayload "admin-token" "fake"
      sampleClient (sampleClientWithSecret "wrong_secret") sampleInfo "test_secret"
      rfl rfl rfl rfl rfl (by decide) rfl).1 rfl rfl rfl).1,
    ((secret_mismatch_is_1009 sampleLib sampleUpstream sampleConfig (aliceRequest samplePayload)
      St.fresh (sampleS1 samplePayload) (sampleS2 samplePayload) (sampleS3 samplePayload)
      (sampleS4 samplePayload) "caller-token" "alice" samplePayload "admin-token" "fake"
      sampleClient (sampleClientWithSecret "wrong_secret") sampleInfo "test_secret"
      rfl rfl rfl rfl rfl (by decide) rfl).2 rfl rfl rfl).1⟩

/-! ## C2: a matching secret lets exactly the three calls through -/

/-- C2. Take an update or delete request whose caller negotiation, payload decoding and
validation, administrative negotiation, lookup and secret fetch all succeed, and whose
caller-supplied secret equals the fetched one. When the mutating request can be built,
the calls the handler issues after administrative negotiation are exactly, in this
order: the `GET` of the client collection, the `GET` of the secret of the looked-up
identifier, and the `PUT` (update) or `DELETE` (delete) on that identifier. Each of
these requests carries `Authorization: Bearer` with the token of the administrative
negotiation, and none carries the caller's token when the two tokens differ. -/
theorem matching_secret_issues_three_calls (L : GoLib) (up : Upstream) (config : Config)
    (r : Request) (s s1 s2 s3 s4 : St)
    (callerToken callerLabel body token adminLabel : String)
    (client : Client) (clientWithSecret : ClientWithSecret) (clientInfo : ClientOut)
    (clientSecret : String)
    (hcaller : authenticate L up config r (getAuthBodyFromBasicAuth L) s
      = (s1, .ok (callerToken, callerLabel)))
    (hbody : r.Body = .ok body)
    (hdec : L.decodeClient body = .ok client)
    (hdecs : L.decodeClientWithSecret body = .ok clientWithSecret)
    (hadmin : authenticate L up config r (getAdminAuthBody L) s1 = (s2, .ok (token, adminLabel)))
    (heq : clientWithSecret.Secret = clientSecret) :
    (clientWithSecret.zeroFields = [] →
      getClient L up config token { applyRedirectUris client with PublicClient := false } s2
        = (s3, .ok clientInfo) →
      getClientSecret L up config token clientInfo.ID s3 = (s4, .ok clientSecret) →
      L.NewRequest "PUT"
        (L.Sprintf config.ClientURI [config.IdpURL, config.IdpRealm, clientInfo.ID]) = none →
      (UpdateResource L (APIClient L up) config r s).calls
        = s2.calls ++
          [(getClientRequest L config token
              { applyRedirectUris client with PublicClient := false },
            up s2.calls (getClientRequest L config token
              { applyRedirectUris client with PublicClient := false })),
           (getClientSecretRequest L config token clientInfo.ID,
            up s3.calls (getClientSecretRequest L config token clientInfo.ID)),
           (updateClientRequest L config token
              { applyRedirectUris client with PublicClient := false } clientInfo.ID,
            up s4.calls (updateClientRequest L config token
              { applyRedirectUris client with PublicClient := false } clientInfo.ID))]) ∧
    (client.zeroFields = [] →
      getClient L up config token client s2 = (s3, .ok clientInfo) →
      getClientSecret L up config token clientInfo.ID s3 = (s4, .ok clientSecret) →
      L.NewRequest "DELETE"
        (L.Sprintf config.ClientURI [config.IdpURL, config.IdpRealm, clientInfo.ID]) = none →
      (DeleteResource L (APIClient L up) config r s).calls
        = s2.calls ++
          [(getClientRequest L config token client,
            up s2.calls (getClientRequest L config token client)),
           (getClientSecretRequest L config token clientInfo.ID,
            up s3.calls (getClientSecretRequest L config token clientInfo.ID)),
           (deleteClientRequest L config token clientInfo.ID,
            up s4.calls (deleteClientRequest L config token clientInfo.ID))]) ∧
    (∀ (c : Client) (uid : String),
      ∀ req ∈ [getClientRequest L config token c, getClientSecretRequest L config token uid,
          updateClientRequest L config token c uid, deleteClientRequest L config token uid],
        ("Authorization", "Bearer " ++ token) ∈ req.Header ∧
        (callerToken ≠ token → ("Authorization", "Bearer " ++ callerToken) ∉ req.Header)) := by
  refine ⟨?_, ?_, ?_⟩
  · intro hv hget hsec hN
    obtain ⟨hc3, -⟩ := getClient_ok L up config token _ s2 s3 clientInfo hget
    obtain ⟨hc4, -⟩ := getClientSecret_ok L up config token clientInfo.ID s3 s4 clientSecret hsec
    have hout : (UpdateResource L (APIClient L up) config r s).calls
        = (updateClient L up config token { applyRedirectUris client with PublicClient := false }
            clientInfo.ID s4).1.calls := by
      simp only [UpdateResource, APIClient, hcaller, hbody, hdec, hdecs, hv, hadmin, hget, hsec,
        ne_eq, heq, not_true_eq_false, if_false]
      split <;> rename_i h <;> simp [h, St.writeJSONHeader]
    rw [hout, updateClient_calls L up config token _ clientInfo.ID s4 hN, hc4, hc3]
    simp
  · intro hv hget hsec hN
    obtain ⟨hc3, -⟩ := getClient_ok L up config token _ s2 s3 clientInfo hget
    obtain ⟨hc4, -⟩ := getClientSecret_ok L up config token clientInfo.ID s3 s4 clientSecret hsec
    have hout : (DeleteResource L (APIClient L up) config r s).calls
        = (deleteClient L up config token clientInfo.ID s4).1.calls := by
      simp only [DeleteResource, APIClient, hcaller, hbody, hdec, hdecs, hv, hadmin, hget, hsec,
        ne_eq, heq, not_true_eq_false, if_false]
      split <;> rename_i h <;> simp [h, St.writeJSONHeader]
    rw [hout, deleteClient_calls L up config token clientInfo.ID s4 hN, hc4, hc3]
    simp
  · intro c uid req hreq
    have hb : ∀ t : String, ("Authorization", "Bearer " ++ callerToken)
        = (("Authorization", bearer t) : String × String) → callerToken = t := by
      intro t h
      exact bearer_injective _ _ (Prod.mk.inj h).2
    simp only [List.mem_cons, List.mem_singleton, List.not_mem_nil, or_false] at hreq
    rcases hreq with rfl | rfl | rfl | rfl
    · refine ⟨by simp [getClientRequest, bearer], fun hne hmem => ?_⟩
      simp only [getClientRequest, List.mem_cons, List.mem_singleton, List.not_mem_nil,
        or_false] at hmem
      rcases hmem with h | h
      · exact hne (hb token h)
      · simp at h
    · refine ⟨by simp [getClientSecretRequest, bearer], fun hne hmem => ?_⟩
      simp only [getClientSecretRequest, List.mem_cons, List.mem_singleton, List.not_mem_nil,
        or_false] at hmem
      exact hne (hb token hmem)
    · refine ⟨by simp [updateClientRequest, bearer], fun hne hmem => ?_⟩
      simp only [updateClientRequest, List.mem_cons, List.mem_singleton, List.not_mem_nil,
        or_false] at hmem
      rcases hmem with h | h
      · exact hne (hb token h)
      · simp at h
    · refine ⟨by simp [deleteClientRequest, bearer], fun hne hmem => ?_⟩
      simp only [deleteClientRequest, List.mem_cons, List.mem_singleton, List.not_mem_nil,
        or_false] at hmem
      rcases hmem with h | h
      · exact hne (hb token h)
      · simp at h

/-- C2 on the sample upstream: `alice` sends the right secret for the client `test`;
every hypothesis holds, for update and for delete the three calls follow administrative
negotiation, and the lookup does not carry the caller's token. -/
theorem matching_secret_issues_three_calls_witness :
    authenticate sampleLib sampleUpstream sampleConfig (aliceRequest sampleMatchingPayload)
        (getAuthBodyFromBasicAuth sampleLib) St.fresh
      = (sampleS1 sampleMatchingPayload, .ok ("caller-token", "alice")) ∧
    (aliceRequest sampleMatchingPayload).Body = .ok sampleMatchingPayload ∧
    sampleLib.decodeClient sampleMatchingPayload = .ok sampleClient ∧
    sampleLib.decodeClientWithSecret sampleMatchingPayload
      = .ok (sampleClientWithSecret "test_secret") ∧
    authenticate sampleLib sampleUpstream sampleConfig (aliceRequest sampleMatchingPayload)
        (getAdminAuthBody sampleLib) (sampleS1 sampleMatchingPayload)
      = (sampleS2 sampleMatchingPayload, .ok ("admin-token", "fake")) ∧
    (sampleClientWithSecret "test_secret").Secret = "test_secret" ∧
    (sampleClientWithSecret "test_secret").zeroFields = [] ∧
    getClient sampleLib sampleUpstream sampleConfig "admin-token"
        { applyRedirectUris sampleClient with PublicClient := false }
        (sampleS2 sampleMatchingPayload)
      = (sampleS3 sampleMatchingPayload, .ok sampleInfo) ∧
    getClientSecret sampleLib sampleUpstream sampleConfig "admin-token" sampleInfo.ID
        (sampleS3 sampleMatchingPayload)
      = (sampleS4 sampleMatchingPayload, .ok "test_secret") ∧
    sampleLib.NewRequest "PUT" (sampleLib.Sprintf sampleConfig.ClientURI
      [sampleConfig.IdpURL, sampleConfig.IdpRealm, sampleInfo.ID]) = none ∧
    (UpdateResource sampleLib (APIClient sampleLib sampleUpstream) sampleConfig
        (aliceRequest sampleMatchingPayload) St.fresh).calls
      = (sampleS2 sampleMatchingPayload).calls ++
        [(getClientRequest sampleLib sampleConfig "admin-token"
            { applyRedirectUris sampleClient with PublicClient := false },
          sampleUpstream (sampleS2 sampleMatchingPayload).calls
            (getClientRequest sampleLib sampleConfig "admin-token"
              { applyRedirectUris sampleClient with PublicClient := false })),
         (getClientSecretRequest sampleLib sampleConfig "admin-token" sampleInfo.ID,
          sampleUpstream (sampleS3 sampleMatchingPayload).calls
            (getClientSecretRequest sampleLib sampleConfig "admin-token" sampleInfo.ID)),
         (updateClientRequest sampleLib sampleConfig "admin-token"
            { applyRedirectUris sampleClient with PublicClient := false } sampleInfo.ID,
          sampleUpstream (sampleS4 sampleMatchingPayload).calls
            (updateClientRequest sampleLib sampleConfig "admin-token"
              { applyRedirectUris sampleClient with PublicClient := false } sampleInfo.ID))] ∧
    sampleClient.zeroFields = [] ∧
    getClient sampleLib sampleUpstream sampleConfig "admin-token" sampleClient
        (sampleS2 sampleMatchingPayload)
      = (sampleS3 sampleMatchingPayload, .ok sampleInfo) ∧
    sampleLib.NewRequest "DELETE" (sampleLib.Sprintf sampleConfig.ClientURI
      [sampleConfig.IdpURL, sampleConfig.IdpRealm, sampleInfo.ID]) = none ∧
    (DeleteResource sampleLib (APIClient sampleLib sampleUpstream) sampleConfig
        (aliceRequest sampleMatchingPayload) St.fresh).calls
      = (sampleS2 sampleMatchingPayload).calls ++
        [(getClientRequest sampleLib sampleConfig "admin-token" sampleClient,
          sampleUpstream (sampleS2 sampleMatchingPayload).calls
            (getClientRequest sampleLib sampleConfig "admin-token" sampleClient)),
         (getClientSecretRequest sampleLib sampleConfig "admin-token" sampleInfo.ID,
          sampleUpstream (sampleS3 sampleMatchingPayload).calls
            (getClientSecretRequest sampleLib sampleConfig "admin-token" sampleInfo.ID)),
         (deleteClientRequest sampleLib sampleConfig "admin-token" sampleInfo.ID,
          sampleUpstream (sampleS4 sampleMatchingPayload).calls
            (deleteClientRequest sampleLib sampleConfig "admin-token" sampleInfo.ID))] ∧
    "caller-token" ≠ "admin-token" ∧
    ("Authorization", "Bearer " ++ "caller-token")
      ∉ (getClientRequest sampleLib sampleConfig "admin-token" sampleClient).Header :=
  have h := matching_secret_issues_three_calls sampleLib sampleUpstream sampleConfig
    (aliceRequest sampleMatchingPayload) St.fresh (sampleS1 sampleMatchingPayload)
    (sampleS2 sampleMatchingPayload) (sampleS3 sampleMatchingPayload)
    (sampleS4 sampleMatchingPayload) "caller-token" "alice" sampleMatchingPayload "admin-token"
    "fake" sampleClient (sampleClientWithSecret "test_secret") sampleInfo "test_secret"
    rfl rfl rfl rfl rfl rfl
  ⟨rfl, rfl, rfl, rfl, rfl, rfl, rfl, rfl, rfl, rfl, h.1 rfl rfl rfl rfl, rfl, rfl, rfl,
    h.2.1 rfl rfl rfl rfl, by decide,
    (h.2.2 sampleClient sampleInfo.ID _ (List.mem_cons_self _ _)).2 (by decide)⟩

/-! ## C3: token requests follow the list and stop at the first success -/

/-- C3. For every getter result `(authBody, url)`, the exchanges `authenticate` adds are
token requests for a prefix of `authBody`, in list order and one per body, each
answered by the upstream; if the `i`-th of them succeeded then exactly `i + 1` were
issued; and, when the request can be built, every body is tried unless the last
request issued succeeded. In particular, in caller negotiation a successful password
grant is the only request issued: the client-credentials grant is not sent. -/
theorem token_requests_stop_at_first_success (L : GoLib) (up : Upstream) (config : Config)
    (r : Request) (s : St) :
    (∀ (f : AuthBodyGetter) (s1 : St) (authBody : List Values) (url : String),
      f config r s = (s1, .ok (authBody, url)) →
      ∃ issued : List Exchange,
        (authenticate L up config r f s).1.calls = s1.calls ++ issued ∧
        issued.map Prod.fst = (authBody.take issued.length).map (tokenRequest L url) ∧
        (∀ i (hi : i < issued.length),
          (issued.get ⟨i, hi⟩).2 = up (s1.calls ++ issued.take i) (issued.get ⟨i, hi⟩).1) ∧
        (∀ i (hi : i < issued.length),
          (issued.get ⟨i, hi⟩).2.succeeded = true → issued.length = i + 1) ∧
        (L.NewRequest "POST" url = none →
          issued.length = authBody.length ∨
            ∃ x, issued.getLast? = some x ∧ x.2.succeeded = true)) ∧
    (∀ u p : String, r.BasicAuth = some (u, p) →
      L.NewRequest "POST" (callerTokenURL L config) = none →
      (up s.calls (passwordGrantRequest L config u p)).succeeded = true →
      (authenticate L up config r (getAuthBodyFromBasicAuth L) s).1.calls
        = s.calls ++ [(passwordGrantRequest L config u p,
            up s.calls (passwordGrantRequest L config u p))]) := by
  constructor
  · intro f s1 authBody url hf
    rw [authenticate_calls L up config r f s s1 authBody url hf]
    exact authLoop_trace L up url authBody "" none s1
  · intro u p hr hN hs
    unfold passwordGrantRequest at *
    have hf : getAuthBodyFromBasicAuth L config r s
        = (s, .ok ([authResourceOwnerBody config u p, authClientBody u p],
            callerTokenURL L config)) := by
      simp [getAuthBodyFromBasicAuth, hr, callerTokenURL]
    rw [authenticate_calls L up config r _ s s _ _ hf, authLoop_cons L up _ _ _ _ _ _ hN]
    simp [hs, authEntityOf_resourceOwner]

/-- C3 on the sample upstream: the caller `alice` is accepted by the password grant, and
the trace of `authenticate` is as stated. -/
theorem token_requests_stop_at_first_success_witness :
    getAuthBodyFromBasicAuth sampleLib sampleConfig (aliceRequest samplePayload) St.fresh
      = (St.fresh, .ok ([authResourceOwnerBody sampleConfig "alice" "pw",
          authClientBody "alice" "pw"], callerTokenURL sampleLib sampleConfig)) ∧
    (aliceRequest samplePayload).BasicAuth = some ("alice", "pw") ∧
    sampleLib.NewRequest "POST" (callerTokenURL sampleLib sampleConfig) = none ∧
    (sampleUpstream St.fresh.calls
      (passwordGrantRequest sampleLib sampleConfig "alice" "pw")).succeeded = true ∧
    (authenticate sampleLib sampleUpstream sampleConfig (aliceRequest samplePayload)
        (getAuthBodyFromBasicAuth sampleLib) St.fresh).1.calls
      = St.fresh.calls ++ [(passwordGrantRequest sampleLib sampleConfig "alice" "pw",
          sampleUpstream St.fresh.calls
            (passwordGrantRequest sampleLib sampleConfig "alice" "pw"))] ∧
    ∃ issued : List Exchange,
      (authenticate sampleLib sampleUpstream sampleConfig (aliceRequest samplePayload)
        (getAuthBodyFromBasicAuth sampleLib) St.fresh).1.calls = St.fresh.calls ++ issued ∧
      issued.map Prod.fst = (List.take issued.length
          [authResourceOwnerBody sampleConfig "alice" "pw", authClientBody "alice" "pw"]).map
        (tokenRequest sampleLib (callerTokenURL sampleLib sampleConfig)) ∧
      (∀ i (hi : i < issued.length),
        (issued.get ⟨i, hi⟩).2
          = sampleUpstream (St.fresh.calls ++ issued.take i) (issued.get ⟨i, hi⟩).1) ∧
      (∀ i (hi : i < issued.length),
        (issued.get ⟨i, hi⟩).2.succeeded = true → issued.length = i + 1) ∧
      (sampleLib.NewRequest "POST" (callerTokenURL sampleLib sampleConfig) = none →
        issued.length = [authResourceOwnerBody sampleConfig "alice" "pw",
            authClientBody "alice" "pw"].length ∨
          ∃ x, issued.getLast? = some x ∧ x.2.succeeded = true) :=
  ⟨rfl, rfl, rfl, by decide,
    (token_requests_stop_at_first_success sampleLib sampleUpstream sampleConfig
      (aliceRequest samplePayload) St.fresh).2 "alice" "pw" rfl rfl (by decide),
    (token_requests_stop_at_first_success sampleLib sampleUpstream sampleConfig
      (aliceRequest samplePayload) St.fresh).1 (getAuthBodyFromBasicAuth sampleLib) St.fresh _ _ rfl⟩

/-! ## C4: a caller rejected by both grants -/

/-- C4. For a create, update or delete request with Basic-Auth credentials `(u, p)`
whose password grant and client-credentials grant are both rejected by the upstream,
caller negotiation returns an error, the response has status 401 and carries the JSON
of the `ApiError` with code `"10000"` (its message is the error text of the second
attempt), and the two token requests are the only outbound calls of the request. -/
theorem rejected_caller_gets_401 (L : GoLib) (up : Upstream) (config : Config)
    (r : Request) (s : St) (u p : String) (hr : r.BasicAuth = some (u, p))
    (hN : L.NewRequest "POST" (callerTokenURL L config) = none)
    (h1 : (up s.calls (passwordGrantRequest L config u p)).succeeded = false)
    (h2 : (up (s.calls ++ [(passwordGrantRequest L config u p,
        up s.calls (passwordGrantRequest L config u p))])
        (clientCredentialsRequest L config u p)).succeeded = false)
    (hw : s.w.wroteHeader = false) :
    (∃ e, (authenticate L up config r (getAuthBodyFromBasicAuth L) s).2 = .err e) ∧
    ∀ out ∈ [CreateResource L (APIClient L up) config r s,
        UpdateResource L (APIClient L up) config r s,
        DeleteResource L (APIClient L up) config r s],
      out.w.Code = 401 ∧
      out.w.Body = s.w.Body ++ (L.jsonMarshal (ApiError.toJson ⟨"10000",
        (up (s.calls ++ [(passwordGrantRequest L config u p,
            up s.calls (passwordGrantRequest L config u p))])
            (clientCredentialsRequest L config u p)).errorText⟩) ++ "\n") ∧
      out.calls = s.calls ++ [(passwordGrantRequest L config u p,
          up s.calls (passwordGrantRequest L config u p)),
        (clientCredentialsRequest L config u p,
          up (s.calls ++ [(passwordGrantRequest L config u p,
            up s.calls (passwordGrantRequest L config u p))])
            (clientCredentialsRequest L config u p))] := by
  obtain ⟨S, hS, hc, hSw⟩ := authenticate_caller_rejected L up config r s u p hr hN h1 h2
  obtain ⟨S0, hS0, hc0, hSw0⟩ := authenticate_caller_rejected L up config r
    (s.Println [.str "Authenticating external user"]) u p hr hN h1 h2
  refine ⟨⟨_, by rw [hS]⟩, ?_⟩
  have hE := ResponseRecorder.Error_unwritten s.w (L.jsonMarshal (ApiError.toJson ⟨"10000",
        (up (s.calls ++ [(passwordGrantRequest L config u p,
            up s.calls (passwordGrantRequest L config u p))])
            (clientCredentialsRequest L config u p)).errorText⟩)) 401 hw
  intro out hout
  simp only [List.mem_cons, List.mem_singleton, List.not_mem_nil, or_false] at hout
  rcases hout with rfl | rfl | rfl
  · have : CreateResource L (APIClient L up) config r s = S0 := by
      simp only [CreateResource, APIClient, hS0]
    rw [this, hc0, hSw0]
    exact ⟨hE.1, hE.2.1, rfl⟩
  · have : UpdateResource L (APIClient L up) config r s = S := by
      simp only [UpdateResource, APIClient, hS]
    rw [this, hc, hSw]
    exact ⟨hE.1, hE.2.1, rfl⟩
  · have : DeleteResource L (APIClient L up) config r s = S := by
      simp only [DeleteResource, APIClient, hS]
    rw [this, hc, hSw]
    exact ⟨hE.1, hE.2.1, rfl⟩

/-- C4 on the upstream that answers everything with status 500 and `FAIL`: both grants
of `alice` are rejected and the three handlers answer 401 after the two token
requests. -/
theorem rejected_caller_gets_401_witness :
    (aliceRequest samplePayload).BasicAuth = some ("alice", "pw") ∧
    sampleLib.NewRequest "POST" (callerTokenURL sampleLib sampleConfig) = none ∧
    (failingUpstream St.fresh.calls
      (passwordGrantRequest sampleLib sampleConfig "alice" "pw")).succeeded = false ∧
    (failingUpstream (St.fresh.calls ++ [(passwordGrantRequest sampleLib sampleConfig "alice" "pw",
        failingUpstream St.fresh.calls (passwordGrantRequest sampleLib sampleConfig "alice" "pw"))])
        (clientCredentialsRequest sampleLib sampleConfig "alice" "pw")).succeeded = false ∧
    St.fresh.w.wroteHeader = false ∧
    (CreateResource sampleLib (APIClient sampleLib failingUpstream) sampleConfig
      (aliceRequest samplePayload) St.fresh).w.Code = 401 ∧
    (UpdateResource sampleLib (APIClient sampleLib failingUpstream) sampleConfig
      (aliceRequest samplePayload) St.fresh).w.Code = 401 ∧
    (DeleteResource sampleLib (APIClient sampleLib failingUpstream) sampleConfig
      (aliceRequest samplePayload) St.fresh).w.Code = 401 ∧
    (UpdateResource sampleLib (APIClient sampleLib failingUpstream) sampleConfig
      (aliceRequest samplePayload) St.fresh).calls.length = 2 :=
  have h := rejected_caller_gets_401 sampleLib failingUpstream sampleConfig
    (aliceRequest samplePayload) St.fresh "alice" "pw" rfl rfl (by decide) (by decide) rfl
  ⟨rfl, rfl, by decide, by decide, rfl,
    (h.2 (CreateResource sampleLib (APIClient sampleLib failingUpstream) sampleConfig
      (aliceRequest samplePayload) St.fresh) (by simp)).1,
    (h.2 (UpdateResource sampleLib (APIClient sampleLib failingUpstream) sampleConfig
      (aliceRequest samplePayload) St.fresh) (by simp)).1,
    (h.2 (DeleteResource sampleLib (APIClient sampleLib failingUpstream) sampleConfig
      (aliceRequest samplePayload) St.fresh) (by simp)).1,
    by rw [(h.2 (UpdateResource sampleLib (APIClient sampleLib failingUpstream) sampleConfig
      (aliceRequest samplePayload) St.fresh) (by simp)).2.2]; rfl⟩

/-! ## C5: no Basic-Auth header -/

/-- C5. For an inbound request without parseable Basic-Auth header,
`getAuthBodyFromBasicAuth` and caller negotiation through `authenticate` both fail
with the `ApiError` of code `"1008"`, hand its JSON with status 401 to `http.Error`
(status 401 on a response not yet started), and issue no outbound call. -/
theorem missing_basic_auth_is_1008 (L : GoLib) (up : Upstream) (config : Config)
    (r : Request) (s : St) (h : r.BasicAuth = none) :
    (getAuthBodyFromBasicAuth L config r s).2
      = .err (.api ⟨"1008", "Invalid basic auth headers"⟩) ∧
    (getAuthBodyFromBasicAuth L config r s).1.calls = s.calls ∧
    (authenticate L up config r (getAuthBodyFromBasicAuth L) s).2
      = .err (.api ⟨"1008", "Invalid basic auth headers"⟩) ∧
    (authenticate L up config r (getAuthBodyFromBasicAuth L) s).1.calls = s.calls ∧
    (authenticate L up config r (getAuthBodyFromBasicAuth L) s).1.w
      = s.w.Error (L.jsonMarshal (ApiError.toJson ⟨"1008", "Invalid basic auth headers"⟩)) 401 ∧
    (s.w.wroteHeader = false →
      (authenticate L up config r (getAuthBodyFromBasicAuth L) s).1.w.Code = 401) := by
  have hf : getAuthBodyFromBasicAuth L config r s
      = ((s.Println [.str (InvalidBasicAuthHeaders.Error L)]).httpError
          (InvalidBasicAuthHeaders.Error L) 401, .err InvalidBasicAuthHeaders) := by
    simp [getAuthBodyFromBasicAuth, h]
  have ha : authenticate L up config r (getAuthBodyFromBasicAuth L) s
      = ((s.Println [.str (InvalidBasicAuthHeaders.Error L)]).httpError
          (InvalidBasicAuthHeaders.Error L) 401, .err InvalidBasicAuthHeaders) := by
    simp only [authenticate, hf]
  rw [hf, ha]
  refine ⟨rfl, rfl, rfl, rfl, rfl, fun hw => ?_⟩
  exact (ResponseRecorder.Error_unwritten s.w _ 401 hw).1

/-- C5 on a request without credentials. -/
theorem missing_basic_auth_is_1008_witness :
    ({ BasicAuth := none, Body := .ok "" } : Request).BasicAuth = none ∧
    (authenticate sampleLib sampleUpstream sampleConfig { BasicAuth := none, Body := .ok "" }
        (getAuthBodyFromBasicAuth sampleLib) St.fresh).2
      = .err (.api ⟨"1008", "Invalid basic auth headers"⟩) ∧
    (authenticate sampleLib sampleUpstream sampleConfig { BasicAuth := none, Body := .ok "" }
        (getAuthBodyFromBasicAuth sampleLib) St.fresh).1.calls = St.fresh.calls ∧
    St.fresh.w.wroteHeader = false ∧
    (authenticate sampleLib sampleUpstream sampleConfig { BasicAuth := none, Body := .ok "" }
        (getAuthBodyFromBasicAuth sampleLib) St.fresh).1.w.Code = 401 :=
  ⟨rfl,
    (missing_basic_auth_is_1008 sampleLib sampleUpstream sampleConfig
      { BasicAuth := none, Body := .ok "" } St.fresh rfl).2.2.1,
    (missing_basic_auth_is_1008 sampleLib sampleUpstream sampleConfig
      { BasicAuth := none, Body := .ok "" } St.fresh rfl).2.2.2.1,
    rfl,
    (missing_basic_auth_is_1008 sampleLib sampleUpstream sampleConfig
      { BasicAuth := none, Body := .ok "" } St.fresh rfl).2.2.2.2.2 rfl⟩

/-! ## C6: the identity label -/

/-- C6. When caller negotiation with Basic-Auth credentials `(u, p)` succeeds, the
identity label is `u`: the `username` of the password grant body if that grant
succeeded, the `client_id` of the client-credentials body (which has no `username`)
otherwise. When administrative negotiation succeeds, the label is the configured
administrative username. -/
theorem identity_label_of_negotiation (L : GoLib) (up : Upstream) (config : Config)
    (r : Request) (s : St) :
    (∀ (u p : String) (s' : St) (tok ent : String), r.BasicAuth = some (u, p) →
      authenticate L up config r (getAuthBodyFromBasicAuth L) s = (s', .ok (tok, ent)) →
      ent = u ∧
      Values.get? (authResourceOwnerBody config u p) "username" = some [u] ∧
      Values.get? (authClientBody u p) "username" = none ∧
      Values.get? (authClientBody u p) "client_id" = some [u]) ∧
    (∀ (s' : St) (tok ent : String),
      authenticate L up config r (getAdminAuthBody L) s = (s', .ok (tok, ent)) →
      ent = config.IdpAdmin) := by
  constructor
  · intro u p s' tok ent hr h
    refine ⟨?_, by simp [authResourceOwnerBody, Values.get?],
      by simp [authClientBody, Values.get?], by simp [authClientBody, Values.get?]⟩
    have hf : getAuthBodyFromBasicAuth L config r s
        = (s, .ok ([authResourceOwnerBody config u p, authClientBody u p],
            callerTokenURL L config)) := by
      simp [getAuthBodyFromBasicAuth, hr, callerTokenURL]
    rcases authenticate_ok_entity L up config r _ s s s' _ _ tok ent hf h with h0 | ⟨b, hb, he⟩
    · simp at h0
    · simp only [List.mem_cons, List.mem_singleton, List.not_mem_nil, or_false] at hb
      rcases hb with rfl | rfl
      · rw [authEntityOf_resourceOwner] at he
        exact (Res.ok.inj he).symm
      · rw [authEntityOf_client] at he
        exact (Res.ok.inj he).symm
  · intro s' tok ent h
    have hf : getAdminAuthBody L config r s
        = (s, .ok ([authClientCredentialAdminBody config], adminTokenURL L config)) := by
      simp [getAdminAuthBody, adminTokenURL]
    rcases authenticate_ok_entity L up config r _ s s s' _ _ tok ent hf h with h0 | ⟨b, hb, he⟩
    · simp at h0
    · simp only [List.mem_cons, List.mem_singleton, List.not_mem_nil, or_false] at hb
      subst hb
      rw [authEntityOf_admin] at he
      exact (Res.ok.inj he).symm

/-- C6 on the sample upstream: `alice` negotiates with the password grant and is
labelled `alice`; the administrator of the sample configuration is labelled `fake`. -/
theorem identity_label_of_negotiation_witness :
    (aliceRequest samplePayload).BasicAuth = some ("alice", "pw") ∧
    authenticate sampleLib sampleUpstream sampleConfig (aliceRequest samplePayload)
        (getAuthBodyFromBasicAuth sampleLib) St.fresh
      = ((authenticate sampleLib sampleUpstream sampleConfig (aliceRequest samplePayload)
          (getAuthBodyFromBasicAuth sampleLib) St.fresh).1, .ok ("caller-token", "alice")) ∧
    authenticate sampleLib sampleUpstream sampleConfig (aliceRequest samplePayload)
        (getAdminAuthBody sampleLib) St.fresh
      = ((authenticate sampleLib sampleUpstream sampleConfig (aliceRequest samplePayload)
          (getAdminAuthBody sampleLib) St.fresh).1, .ok ("admin-token", "fake")) ∧
    "alice" = "alice" ∧ "fake" = sampleConfig.IdpAdmin :=
  ⟨rfl, rfl, rfl,
    ((identity_label_of_negotiation sampleLib sampleUpstream sampleConfig
      (aliceRequest samplePayload) St.fresh).1 "alice" "pw" _ "caller-token" "alice" rfl rfl).1,
    (identity_label_of_negotiation sampleLib sampleUpstream sampleConfig
      (aliceRequest samplePayload) St.fresh).2 _ "admin-token" "fake" rfl⟩

/-! ## C7: credentials are masked before they are logged -/

/-- C7. Take two runs of `authenticate` whose getters return the same token URL and
grant bodies that agree after masking (they differ at most in the values under
`password` and `client_secret`), from states with the same log and the same earlier
replies. Every grant body in a record the first run logs is the masked form of one of
its grant bodies, with the placeholder under `password` and `client_secret` where
these are present; and if the upstream's replies in the two runs are the same, the two
runs leave the same log. -/
theorem credentials_are_masked_in_logs (L : GoLib) (up1 up2 : Upstream)
    (config1 config2 : Config) (r1 r2 : Request) (f1 f2 : AuthBodyGetter) (s sa sb : St)
    (bodies1 bodies2 : List Values) (url : String)
    (h1 : f1 config1 r1 s = (sa, .ok (bodies1, url)))
    (h2 : f2 config2 r2 s = (sb, .ok (bodies2, url)))
    (hlog : sa.log = sb.log) (hrep : sa.calls.map Prod.snd = sb.calls.map Prod.snd)
    (hm : bodies1.map redact = bodies2.map redact) :
    (∃ new : List LogRecord,
      (authenticate L up1 config1 r1 f1 s).1.log = sa.log ++ new ∧
      ∀ rec ∈ new, ∀ v, LogArg.values v ∈ rec.args →
        (∃ b ∈ bodies1, v = redact b) ∧ v.masked) ∧
    ((authenticate L up1 config1 r1 f1 s).1.calls.map Prod.snd
        = (authenticate L up2 config2 r2 f2 s).1.calls.map Prod.snd →
      (authenticate L up1 config1 r1 f1 s).1.log
        = (authenticate L up2 config2 r2 f2 s).1.log) := by
  constructor
  · obtain ⟨new, hn1, hn2⟩ := authLoop_log_masked L up1 url bodies1 "" none sa
    refine ⟨new ++ (authLoop L up1 url bodies1 "" none sa).2.postLog L, ?_, ?_⟩
    · rw [authenticate_log L up1 config1 r1 f1 s sa bodies1 url h1, hn1, List.append_assoc]
    · intro rec hrec v hv
      rcases List.mem_append.1 hrec with hrec | hrec
      · obtain ⟨b, hb, rfl⟩ := hn2 rec hrec v hv
        exact ⟨⟨b, hb, rfl⟩, redact_masked b⟩
      · exact absurd hv (LoopExit.postLog_no_values L _ rec hrec v)
  · intro hfin
    rw [authenticate_calls L up1 config1 r1 f1 s sa bodies1 url h1,
      authenticate_calls L up2 config2 r2 f2 s sb bodies2 url h2] at hfin
    obtain ⟨hl, hx⟩ := authLoop_log_agree L up1 up2 url bodies1 bodies2 "" none sa sb hm hlog
      hrep hfin
    rw [authenticate_log L up1 config1 r1 f1 s sa bodies1 url h1,
      authenticate_log L up2 config2 r2 f2 s sb bodies2 url h2, hl, hx]

/-- C7 on two caller negotiations of `alice` with different passwords, both rejected:
the grant bodies agree after masking, the replies are the same, and so are the logs. -/
theorem credentials_are_masked_in_logs_witness :
    getAuthBodyFromBasicAuth sampleLib sampleConfig (aliceWith "first") St.fresh
      = (St.fresh, .ok ([authResourceOwnerBody sampleConfig "alice" "first",
          authClientBody "alice" "first"], callerTokenURL sampleLib sampleConfig)) ∧
    getAuthBodyFromBasicAuth sampleLib sampleConfig (aliceWith "second") St.fresh
      = (St.fresh, .ok ([authResourceOwnerBody sampleConfig "alice" "second",
          authClientBody "alice" "second"], callerTokenURL sampleLib sampleConfig)) ∧
    [authResourceOwnerBody sampleConfig "alice" "first", authClientBody "alice" "first"].map redact
      = [authResourceOwnerBody sampleConfig "alice" "second",
          authClientBody "alice" "second"].map redact ∧
    (authenticate sampleLib sampleUpstream sampleConfig (aliceWith "first")
        (getAuthBodyFromBasicAuth sampleLib) St.fresh).1.calls.map Prod.snd
      = (authenticate sampleLib sampleUpstream sampleConfig (aliceWith "second")
        (getAuthBodyFromBasicAuth sampleLib) St.fresh).1.calls.map Prod.snd ∧
    (authenticate sampleLib sampleUpstream sampleConfig (aliceWith "first")
        (getAuthBodyFromBasicAuth sampleLib) St.fresh).1.log
      = (authenticate sampleLib sampleUpstream sampleConfig (aliceWith "second")
        (getAuthBodyFromBasicAuth sampleLib) St.fresh).1.log :=
  ⟨rfl, rfl, by decide, by decide,
    (credentials_are_masked_in_logs sampleLib sampleUpstream sampleUpstream sampleConfig
      sampleConfig (aliceWith "first") (aliceWith "second") (getAuthBodyFromBasicAuth sampleLib)
      (getAuthBodyFromBasicAuth sampleLib) St.fresh St.fresh St.fresh _ _ _ rfl rfl rfl rfl
      (by decide)).2 (by decide)⟩

/-! ## C8: `doRequest` and the status of the reply -/

/-- C8. When the upstream's reply to `req` is read without transport error, with
status `status` and body `b`, `doRequest` returns `b` without error exactly when the
status is 200, 201 or 204; for every other status it returns no payload and an error
whose text is exactly `b`, whatever `b` is (the empty body included). -/
theorem doRequest_success_iff_status (up : Upstream) (req : HttpRequest) (s : St)
    (status : Nat) (b : String) (h : up s.calls req = .response status b) :
    ((doRequest up req s).2 = .ok b ↔ (status = 200 ∨ status = 201 ∨ status = 204)) ∧
    (¬ (status = 200 ∨ status = 201 ∨ status = 204) →
      (doRequest up req s).2 = .err (.other b) ∧ ∀ L : GoLib, (GoError.other b).Error L = b) := by
  have hres : (doRequest up req s).2 = (Reply.response status b).result := by
    rw [← h]
    exact (doRequest_spec up req s (doRequest up req s).1 (doRequest up req s).2 rfl).2.2.2
  rw [hres]
  by_cases hok : okStatus status
  · have hok' := hok
    unfold okStatus at hok'
    simp [Reply.result, hok, hok']
  · have hok' := hok
    unfold okStatus at hok'
    simp [Reply.result, hok, hok', GoError.Error]

/-- C8 at a sample: status 500 with the empty body is an error with empty text, and
status 201 hands the body back. -/
theorem doRequest_success_iff_status_witness :
    (fun _ _ => Reply.response 500 "" : Upstream) St.fresh.calls
        { Method := "POST", URL := "/test", Header := [], Body := "" } = .response 500 "" ∧
    ¬ (500 = 200 ∨ 500 = 201 ∨ 500 = 204) ∧
    (doRequest (fun _ _ => Reply.response 500 "")
        { Method := "POST", URL := "/test", Header := [], Body := "" } St.fresh).2
      = .err (.other "") :=
  ⟨rfl, by decide,
    ((doRequest_success_iff_status (fun _ _ => Reply.response 500 "")
        { Method := "POST", URL := "/test", Header := [], Body := "" } St.fresh 500 "" rfl).2
      (by decide)).1⟩

/-! ## C9: a rejected call becomes the `ApiError` of code 10000 -/

/-- C9. Whenever the upstream answers the request of `createClient`, `getClientID`,
`getClient`, `getClientSecret`, `updateClient` or `deleteClient` with a status outside
200, 201, 204 and body `m`, the operation returns the `ApiError` with code `"10000"`
and message `m` and hands that error's JSON with status 500 to `http.Error` on the
inbound response (on a response not yet started: status 500 and the JSON line as body);
`createUser`, `getUserID`, `deleteUser` and `setUserPassword` return the same
`ApiError`. -/
theorem upstream_rejection_is_api_error_10000 (L : GoLib) (up : Upstream) (config : Config)
    (token : String) (s : St) (status : Nat) (m : String) (client : Client)
    (clientWithSecret : ClientWithSecret) (clientUID : String) (user : User)
    (userCredential : UserSecret) (userUID : String)
    (hs : ¬ (status = 200 ∨ status = 201 ∨ status = 204)) :
    (answeredWith s (createClient L up config token client s).1 status m →
      (createClient L up config token client s).2 = .err (.api ⟨"10000", m⟩) ∧
      wroteUpstreamFailure L s (createClient L up config token client s).1 m) ∧
    (answeredWith s (getClientID L up config token clientWithSecret s).1 status m →
      (getClientID L up config token clientWithSecret s).2 = .err (.api ⟨"10000", m⟩) ∧
      wroteUpstreamFailure L s (getClientID L up config token clientWithSecret s).1 m) ∧
    (answeredWith s (getClient L up config token client s).1 status m →
      (getClient L up config token client s).2 = .err (.api ⟨"10000", m⟩) ∧
      wroteUpstreamFailure L s (getClient L up config token client s).1 m) ∧
    (answeredWith s (getClientSecret L up config token clientUID s).1 status m →
      (getClientSecret L up config token clientUID s).2 = .err (.api ⟨"10000", m⟩) ∧
      wroteUpstreamFailure L s (getClientSecret L up config token clientUID s).1 m) ∧
    (answeredWith s (updateClient L up config token client clientUID s).1 status m →
      (updateClient L up config token client clientUID s).2 = .err (.api ⟨"10000", m⟩) ∧
      wroteUpstreamFailure L s (updateClient L up config token client clientUID s).1 m) ∧
    (answeredWith s (deleteClient L up config token clientUID s).1 status m →
      (deleteClient L up config token clientUID s).2 = .err (.api ⟨"10000", m⟩) ∧
      wroteUpstreamFailure L s (deleteClient L up config token clientUID s).1 m) ∧
    (answeredWith s (createUser L up config token user s).1 status m →
      (createUser L up config token user s).2 = .err (.api ⟨"10000", m⟩)) ∧
    (answeredWith s (getUserID L up config token user s).1 status m →
      (getUserID L up config token user s).2 = .err (.api ⟨"10000", m⟩)) ∧
    (answeredWith s (deleteUser L up config token userUID s).1 status m →
      (deleteUser L up config token userUID s).2 = .err (.api ⟨"10000", m⟩)) ∧
    (answeredWith s (setUserPassword L up config token userCredential userUID s).1 status m →
      (setUserPassword L up config token userCredential userUID s).2 = .err (.api ⟨"10000", m⟩)) := by
  have hs' : ¬ okStatus status := hs
  refine ⟨?_, ?_, ?_, ?_, ?_, ?_, ?_, ?_, ?_, ?_⟩ <;> intro h
  · exact ⟨(createClient_rejected _ _ _ _ _ _ _ _ hs' h).1,
      wroteUpstreamFailure_of_eq _ _ _ _ (createClient_rejected _ _ _ _ _ _ _ _ hs' h).2⟩
  · exact ⟨(getClientID_rejected _ _ _ _ _ _ _ _ hs' h).1,
      wroteUpstreamFailure_of_eq _ _ _ _ (getClientID_rejected _ _ _ _ _ _ _ _ hs' h).2⟩
  · exact ⟨(getClient_rejected _ _ _ _ _ _ _ _ hs' h).1,
      wroteUpstreamFailure_of_eq _ _ _ _ (getClient_rejected _ _ _ _ _ _ _ _ hs' h).2⟩
  · exact ⟨(getClientSecret_rejected _ _ _ _ _ _ _ _ hs' h).1,
      wroteUpstreamFailure_of_eq _ _ _ _ (getClientSecret_rejected _ _ _ _ _ _ _ _ hs' h).2⟩
  · exact ⟨(updateClient_rejected _ _ _ _ _ _ _ _ _ hs' h).1,
      wroteUpstreamFailure_of_eq _ _ _ _ (updateClient_rejected _ _ _ _ _ _ _ _ _ hs' h).2⟩
  · exact ⟨(deleteClient_rejected _ _ _ _ _ _ _ _ hs' h).1,
      wroteUpstreamFailure_of_eq _ _ _ _ (deleteClient_rejected _ _ _ _ _ _ _ _ hs' h).2⟩
  · exact (createUser_rejected _ _ _ _ _ _ _ _ hs' h).1
  · exact (getUserID_rejected _ _ _ _ _ _ _ _ hs' h).1
  · exact (deleteUser_rejected _ _ _ _ _ _ _ _ hs' h).1
  · exact (setUserPassword_rejected _ _ _ _ _ _ _ _ _ hs' h).1

/-- C9 on the upstream that answers everything with status 500 and `FAIL`: each of the
ten operations issued its request and got that answer, returns the `ApiError` with
code `"10000"` and message `FAIL`, and the six client operations write status 500. -/
theorem upstream_rejection_is_api_error_10000_witness :
    ¬ (500 = 200 ∨ 500 = 201 ∨ 500 = 204) ∧
    (answeredWith St.fresh
        (createClient sampleLib failingUpstream sampleConfig "test_token" sampleClient St.fresh).1 500 "FAIL" ∧
      (createClient sampleLib failingUpstream sampleConfig "test_token" sampleClient St.fresh).2
        = .err (.api ⟨"10000", "FAIL"⟩) ∧
      wroteUpstreamFailure sampleLib St.fresh
        (createClient sampleLib failingUpstream sampleConfig "test_token" sampleClient St.fresh).1 "FAIL") ∧
    (answeredWith St.fresh
        (getClientID sampleLib failingUpstream sampleConfig "test_token" (sampleClientWithSecret "") St.fresh).1 500 "FAIL" ∧
      (getClientID sampleLib failingUpstream sampleConfig "test_token" (sampleClientWithSecret "") St.fresh).2
        = .err (.api ⟨"10000", "FAIL"⟩) ∧
      wroteUpstreamFailure sampleLib St.fresh
        (getClientID sampleLib failingUpstream sampleConfig "test_token" (sampleClientWithSecret "") St.fresh).1 "FAIL") ∧
    (answeredWith St.fresh
        (getClient sampleLib failingUpstream sampleConfig "test_token" sampleClient St.fresh).1 500 "FAIL" ∧
      (getClient sampleLib failingUpstream sampleConfig "test_token" sampleClient St.fresh).2
        = .err (.api ⟨"10000", "FAIL"⟩) ∧
      wroteUpstreamFailure sampleLib St.fresh
        (getClient sampleLib failingUpstream sampleConfig "test_token" sampleClient St.fresh).1 "FAIL") ∧
    (answeredWith St.fresh
        (getClientSecret sampleLib failingUpstream sampleConfig "test_token" "uid" St.fresh).1 500 "FAIL" ∧
      (getClientSecret sampleLib failingUpstream sampleConfig "test_token" "uid" St.fresh).2
        = .err (.api ⟨"10000", "FAIL"⟩) ∧
      wroteUpstreamFailure sampleLib St.fresh
        (getClientSecret sampleLib failingUpstream sampleConfig "test_token" "uid" St.fresh).1 "FAIL") ∧
    (answeredWith St.fresh
        (updateClient sampleLib failingUpstream sampleConfig "test_token" sampleClient "uid" St.fresh).1 500 "FAIL" ∧
      (updateClient sampleLib failingUpstream sampleConfig "test_token" sampleClient "uid" St.fresh).2
        = .err (.api ⟨"10000", "FAIL"⟩) ∧
      wroteUpstreamFailure sampleLib St.fresh
        (updateClient sampleLib failingUpstream sampleConfig "test_token" sampleClient "uid" St.fresh).1 "FAIL") ∧
    (answeredWith St.fresh
        (deleteClient sampleLib failingUpstream sampleConfig "test_token" "uid" St.fresh).1 500 "FAIL" ∧
      (deleteClient sampleLib failingUpstream sampleConfig "test_token" "uid" St.fresh).2
        = .err (.api ⟨"10000", "FAIL"⟩) ∧
      wroteUpstreamFailure sampleLib St.fresh
        (deleteClient sampleLib failingUpstream sampleConfig "test_token" "uid" St.fresh).1 "FAIL") ∧
    (answeredWith St.fresh
        (createUser sampleLib failingUpstream sampleConfig "test_token" ⟨"test", true⟩ St.fresh).1 500 "FAIL" ∧
      (createUser sampleLib failingUpstream sampleConfig "test_token" ⟨"test", true⟩ St.fresh).2
        = .err (.api ⟨"10000", "FAIL"⟩)) ∧
    (answeredWith St.fresh
        (getUserID sampleLib failingUpstream sampleConfig "test_token" ⟨"test", true⟩ St.fresh).1 500 "FAIL" ∧
      (getUserID sampleLib failingUpstream sampleConfig "test_token" ⟨"test", true⟩ St.fresh).2
        = .err (.api ⟨"10000", "FAIL"⟩)) ∧
    (answeredWith St.fresh
        (deleteUser sampleLib failingUpstream sampleConfig "test_token" "uid" St.fresh).1 500 "FAIL" ∧
      (deleteUser sampleLib failingUpstream sampleConfig "test_token" "uid" St.fresh).2
        = .err (.api ⟨"10000", "FAIL"⟩)) ∧
    (answeredWith St.fresh
        (setUserPassword sampleLib failingUpstream sampleConfig "test_token" ⟨"password", "test", false⟩ "uid" St.fresh).1 500 "FAIL" ∧
      (setUserPassword sampleLib failingUpstream sampleConfig "test_token" ⟨"password", "test", false⟩ "uid" St.fresh).2
        = .err (.api ⟨"10000", "FAIL"⟩)) :=
  have h := upstream_rejection_is_api_error_10000 sampleLib failingUpstream sampleConfig
    "test_token" St.fresh 500 "FAIL" sampleClient (sampleClientWithSecret "") "uid"
    ⟨"test", true⟩ ⟨"password", "test", false⟩ "uid" (by decide)
  ⟨by decide,
    ⟨⟨_, rfl⟩, h.1 ⟨_, rfl⟩⟩,
    ⟨⟨_, rfl⟩, h.2.1 ⟨_, rfl⟩⟩,
    ⟨⟨_, rfl⟩, h.2.2.1 ⟨_, rfl⟩⟩,
    ⟨⟨_, rfl⟩, h.2.2.2.1 ⟨_, rfl⟩⟩,
    ⟨⟨_, rfl⟩, h.2.2.2.2.1 ⟨_, rfl⟩⟩,
    ⟨⟨_, rfl⟩, h.2.2.2.2.2.1 ⟨_, rfl⟩⟩,
    ⟨⟨_, rfl⟩, h.2.2.2.2.2.2.1 ⟨_, rfl⟩⟩,
    ⟨⟨_, rfl⟩, h.2.2.2.2.2.2.2.1 ⟨_, rfl⟩⟩,
    ⟨⟨_, rfl⟩, h.2.2.2.2.2.2.2.2.1 ⟨_, rfl⟩⟩,
    ⟨⟨_, rfl⟩, h.2.2.2.2.2.2.2.2.2 ⟨_, rfl⟩⟩⟩

/-! ## C10: `getClientID` -/

/-- C10 (the code departs from the claim). `getClientID` never returns an identifier:
whatever the library, the upstream and the collection, it returns either an error or
the empty string, because the result of its query is dropped. On the sample collection,
whose record for `clientId` `test` has the identifier
`40b5444c-5990-496d-bb67-64c535df8dc4`, it returns the empty string without error and
writes nothing to the inbound response. -/
theorem getClientID_returns_no_identifier :
    (∀ (L : GoLib) (up : Upstream) (config : Config) (token : String)
        (client : ClientWithSecret) (s : St),
      (getClientID L up config token client s).2 = .ok "" ∨
        ∃ e, (getClientID L up config token client s).2 = .err e) ∧
    (sampleUpstream St.fresh.calls
        { Method := "GET", URL := "https://fake.com/auth/admin/realms/master/clients",
          Header := [("Authorization", "Bearer test_token"),
            ("Content-Type", "application/json")],
          Body := sampleLib.jsonMarshal (sampleClientWithSecret "").toJson }
      = .response 200 sampleCollection) ∧
    (getClientID sampleLib sampleUpstream sampleConfig "test_token"
        (sampleClientWithSecret "") St.fresh).2 = .ok "" ∧
    (getClientID sampleLib sampleUpstream sampleConfig "test_token"
        (sampleClientWithSecret "") St.fresh).1.w = NewRecorder := by
  refine ⟨?_, by rfl, by rfl, by rfl⟩
  intro L up config token client s
  simp only [getClientID, doRequest_eq]
  split
  · exact Or.inr ⟨_, rfl⟩
  · rcases Reply.result_cases (up s.calls
        { Method := "GET", URL := L.Sprintf config.ClientsURI [config.IdpURL, config.IdpRealm],
          Header := [("Authorization", bearer token), ("Content-Type", "application/json")],
          Body := L.jsonMarshal client.toJson }) with ⟨resp, hres⟩ | ⟨e, hres⟩
    · simp only [hres]
      split
      · exact Or.inr ⟨_, rfl⟩
      · exact Or.inl rfl
    · simp only [hres]
      exact Or.inr ⟨_, rfl⟩

/-! ## Further facts -/

/-- A loop whose last exchange succeeded ended on that exchange: it is left with the
reply's body as token body, no error, and the label of the accepted grant body. -/
theorem authLoop_exit_of_last_success (L : GoLib) (up : Upstream) (url : String) :
    ∀ (bodies : List Values) (tb : String) (ae : Option GoError) (s : St)
      (issued : List Exchange) (x : Exchange),
      (authLoop L up url bodies tb ae s).1.calls = s.calls ++ issued →
      issued.getLast? = some x → x.2.succeeded = true →
      (∀ b ∈ bodies, ∃ ent, authEntityOf (redact b) = .ok ent) →
      ∃ ent, (authLoop L up url bodies tb ae s).2 = .done x.2.errorText none ent ∧
        (authLoop L up url bodies tb ae s).1.w = s.w := by
  intro bodies
  induction bodies with
  | nil =>
    intro tb ae s issued x hc hl _ _
    simp only [authLoop] at hc
    have : issued = [] := by simpa using hc
    subst this
    simp at hl
  | cons b rest ih =>
    intro tb ae s issued x hc hl hx hlabel
    cases hN : L.NewRequest "POST" url with
    | some e =>
      rw [authLoop_cons_bad L up url b rest tb ae s e hN] at hc
      have : issued = [] := by simpa using hc
      subst this
      simp at hl
    | none =>
      rw [authLoop_cons L up url b rest tb ae s hN] at hc ⊢
      cases hs : (up s.calls (tokenRequest L url b)).succeeded with
      | true =>
        obtain ⟨ent, hent⟩ := hlabel b (by simp)
        simp only [hs, if_true, hent] at hc ⊢
        have : issued = [(tokenRequest L url b, up s.calls (tokenRequest L url b))] := by
          simpa using hc.symm
        subst this
        simp only [List.getLast?_singleton, Option.some.injEq] at hl
        subst hl
        exact ⟨ent, rfl, rfl⟩
      | false =>
        simp only [hs, Bool.false_eq_true, if_false] at hc ⊢
        obtain ⟨issued', h1, -⟩ := authLoop_trace L up url rest "" (some (.other
          (up s.calls (tokenRequest L url b)).errorText))
          ((attemptState L up url b s).Printf "Failed auth attempt %s" [.values (redact b)])
        have hi : issued = (tokenRequest L url b, up s.calls (tokenRequest L url b)) :: issued' := by
          rw [h1] at hc
          simpa using hc.symm
        subst hi
        cases issued' with
        | nil =>
          simp only [List.getLast?_singleton, Option.some.injEq] at hl
          subst hl
          simp [hs] at hx
        | cons y ys =>
          rw [List.getLast?_cons_cons] at hl
          obtain ⟨ent, he1, he2⟩ := ih _ _ _ (y :: ys) x h1 hl hx
            (fun b' hb' => hlabel b' (by simp [hb']))
          exact ⟨ent, he1, by rw [he2]; simp⟩

/-- What `authenticate` returns once a grant attempt succeeded with body `B`: the
outcome of decoding `B` into a `Token`. -/
theorem authenticate_after_success (L : GoLib) (up : Upstream) (config : Config)
    (r : Request) (f : AuthBodyGetter) (s s1 : St) (authBody : List Values) (url : String)
    (issued : List Exchange) (req : HttpRequest) (status : Nat) (B : String)
    (hf : f config r s = (s1, .ok (authBody, url)))
    (hlabel : ∀ b ∈ authBody, ∃ ent, authEntityOf (redact b) = .ok ent)
    (hcalls : (authenticate L up config r f s).1.calls = s1.calls ++ issued)
    (hlast : issued.getLast? = some (req, .response status B))
    (hok : okStatus status) :
    (∀ token, L.unmarshalToken B = .ok token →
      ∃ ent, (authenticate L up config r f s).2 = .ok (token.Value, ent) ∧
        (authenticate L up config r f s).1.w = s1.w) ∧
    (∀ uerr, L.unmarshalToken B = .error uerr →
      (authenticate L up config r f s).2 = .err (.other uerr) ∧
        (authenticate L up config r f s).1.w = s1.w.Error uerr 500) := by
  rw [authenticate_calls L up config r f s s1 authBody url hf] at hcalls
  obtain ⟨ent, he, hw⟩ := authLoop_exit_of_last_success L up url authBody "" none s1 issued
    (req, .response status B) hcalls hlast (by simp [Reply.succeeded, hok]) hlabel
  have he2 : (authLoop L up url authBody "" none s1).2 = .done B none ent := by
    simpa [Reply.errorText] using he
  have hloop : authLoop L up url authBody "" none s1
      = ((authLoop L up url authBody "" none s1).1, .done B none ent) := by
    rw [← he2]
  constructor
  · intro token ht
    refine ⟨ent, ?_, ?_⟩
    · simp only [authenticate, hf]
      rw [hloop]
      simp [ht]
    · simp only [authenticate, hf]
      rw [hloop]
      simp [ht, hw]
  · intro uerr ht
    simp only [authenticate, hf]
    rw [hloop]
    simp [ht, hw]

/-- A successful caller negotiation wrote nothing to the inbound response. -/
theorem authenticate_caller_ok_w (L : GoLib) (up : Upstream) (config : Config) (r : Request)
    (s s1 : St) (x : String × String)
    (h : authenticate L up config r (getAuthBodyFromBasicAuth L) s = (s1, .ok x)) :
    s1.w = s.w := by
  obtain ⟨u, p, hf⟩ := caller_getter_of_ok L up config r s s1 x h
  exact authenticate_ok_w L up config r _ s s s1 _ _ x hf h

/-- A successful administrative negotiation wrote nothing to the inbound response. -/
theorem authenticate_admin_ok_w (L : GoLib) (up : Upstream) (config : Config) (r : Request)
    (s s1 : St) (x : String × String)
    (h : authenticate L up config r (getAdminAuthBody L) s = (s1, .ok x)) :
    s1.w = s.w :=
  authenticate_ok_w L up config r _ s s s1 _ _ x (admin_getter_eq L config r s) h

theorem ClientWithSecret.zeroFields_ne_nil (c : ClientWithSecret)
    (h : c.ClientID = "" ∨ c.Secret = "") : ∃ f fs, c.zeroFields = f :: fs := by
  unfold ClientWithSecret.zeroFields
  by_cases h1 : c.ClientID = ""
  · exact ⟨"ClientID", _, by simp [h1]; rfl⟩
  · rcases h with h | h
    · exact absurd h h1
    · exact ⟨"Secret", [], by simp [h1, h]⟩

/-! ## C16: a payload without a required field -/

/-- C16. After a successful caller negotiation, a payload that decodes but lacks a
required field is answered with status 400 and the JSON of the `ApiError` with code
`"1007"`, and the calls of the request are those of the caller negotiation: neither the
administrative token request nor any other call follows. For `CreateResource` the
required field is a non-empty `clientId`; for `UpdateResource` the required fields are
a non-empty `clientId` and a non-empty `clientSecret`. -/
theorem missing_required_field_is_1007 (L : GoLib) (up : Upstream) (config : Config)
    (r : Request) (s s1 : St) (callerToken callerLabel body : String) (client : Client)
    (hbody : r.Body = .ok body)
    (hdec : L.decodeClient body = .ok client)
    (hw : s.w.wroteHeader = false) :
    (authenticate L up config r (getAuthBodyFromBasicAuth L)
        (s.Println [.str "Authenticating external user"])
        = (s1, .ok (callerToken, callerLabel)) →
      client.ClientID = "" →
      (CreateResource L (APIClient L up) config r s).w.Code = 400 ∧
      (CreateResource L (APIClient L up) config r s).w.Body
        = s.w.Body ++ (L.jsonMarshal (ApiError.toJson ⟨"1007", "Missing required fields"⟩)
            ++ "\n") ∧
      (CreateResource L (APIClient L up) config r s).calls = s1.calls) ∧
    (∀ clientWithSecret : ClientWithSecret,
      authenticate L up config r (getAuthBodyFromBasicAuth L) s
        = (s1, .ok (callerToken, callerLabel)) →
      L.decodeClientWithSecret body = .ok clientWithSecret →
      clientWithSecret.ClientID = "" ∨ clientWithSecret.Secret = "" →
      (UpdateResource L (APIClient L up) config r s).w.Code = 400 ∧
      (UpdateResource L (APIClient L up) config r s).w.Body
        = s.w.Body ++ (L.jsonMarshal (ApiError.toJson ⟨"1007", "Missing required fields"⟩)
            ++ "\n") ∧
      (UpdateResource L (APIClient L up) config r s).calls = s1.calls) := by
  constructor
  · intro hcaller hz
    have hw1 := authenticate_caller_ok_w L up config r _ s1 _ hcaller
    have hzf : client.zeroFields = ["ClientID"] := by simp [Client.zeroFields, hz]
    have hout : CreateResource L (APIClient L up) config r s
        = (s1.Println [.str (L.validatorErrorText ["ClientID"])]).httpError
            (MissingRequiredFieldsPayload.Error L) 400 := by
      simp only [CreateResource, APIClient, hcaller, hbody, hdec, hzf]
    have hE := ResponseRecorder.Error_unwritten s.w (MissingRequiredFieldsPayload.Error L) 400 hw
    rw [hout]
    simp only [St.httpError_w, St.Println_w, St.httpError_calls, St.Println_calls, hw1]
    exact ⟨hE.1, hE.2.1, trivial⟩
  · intro cws hcaller hdecs hz
    have hw1 := authenticate_caller_ok_w L up config r _ s1 _ hcaller
    obtain ⟨f, fs, hzf⟩ := ClientWithSecret.zeroFields_ne_nil cws hz
    have hout : UpdateResource L (APIClient L up) config r s
        = (s1.Println [.str (L.validatorErrorText (f :: fs))]).httpError
            (MissingRequiredFieldsPayload.Error L) 400 := by
      simp only [UpdateResource, APIClient, hcaller, hbody, hdec, hdecs, hzf]
    have hE := ResponseRecorder.Error_unwritten s.w (MissingRequiredFieldsPayload.Error L) 400 hw
    rw [hout]
    simp only [St.httpError_w, St.Println_w, St.httpError_calls, St.Println_calls, hw1]
    exact ⟨hE.1, hE.2.1, trivial⟩

/-- C16 on the sample upstream: `alice` creates a client with the payload `{}`, whose
`clientId` is empty, and updates one with a payload that has no `clientSecret`; both
requests are answered 400. -/
theorem missing_required_field_is_1007_witness :
    (aliceRequest sampleEmptyObject).Body = .ok sampleEmptyObject ∧
    sampleLib2.decodeClient sampleEmptyObject = .ok { sampleClient with ClientID := "" } ∧
    St.fresh.w.wroteHeader = false ∧
    authenticate sampleLib2 sampleUpstream sampleConfig (aliceRequest sampleEmptyObject)
        (getAuthBodyFromBasicAuth sampleLib2) (St.fresh.Println [.str "Authenticating external user"])
      = (callerState sampleLib2 sampleUpstream sampleEmptyObject createStart,
          .ok ("caller-token", "alice")) ∧
    ({ sampleClient with ClientID := "" } : Client).ClientID = "" ∧
    (CreateResource sampleLib2 (APIClient sampleLib2 sampleUpstream) sampleConfig
      (aliceRequest sampleEmptyObject) St.fresh).w.Code = 400 ∧
    (aliceRequest sampleNoSecretPayload).Body = .ok sampleNoSecretPayload ∧
    sampleLib2.decodeClient sampleNoSecretPayload = .ok sampleClient ∧
    authenticate sampleLib2 sampleUpstream sampleConfig (aliceRequest sampleNoSecretPayload)
        (getAuthBodyFromBasicAuth sampleLib2) St.fresh
      = (callerState sampleLib2 sampleUpstream sampleNoSecretPayload St.fresh,
          .ok ("caller-token", "alice")) ∧
    sampleLib2.decodeClientWithSecret sampleNoSecretPayload = .ok (sampleClientWithSecret "") ∧
    ((sampleClientWithSecret "").ClientID = "" ∨ (sampleClientWithSecret "").Secret = "") ∧
    (UpdateResource sampleLib2 (APIClient sampleLib2 sampleUpstream) sampleConfig
      (aliceRequest sampleNoSecretPayload) St.fresh).w.Code = 400 :=
  ⟨rfl, rfl, rfl, rfl, rfl,
    ((missing_required_field_is_1007 sampleLib2 sampleUpstream sampleConfig
      (aliceRequest sampleEmptyObject) St.fresh
      (callerState sampleLib2 sampleUpstream sampleEmptyObject createStart)
      "caller-token" "alice" sampleEmptyObject { sampleClient with ClientID := "" }
      rfl rfl rfl).1 rfl rfl).1,
    rfl, rfl, rfl, rfl, Or.inr rfl,
    ((missing_required_field_is_1007 sampleLib2 sampleUpstream sampleConfig
      (aliceRequest sampleNoSecretPayload) St.fresh
      (callerState sampleLib2 sampleUpstream sampleNoSecretPayload St.fresh)
      "caller-token" "alice" sampleNoSecretPayload sampleClient
      rfl rfl rfl).2 (sampleClientWithSecret "") rfl rfl (Or.inr rfl)).1⟩

/-! ## C17: a payload that does not decode -/

/-- C17. After a successful caller negotiation, a request body that the JSON decoder
rejects is answered with status 400 and the JSON of the `ApiError` with code `"1003"`,
by `CreateResource`, `UpdateResource` and `DeleteResource` alike, and the calls of the
request are those of the caller negotiation. Nothing is assumed about the fields of
what was decoded: the decoding error is reported whether or not a required field is
missing. For update and delete the body is decoded twice, into a `Client` and into a
`ClientWithSecret`, and either failure gives this answer. -/
theorem undecodable_payload_is_1003 (L : GoLib) (up : Upstream) (config : Config)
    (r : Request) (s s1 : St) (callerToken callerLabel body errDec : String)
    (hbody : r.Body = .ok body)
    (hw : s.w.wroteHeader = false) :
    (authenticate L up config r (getAuthBodyFromBasicAuth L)
        (s.Println [.str "Authenticating external user"])
        = (s1, .ok (callerToken, callerLabel)) →
      L.decodeClient body = .error errDec →
      (CreateResource L (APIClient L up) config r s).w.Code = 400 ∧
      (CreateResource L (APIClient L up) config r s).w.Body
        = s.w.Body ++ (L.jsonMarshal (ApiError.toJson ⟨"1003", "Invalid Request payload"⟩)
            ++ "\n") ∧
      (CreateResource L (APIClient L up) config r s).calls = s1.calls) ∧
    (authenticate L up config r (getAuthBodyFromBasicAuth L) s
        = (s1, .ok (callerToken, callerLabel)) →
      (L.decodeClient body = .error errDec ∨
        ∃ client, L.decodeClient body = .ok client ∧
          L.decodeClientWithSecret body = .error errDec) →
      ((UpdateResource L (APIClient L up) config r s).w.Code = 400 ∧
        (UpdateResource L (APIClient L up) config r s).w.Body
          = s.w.Body ++ (L.jsonMarshal (ApiError.toJson ⟨"1003", "Invalid Request payload"⟩)
              ++ "\n") ∧
        (UpdateResource L (APIClient L up) config r s).calls = s1.calls) ∧
      ((DeleteResource L (APIClient L up) config r s).w.Code = 400 ∧
        (DeleteResource L (APIClient L up) config r s).w.Body
          = s.w.Body ++ (L.jsonMarshal (ApiError.toJson ⟨"1003", "Invalid Request payload"⟩)
              ++ "\n") ∧
        (DeleteResource L (APIClient L up) config r s).calls = s1.calls)) := by
  have hE := ResponseRecorder.Error_unwritten s.w (InvalidRequestPayload.Error L) 400 hw
  constructor
  · intro hcaller hdec
    have hw1 := authenticate_caller_ok_w L up config r _ s1 _ hcaller
    have hout : CreateResource L (APIClient L up) config r s
        = (s1.Println [.str errDec]).httpError (InvalidRequestPayload.Error L) 400 := by
      simp only [CreateResource, APIClient, hcaller, hbody, hdec]
    rw [hout]
    simp only [St.httpError_w, St.Println_w, St.httpError_calls, St.Println_calls, hw1]
    exact ⟨hE.1, hE.2.1, trivial⟩
  · intro hcaller hdec
    have hw1 := authenticate_caller_ok_w L up config r _ s1 _ hcaller
    have houtU : UpdateResource L (APIClient L up) config r s
        = (s1.Println [.str errDec]).httpError (InvalidRequestPayload.Error L) 400 := by
      rcases hdec with hdec | ⟨client, hdec, hdecs⟩
      · simp only [UpdateResource, APIClient, hcaller, hbody, hdec]
      · simp only [UpdateResource, APIClient, hcaller, hbody, hdec, hdecs]
    have houtD : DeleteResource L (APIClient L up) config r s
        = (s1.Println [.str errDec]).httpError (InvalidRequestPayload.Error L) 400 := by
      rcases hdec with hdec | ⟨client, hdec, hdecs⟩
      · simp only [DeleteResource, APIClient, hcaller, hbody, hdec]
      · simp only [DeleteResource, APIClient, hcaller, hbody, hdec, hdecs]
    rw [houtU, houtD]
    simp only [St.httpError_w, St.Println_w, St.httpError_calls, St.Println_calls, hw1]
    exact ⟨⟨hE.1, hE.2.1, trivial⟩, hE.1, hE.2.1, trivial⟩

/-- C17 on the sample upstream: `alice` sends `[bad_payload]`, which decodes into
neither struct, and a payload with a numeric `clientSecret`, which decodes into a
`Client` only; the handlers answer 400. -/
theorem undecodable_payload_is_1003_witness :
    (aliceRequest "[bad_payload]").Body = .ok "[bad_payload]" ∧
    St.fresh.w.wroteHeader = false ∧
    authenticate sampleLib2 sampleUpstream sampleConfig (aliceRequest "[bad_payload]")
        (getAuthBodyFromBasicAuth sampleLib2) (St.fresh.Println [.str "Authenticating external user"])
      = (callerState sampleLib2 sampleUpstream "[bad_payload]" createStart,
          .ok ("caller-token", "alice")) ∧
    sampleLib2.decodeClient "[bad_payload]" = .error "invalid character" ∧
    (CreateResource sampleLib2 (APIClient sampleLib2 sampleUpstream) sampleConfig
      (aliceRequest "[bad_payload]") St.fresh).w.Code = 400 ∧
    authenticate sampleLib2 sampleUpstream sampleConfig (aliceRequest "[bad_payload]")
        (getAuthBodyFromBasicAuth sampleLib2) St.fresh
      = (callerState sampleLib2 sampleUpstream "[bad_payload]" St.fresh,
          .ok ("caller-token", "alice")) ∧
    (UpdateResource sampleLib2 (APIClient sampleLib2 sampleUpstream) sampleConfig
      (aliceRequest "[bad_payload]") St.fresh).w.Code = 400 ∧
    (aliceRequest sampleBadSecretPayload).Body = .ok sampleBadSecretPayload ∧
    authenticate sampleLib2 sampleUpstream sampleConfig (aliceRequest sampleBadSecretPayload)
        (getAuthBodyFromBasicAuth sampleLib2) St.fresh
      = (callerState sampleLib2 sampleUpstream sampleBadSecretPayload St.fresh,
          .ok ("caller-token", "alice")) ∧
    sampleLib2.decodeClient sampleBadSecretPayload = .ok sampleClient ∧
    sampleLib2.decodeClientWithSecret sampleBadSecretPayload = .error "invalid character" ∧
    (DeleteResource sampleLib2 (APIClient sampleLib2 sampleUpstream) sampleConfig
      (aliceRequest sampleBadSecretPayload) St.fresh).w.Code = 400 :=
  ⟨rfl, rfl, rfl, rfl,
    ((undecodable_payload_is_1003 sampleLib2 sampleUpstream sampleConfig
      (aliceRequest "[bad_payload]") St.fresh
      (callerState sampleLib2 sampleUpstream "[bad_payload]" createStart)
      "caller-token" "alice" "[bad_payload]" "invalid character" rfl rfl).1 rfl rfl).1,
    rfl,
    ((undecodable_payload_is_1003 sampleLib2 sampleUpstream sampleConfig
      (aliceRequest "[bad_payload]") St.fresh
      (callerState sampleLib2 sampleUpstream "[bad_payload]" St.fresh)
      "caller-token" "alice" "[bad_payload]" "invalid character" rfl rfl).2 rfl
        (Or.inl rfl)).1.1,
    rfl, rfl, rfl, rfl,
    ((undecodable_payload_is_1003 sampleLib2 sampleUpstream sampleConfig
      (aliceRequest sampleBadSecretPayload) St.fresh
      (callerState sampleLib2 sampleUpstream sampleBadSecretPayload St.fresh)
      "caller-token" "alice" sampleBadSecretPayload "invalid character" rfl rfl).2 rfl
        (Or.inr ⟨sampleClient, rfl, rfl⟩)).2.1⟩

/-! ## C15: a created client -/

/-- A successful `createClient` issued its one request and left the response alone. -/
theorem createClient_ok (L : GoLib) (up : Upstream) (config : Config) (token : String)
    (client : Client) (s s' : St)
    (h : createClient L up config token client s = (s', .ok ())) :
    s'.calls = s.calls ++ [(createClientRequest L config token client,
        up s.calls (createClientRequest L config token client))] ∧ s'.w = s.w := by
  simp only [createClient, doRequest_eq] at h
  split at h
  · simp at h
  · rcases Reply.result_cases (up s.calls (createClientRequest L config token client))
      with ⟨resp, hres⟩ | ⟨e, hres⟩
    · unfold createClientRequest at hres
      simp only [hres, Prod.mk.injEq] at h
      rw [← h.1]
      exact ⟨rfl, rfl⟩
    · unfold createClientRequest at hres
      simp [hres] at h

/-- C15. Take a create request whose caller negotiation succeeds and whose body decodes
into a client with a non-empty `clientId`. When the administrative negotiation, the
creation of the client, its lookup and the fetch of the secret of the looked-up
identifier all succeed, the response has status 201 and its body is the JSON object
with the single field `value` holding the secret `getClientSecret` returned for the
identifier `getClient` returned. The client handed to `createClient` and `getClient` is
the decoded one, made confidential and described as created by the caller. -/
theorem create_answers_201_with_secret (L : GoLib) (up : Upstream) (config : Config)
    (r : Request) (s s1 s3 s4 s5 s6 : St)
    (callerToken callerLabel body token adminLabel : String)
    (client0 : Client) (clientInf : ClientOut) (clientSec : String)
    (hcaller : authenticate L up config r (getAuthBodyFromBasicAuth L)
        (s.Println [.str "Authenticating external user"])
      = (s1, .ok (callerToken, callerLabel)))
    (hbody : r.Body = .ok body)
    (hdec : L.decodeClient body = .ok client0)
    (hid : client0.ClientID ≠ "")
    (hadmin : authenticate L up config r (getAdminAuthBody L)
        (s1.Println [.str "Authenticating app admin user"])
      = (s3, .ok (token, adminLabel)))
    (hcreate : createClient L up config token
        { applyRedirectUris client0 with
          PublicClient := false, Description := "Client created by " ++ callerLabel } s3
      = (s4, .ok ()))
    (hget : getClient L up config token
        { applyRedirectUris client0 with
          PublicClient := false, Description := "Client created by " ++ callerLabel } s4
      = (s5, .ok clientInf))
    (hsec : getClientSecret L up config token clientInf.ID s5 = (s6, .ok clientSec))
    (hw : s.w.wroteHeader = false) :
    (CreateResource L (APIClient L up) config r s).w.Code = 201 ∧
    (CreateResource L (APIClient L up) config r s).w.Body
      = s.w.Body ++ L.jsonMarshal (.obj [("value", .str clientSec)]) ∧
    (CreateResource L (APIClient L up) config r s).calls = s6.calls := by
  have hw1 := authenticate_caller_ok_w L up config r _ s1 _ hcaller
  have hw3 := authenticate_admin_ok_w L up config r _ s3 _ hadmin
  obtain ⟨-, hw4⟩ := createClient_ok L up config token _ s3 s4 hcreate
  obtain ⟨-, hw5⟩ := getClient_ok L up config token _ s4 s5 clientInf hget
  obtain ⟨-, hw6⟩ := getClientSecret_ok L up config token clientInf.ID s5 s6 clientSec hsec
  have hw6' : s6.w = s.w := by
    rw [hw6, hw5, hw4, hw3]; simpa using hw1
  have hzf : client0.zeroFields = [] := by simp [Client.zeroFields, hid]
  have hout : CreateResource L (APIClient L up) config r s
      = { s6.writeJSONHeader 201 with
          w := (s6.writeJSONHeader 201).w.Write
            (L.jsonMarshal (ClientSecret.toJson { Value := clientSec })) } := by
    simp only [CreateResource, APIClient, hcaller, hbody, hdec, hzf, hadmin, hcreate, hget, hsec]
  rw [hout]
  simp [St.writeJSONHeader, ResponseRecorder.Write, ResponseRecorder.WriteHeader,
    ResponseRecorder.SetHeader, hw6', hw, ClientSecret.toJson]

/-- C15 on the sample upstream that accepts the creation: `alice` creates the client
`test` and receives 201 with the secret `test_secret` of the looked-up identifier. -/
theorem create_answers_201_with_secret_witness :
    authenticate sampleLib creatingUpstream sampleConfig (aliceRequest samplePayload)
        (getAuthBodyFromBasicAuth sampleLib)
        (St.fresh.Println [.str "Authenticating external user"])
      = (createS1, .ok ("caller-token", "alice")) ∧
    (aliceRequest samplePayload).Body = .ok samplePayload ∧
    sampleLib.decodeClient samplePayload = .ok sampleClient ∧
    sampleClient.ClientID ≠ "" ∧
    authenticate sampleLib creatingUpstream sampleConfig (aliceRequest samplePayload)
        (getAdminAuthBody sampleLib) (createS1.Println [.str "Authenticating app admin user"])
      = (createS3, .ok ("admin-token", "fake")) ∧
    createClient sampleLib creatingUpstream sampleConfig "admin-token"
        { applyRedirectUris sampleClient with
          PublicClient := false, Description := "Client created by " ++ "alice" } createS3
      = (createS4, .ok ()) ∧
    getClient sampleLib creatingUpstream sampleConfig "admin-token"
        { applyRedirectUris sampleClient with
          PublicClient := false, Description := "Client created by " ++ "alice" } createS4
      = (createS5, .ok sampleInfo) ∧
    getClientSecret sampleLib creatingUpstream sampleConfig "admin-token" sampleInfo.ID createS5
      = (createS6, .ok "test_secret") ∧
    St.fresh.w.wroteHeader = false ∧
    (CreateResource sampleLib (APIClient sampleLib creatingUpstream) sampleConfig
      (aliceRequest samplePayload) St.fresh).w.Code = 201 ∧
    (CreateResource sampleLib (APIClient sampleLib creatingUpstream) sampleConfig
      (aliceRequest samplePayload) St.fresh).w.Body
      = "\x7b\"value\":\"test_secret\"\x7d" :=
  ⟨rfl, rfl, rfl, by decide, rfl, rfl, rfl, rfl, rfl,
    (create_answers_201_with_secret sampleLib creatingUpstream sampleConfig
      (aliceRequest samplePayload) St.fresh createS1 createS3 createS4 createS5 createS6
      "caller-token" "alice" samplePayload "admin-token" "fake" sampleClient sampleInfo
      "test_secret" rfl rfl rfl (by decide) rfl rfl rfl rfl rfl).1,
    (create_answers_201_with_secret sampleLib creatingUpstream sampleConfig
      (aliceRequest samplePayload) St.fresh createS1 createS3 createS4 createS5 createS6
      "caller-token" "alice" samplePayload "admin-token" "fake" sampleClient sampleInfo
      "test_secret" rfl rfl rfl (by decide) rfl rfl rfl rfl rfl).2.1.trans rfl⟩

/-! ## C19: the health check -/

/-- The two ways `HealthCheck` ends once its request was built, by the reply to it. -/
theorem HealthCheck_eq (L : GoLib) (up : Upstream) (config : Config) (r : Request) (s : St)
    (hN : L.NewRequest "GET" (L.Sprintf config.CheckURI [config.IdpURL]) = none) :
    ((up s.calls (checkRequest L config)).succeeded = true →
      HealthCheck L (APIClient L up) config r s
        = St.writeJSONHeader
            { s with calls := s.calls ++ [(checkRequest L config,
                        up s.calls (checkRequest L config))],
                     log := s.log ++ (up s.calls (checkRequest L config)).logged
                        (checkRequest L config).URL } 200) ∧
    ((up s.calls (checkRequest L config)).succeeded = false →
      HealthCheck L (APIClient L up) config r s
        = St.httpError (St.Println
            { s with calls := s.calls ++ [(checkRequest L config,
                        up s.calls (checkRequest L config))],
                     log := s.log ++ (up s.calls (checkRequest L config)).logged
                        (checkRequest L config).URL }
            [.str (up s.calls (checkRequest L config)).errorText])
            (L.jsonMarshal (ApiError.toJson
              ⟨"10000", (up s.calls (checkRequest L config)).errorText⟩)) 500) := by
  constructor
  · intro h
    have hres := Reply.result_of_succeeded _ h
    unfold checkRequest at hres ⊢
    simp only [HealthCheck, APIClient, hN, doRequest_eq, hres]
  · intro h
    have hres := Reply.result_err _ h
    unfold checkRequest at hres ⊢
    simp only [HealthCheck, APIClient, hN, doRequest_eq, hres, GoError.Error]

/-- C19. `HealthCheck` issues one call, the `GET` on the check URL without any header,
whatever the inbound request is. If the call succeeds the response has status 200 and
nothing is written to its body; if it fails with error text `m` the response has status
500 and carries the JSON of the `ApiError` with code `"10000"` and message `m`. The
inbound request plays no part, and a request handled later, in a world where the
upstream gives the same reply, gets the same response. -/
theorem health_check_reports_upstream (L : GoLib) (up : Upstream) (config : Config)
    (r : Request) (s : St)
    (hN : L.NewRequest "GET" (L.Sprintf config.CheckURI [config.IdpURL]) = none)
    (hw : s.w.wroteHeader = false) :
    (HealthCheck L (APIClient L up) config r s).calls
      = s.calls ++ [(checkRequest L config, up s.calls (checkRequest L config))] ∧
    ((up s.calls (checkRequest L config)).succeeded = true →
      (HealthCheck L (APIClient L up) config r s).w.Code = 200 ∧
      (HealthCheck L (APIClient L up) config r s).w.Body = s.w.Body) ∧
    ((up s.calls (checkRequest L config)).succeeded = false →
      (HealthCheck L (APIClient L up) config r s).w.Code = 500 ∧
      (HealthCheck L (APIClient L up) config r s).w.Body
        = s.w.Body ++ (L.jsonMarshal (ApiError.toJson
            ⟨"10000", (up s.calls (checkRequest L config)).errorText⟩) ++ "\n")) ∧
    (∀ (r' : Request) (s' : St), s'.w = s.w →
      up s'.calls (checkRequest L config) = up s.calls (checkRequest L config) →
      (HealthCheck L (APIClient L up) config r' s').w
        = (HealthCheck L (APIClient L up) config r s).w) := by
  have hS := HealthCheck_eq L up config r s hN
  refine ⟨?_, ?_, ?_, ?_⟩
  · cases h : (up s.calls (checkRequest L config)).succeeded with
    | true => rw [hS.1 h]; rfl
    | false => rw [hS.2 h]; rfl
  · intro h
    rw [hS.1 h]
    simp [St.writeJSONHeader, ResponseRecorder.WriteHeader, ResponseRecorder.SetHeader, hw]
  · intro h
    rw [hS.2 h]
    have hE := ResponseRecorder.Error_unwritten s.w (L.jsonMarshal (ApiError.toJson
      ⟨"10000", (up s.calls (checkRequest L config)).errorText⟩)) 500 hw
    exact ⟨hE.1, hE.2.1⟩
  · intro r' s' hw' hup
    have hS' := HealthCheck_eq L up config r' s' hN
    cases h : (up s.calls (checkRequest L config)).succeeded with
    | true =>
      rw [hS.1 h, hS'.1 (by rw [hup]; exact h)]
      simp [St.writeJSONHeader, hw']
    | false =>
      rw [hS.2 h, hS'.2 (by rw [hup]; exact h)]
      simp [St.httpError, St.Println, hw', hup]

/-- C19 on the sample upstreams: a request without credentials is answered 200 with an
empty body while the upstream is healthy, and 500 while it answers `FAIL`. -/
theorem health_check_reports_upstream_witness :
    sampleLib.NewRequest "GET" (sampleLib.Sprintf sampleConfig.CheckURI [sampleConfig.IdpURL])
      = none ∧
    St.fresh.w.wroteHeader = false ∧
    (sampleUpstream St.fresh.calls (checkRequest sampleLib sampleConfig)).succeeded = true ∧
    (HealthCheck sampleLib (APIClient sampleLib sampleUpstream) sampleConfig
      ⟨none, .ok ""⟩ St.fresh).w.Code = 200 ∧
    (HealthCheck sampleLib (APIClient sampleLib sampleUpstream) sampleConfig
      ⟨none, .ok ""⟩ St.fresh).w.Body = "" ∧
    (failingUpstream St.fresh.calls (checkRequest sampleLib sampleConfig)).succeeded = false ∧
    (HealthCheck sampleLib (APIClient sampleLib failingUpstream) sampleConfig
      ⟨none, .ok ""⟩ St.fresh).w.Code = 500 :=
  ⟨rfl, rfl, rfl,
    ((health_check_reports_upstream sampleLib sampleUpstream sampleConfig ⟨none, .ok ""⟩
      St.fresh rfl rfl).2.1 rfl).1,
    ((health_check_reports_upstream sampleLib sampleUpstream sampleConfig ⟨none, .ok ""⟩
      St.fresh rfl rfl).2.1 rfl).2,
    rfl,
    ((health_check_reports_upstream sampleLib failingUpstream sampleConfig ⟨none, .ok ""⟩
      St.fresh rfl rfl).2.2.1 rfl).1⟩

/-! ## C13: the token body -/

/-- The exchange of a loop that succeeded is the last one the loop issued. -/
theorem authLoop_success_is_last (L : GoLib) (up : Upstream) (url : String)
    (bodies : List Values) (tb : String) (ae : Option GoError) (s : St)
    (issued : List Exchange) (x : Exchange)
    (hc : (authLoop L up url bodies tb ae s).1.calls = s.calls ++ issued)
    (hx : x ∈ issued) (hs : x.2.succeeded = true) : issued.getLast? = some x := by
  obtain ⟨issued', h1, -, -, h4, -⟩ := authLoop_trace L up url bodies tb ae s
  have : issued' = issued := by
    rw [h1] at hc
    exact List.append_cancel_left hc
  subst this
  obtain ⟨n, hn⟩ := List.mem_iff_get.1 hx
  subst hn
  have hlen := h4 n.1 n.2 hs
  rw [List.getLast?_eq_getElem?]
  simp [hlen, List.getElem?_eq_getElem n.2]

/-- C13. Let the getter hand out grant bodies from each of which the label can be
read, as both getters of the program do, and let one of the token requests
`authenticate` issued be answered with a success status and the body `B`. If `B`
decodes into a `Token` with value `t`, `authenticate` returns `t` with a label and no
error, and the inbound response is as it was. If `B` does not decode, `authenticate`
returns the decoding error, which in Go comes with the empty token and label, and the
response has status 500 and the text of the error as body. -/
theorem token_body_decides_authenticate (L : GoLib) (up : Upstream) (config : Config)
    (r : Request) (f : AuthBodyGetter) (s : St) (authBody : List Values) (url : String)
    (issued : List Exchange) (req : HttpRequest) (status : Nat) (B : String)
    (hf : f config r s = (s, .ok (authBody, url)))
    (hlabel : ∀ b ∈ authBody, ∃ ent, authEntityOf (redact b) = .ok ent)
    (hcalls : (authenticate L up config r f s).1.calls = s.calls ++ issued)
    (hmem : (req, Reply.response status B) ∈ issued)
    (hok : okStatus status)
    (hw : s.w.wroteHeader = false) :
    (∀ t, L.unmarshalToken B = .ok { Value := t } →
      (∃ ent, (authenticate L up config r f s).2 = .ok (t, ent)) ∧
      (authenticate L up config r f s).1.w = s.w) ∧
    (∀ uerr, L.unmarshalToken B = .error uerr →
      (authenticate L up config r f s).2 = .err (.other uerr) ∧
      (authenticate L up config r f s).1.w.Code = 500 ∧
      (authenticate L up config r f s).1.w.Body = s.w.Body ++ (uerr ++ "\n")) := by
  have hlast : issued.getLast? = some (req, Reply.response status B) := by
    rw [authenticate_calls L up config r f s s authBody url hf] at hcalls
    exact authLoop_success_is_last L up url authBody "" none s issued _ hcalls hmem
      (by simp [Reply.succeeded, hok])
  obtain ⟨h1, h2⟩ := authenticate_after_success L up config r f s s authBody url issued req
    status B hf hlabel hcalls hlast hok
  constructor
  · intro t ht
    obtain ⟨ent, he, hw'⟩ := h1 _ ht
    exact ⟨⟨ent, he⟩, hw'⟩
  · intro uerr hu
    obtain ⟨he, hw'⟩ := h2 uerr hu
    have hE := ResponseRecorder.Error_unwritten s.w uerr 500 hw
    rw [hw']
    exact ⟨he, hE.1, hE.2.1⟩

/-- C13 on the sample upstreams: the password grant of `alice` is answered with a token
document and `authenticate` returns `caller-token`; answered with `[bad_token]` it
returns the decoding error and the response has status 500. -/
theorem token_body_decides_authenticate_witness :
    getAuthBodyFromBasicAuth sampleLib sampleConfig (aliceRequest "") St.fresh
      = (St.fresh, .ok ([authResourceOwnerBody sampleConfig "alice" "pw",
          authClientBody "alice" "pw"], callerTokenURL sampleLib sampleConfig)) ∧
    (∀ b ∈ [authResourceOwnerBody sampleConfig "alice" "pw", authClientBody "alice" "pw"],
      ∃ ent, authEntityOf (redact b) = .ok ent) ∧
    (authenticate sampleLib sampleUpstream sampleConfig (aliceRequest "")
        (getAuthBodyFromBasicAuth sampleLib) St.fresh).1.calls
      = St.fresh.calls ++ [(passwordGrantRequest sampleLib sampleConfig "alice" "pw",
          .response 200 (sampleTokenBody "caller-token"))] ∧
    okStatus 200 ∧
    St.fresh.w.wroteHeader = false ∧
    sampleLib.unmarshalToken (sampleTokenBody "caller-token") = .ok { Value := "caller-token" } ∧
    (∃ ent, (authenticate sampleLib sampleUpstream sampleConfig (aliceRequest "")
        (getAuthBodyFromBasicAuth sampleLib) St.fresh).2 = .ok ("caller-token", ent)) ∧
    (authenticate sampleLib garbledUpstream sampleConfig (aliceRequest "")
        (getAuthBodyFromBasicAuth sampleLib) St.fresh).1.calls
      = St.fresh.calls ++ [(passwordGrantRequest sampleLib sampleConfig "alice" "pw",
          .response 200 "[bad_token]")] ∧
    sampleLib.unmarshalToken "[bad_token]" = .error "invalid character" ∧
    (authenticate sampleLib garbledUpstream sampleConfig (aliceRequest "")
        (getAuthBodyFromBasicAuth sampleLib) St.fresh).1.w.Code = 500 :=
  ⟨rfl,
    fun b hb => by
      simp only [List.mem_cons, List.mem_singleton, List.not_mem_nil, or_false] at hb
      rcases hb with rfl | rfl
      · exact ⟨_, authEntityOf_resourceOwner sampleConfig "alice" "pw"⟩
      · exact ⟨_, authEntityOf_client "alice" "pw"⟩,
    rfl, by decide, rfl, rfl,
    ((token_body_decides_authenticate sampleLib sampleUpstream sampleConfig (aliceRequest "")
      (getAuthBodyFromBasicAuth sampleLib) St.fresh _ _ _
      (passwordGrantRequest sampleLib sampleConfig "alice" "pw") 200
      (sampleTokenBody "caller-token") rfl
      (fun b hb => by
        simp only [List.mem_cons, List.mem_singleton, List.not_mem_nil, or_false] at hb
        rcases hb with rfl | rfl
        · exact ⟨_, authEntityOf_resourceOwner sampleConfig "alice" "pw"⟩
        · exact ⟨_, authEntityOf_client "alice" "pw"⟩)
      rfl (List.mem_singleton.2 rfl) (by decide) rfl).1 "caller-token" rfl).1,
    rfl, rfl,
    ((token_body_decides_authenticate sampleLib garbledUpstream sampleConfig (aliceRequest "")
      (getAuthBodyFromBasicAuth sampleLib) St.fresh _ _ _
      (passwordGrantRequest sampleLib sampleConfig "alice" "pw") 200 "[bad_token]" rfl
      (fun b hb => by
        simp only [List.mem_cons, List.mem_singleton, List.not_mem_nil, or_false] at hb
        rcases hb with rfl | rfl
        · exact ⟨_, authEntityOf_resourceOwner sampleConfig "alice" "pw"⟩
        · exact ⟨_, authEntityOf_client "alice" "pw"⟩)
      rfl (List.mem_singleton.2 rfl) (by decide) rfl).2 "invalid character" rfl).2.1⟩

/-! ## C14: a token document without a token -/

/-- C14. `authenticate` does not check the token it decoded. Whenever a token request
is answered with a success status and a body that decodes into a `Token` whose value is
empty, as the JSON object without `access_token` does, `authenticate` returns the empty
token without error and writes nothing. On the sample upstream that answers every
request with status 200 and `{}`, the negotiation of `alice` returns the empty token
with the label `alice`, and the response is untouched. -/
theorem authenticate_returns_empty_token :
    (∀ (L : GoLib) (up : Upstream) (config : Config) (r : Request) (f : AuthBodyGetter)
      (s : St) (authBody : List Values) (url : String) (issued : List Exchange)
      (req : HttpRequest) (status : Nat) (B : String),
      f config r s = (s, .ok (authBody, url)) →
      (∀ b ∈ authBody, ∃ ent, authEntityOf (redact b) = .ok ent) →
      (authenticate L up config r f s).1.calls = s.calls ++ issued →
      (req, Reply.response status B) ∈ issued →
      okStatus status →
      L.unmarshalToken B = .ok { Value := "" } →
      (∃ ent, (authenticate L up config r f s).2 = .ok ("", ent)) ∧
      (authenticate L up config r f s).1.w = s.w) ∧
    sampleLib2.unmarshalToken sampleEmptyObject = .ok { Value := "" } ∧
    (authenticate sampleLib2 emptyObjectUpstream sampleConfig (aliceRequest "")
        (getAuthBodyFromBasicAuth sampleLib2) St.fresh).2 = .ok ("", "alice") ∧
    (authenticate sampleLib2 emptyObjectUpstream sampleConfig (aliceRequest "")
        (getAuthBodyFromBasicAuth sampleLib2) St.fresh).1.calls
      = [(passwordGrantRequest sampleLib2 sampleConfig "alice" "pw",
          .response 200 sampleEmptyObject)] ∧
    (authenticate sampleLib2 emptyObjectUpstream sampleConfig (aliceRequest "")
        (getAuthBodyFromBasicAuth sampleLib2) St.fresh).1.w = NewRecorder := by
  refine ⟨?_, rfl, rfl, rfl, rfl⟩
  intro L up config r f s authBody url issued req status B hf hlabel hcalls hmem hok ht
  have hlast : issued.getLast? = some (req, Reply.response status B) := by
    rw [authenticate_calls L up config r f s s authBody url hf] at hcalls
    exact authLoop_success_is_last L up url authBody "" none s issued _ hcalls hmem
      (by simp [Reply.succeeded, hok])
  obtain ⟨h1, -⟩ := authenticate_after_success L up config r f s s authBody url issued req
    status B hf hlabel hcalls hlast hok
  obtain ⟨ent, he, hw'⟩ := h1 _ ht
  exact ⟨⟨ent, he⟩, hw'⟩

/-! ## C18: a delete request without `clientSecret` -/

/-- C18. `DeleteResource` validates the decoded `Client`, not the decoded
`ClientWithSecret`, so an empty `clientSecret` is not rejected as a missing field. For
every delete request whose caller negotiation succeeds and whose body decodes with a
non-empty `clientId` and an empty `clientSecret`, the handler goes on to the
administrative negotiation; when that, the lookup and the fetch of a non-empty secret
succeed, the response is 401 with the JSON of the `ApiError` with code `"1009"`, after
the two `GET` calls, while `UpdateResource` answers the same request with 400 and code
`"1007"` without any further call. On the sample upstream `alice` sends the payload
with `clientId` only: `DeleteResource` answers 401 after four calls,
`UpdateResource` 400 after one. -/
theorem delete_accepts_missing_secret :
    (∀ (L : GoLib) (up : Upstream) (config : Config) (r : Request) (s s1 s2 s3 s4 : St)
      (callerToken callerLabel body token adminLabel : String) (client : Client)
      (clientWithSecret : ClientWithSecret) (clientInfo : ClientOut) (clientSecret : String),
      authenticate L up config r (getAuthBodyFromBasicAuth L) s
        = (s1, .ok (callerToken, callerLabel)) →
      r.Body = .ok body →
      L.decodeClient body = .ok client →
      L.decodeClientWithSecret body = .ok clientWithSecret →
      client.ClientID ≠ "" →
      clientWithSecret.Secret = "" →
      authenticate L up config r (getAdminAuthBody L) s1 = (s2, .ok (token, adminLabel)) →
      getClient L up config token client s2 = (s3, .ok clientInfo) →
      getClientSecret L up config token clientInfo.ID s3 = (s4, .ok clientSecret) →
      clientSecret ≠ "" →
      s.w.wroteHeader = false →
      ((DeleteResource L (APIClient L up) config r s).w.Code = 401 ∧
        (DeleteResource L (APIClient L up) config r s).w.Body
          = s.w.Body ++ (L.jsonMarshal (ApiError.toJson ⟨"1009", "Bad client secret"⟩)
              ++ "\n") ∧
        (DeleteResource L (APIClient L up) config r s).calls
          = s2.calls ++ [(getClientRequest L config token client,
              up s2.calls (getClientRequest L config token client)),
            (getClientSecretRequest L config token clientInfo.ID,
              up (s2.calls ++ [(getClientRequest L config token client,
                up s2.calls (getClientRequest L config token client))])
                (getClientSecretRequest L config token clientInfo.ID))]) ∧
      ((UpdateResource L (APIClient L up) config r s).w.Code = 400 ∧
        (UpdateResource L (APIClient L up) config r s).w.Body
          = s.w.Body ++ (L.jsonMarshal (ApiError.toJson ⟨"1007", "Missing required fields"⟩)
              ++ "\n") ∧
        (UpdateResource L (APIClient L up) config r s).calls = s1.calls)) ∧
    (aliceRequest sampleNoSecretPayload).Body = .ok sampleNoSecretPayload ∧
    sampleLib2.decodeClientWithSecret sampleNoSecretPayload = .ok (sampleClientWithSecret "") ∧
    (DeleteResource sampleLib2 (APIClient sampleLib2 sampleUpstream) sampleConfig
      (aliceRequest sampleNoSecretPayload) St.fresh).w.Code = 401 ∧
    (DeleteResource sampleLib2 (APIClient sampleLib2 sampleUpstream) sampleConfig
      (aliceRequest sampleNoSecretPayload) St.fresh).w.Body
      = "\x7b\"code\":\"1009\",\"message\":\"Bad client secret\"\x7d\n" ∧
    (DeleteResource sampleLib2 (APIClient sampleLib2 sampleUpstream) sampleConfig
      (aliceRequest sampleNoSecretPayload) St.fresh).calls.map (fun x => (x.1.Method, x.1.URL))
      = [("POST", "https://fake.com/auth/realms/master/protocol/openid-connect/token"),
         ("POST", "https://fake.com/auth/realms/master/protocol/openid-connect/token"),
         ("GET", "https://fake.com/auth/admin/realms/master/clients"),
         ("GET", "https://fake.com/auth/admin/realms/master/clients/40b5444c-5990-496d-bb67-64c535df8dc4/client-secret")] ∧
    (UpdateResource sampleLib2 (APIClient sampleLib2 sampleUpstream) sampleConfig
      (aliceRequest sampleNoSecretPayload) St.fresh).w.Code = 400 ∧
    (UpdateResource sampleLib2 (APIClient sampleLib2 sampleUpstream) sampleConfig
      (aliceRequest sampleNoSecretPayload) St.fresh).w.Body
      = "\x7b\"code\":\"1007\",\"message\":\"Missing required fields\"\x7d\n" := by
  refine ⟨?_, rfl, rfl, rfl, rfl, rfl, rfl, rfl⟩
  intro L up config r s s1 s2 s3 s4 callerToken callerLabel body token adminLabel client
    clientWithSecret clientInfo clientSecret hcaller hbody hdec hdecs hid hsecret hadmin hget
    hsec hne hw
  constructor
  · obtain ⟨hw4, hc4, -⟩ := secret_fetched_state L up config r s s1 s2 s3 s4
      callerToken callerLabel token adminLabel _ clientInfo clientSecret hcaller hadmin hget hsec
    have hzf : client.zeroFields = [] := by simp [Client.zeroFields, hid]
    have hne' : clientWithSecret.Secret ≠ clientSecret := by
      rw [hsecret]; exact fun h => hne h.symm
    have hout : DeleteResource L (APIClient L up) config r s
        = (s4.Println [.nil]).httpError (BadClientSecret.Error L) 401 := by
      simp only [DeleteResource, APIClient, hcaller, hbody, hdec, hdecs, hzf, hadmin, hget, hsec,
        ne_eq, hne', not_false_eq_true, if_true]
    have hE := ResponseRecorder.Error_unwritten s.w (BadClientSecret.Error L) 401 hw
    rw [hout]
    simp only [St.httpError_w, St.Println_w, St.httpError_calls, St.Println_calls, hw4]
    exact ⟨hE.1, hE.2.1, hc4⟩
  · have hw1 := authenticate_caller_ok_w L up config r _ s1 _ hcaller
    obtain ⟨f, fs, hzf⟩ := ClientWithSecret.zeroFields_ne_nil clientWithSecret (Or.inr hsecret)
    have hout : UpdateResource L (APIClient L up) config r s
        = (s1.Println [.str (L.validatorErrorText (f :: fs))]).httpError
            (MissingRequiredFieldsPayload.Error L) 400 := by
      simp only [UpdateResource, APIClient, hcaller, hbody, hdec, hdecs, hzf]
    have hE := ResponseRecorder.Error_unwritten s.w (MissingRequiredFieldsPayload.Error L) 400 hw
    rw [hout]
    simp only [St.httpError_w, St.Println_w, St.httpError_calls, St.Println_calls, hw1]
    exact ⟨hE.1, hE.2.1, trivial⟩

/-! ## C12: `getUserID` -/

/-- C12. `getUserID` indexes the filtered result without looking at its length. For
every upstream reply that succeeds with a document gojsonq parses, if the query for the
requested username selects no record, so that `Only` returns the empty array,
`getUserID` neither returns an identifier nor an error: it panics on `resMapIntf[0]`.
On the sample upstream that answers with the users collection holding the user `test`,
the lookup of `test` returns its identifier and the lookup of `ghost` panics. -/
theorem getUserID_panics_without_match :
    (∀ (L : GoLib) (up : Upstream) (config : Config) (token : String) (user : User) (s : St)
      (status : Nat) (resp : String) (root : Json),
      L.NewRequest "GET" (L.Sprintf config.UsersURI [config.IdpURL, config.IdpRealm]) = none →
      up s.calls (getUserIDRequest L config token user) = .response status resp →
      okStatus status →
      L.jqFromString (addRoot resp) = .ok root →
      L.jqOnly root "root" "username" user.Username "id" = (.arr [], []) →
      (getUserID L up config token user s).2 = .panic "index out of range") ∧
    (getUserID sampleLib2 usersUpstream sampleConfig "admin-token"
        { Username := "test", Enabled := true } St.fresh).2
      = .ok "06b4f835-a8c7-40f4-887b-cd76c7623267" ∧
    sampleLib2.jqFromString (addRoot sampleUsers)
      = .ok (.obj [("root", .arr [.obj [("id", .str "06b4f835-a8c7-40f4-887b-cd76c7623267"),
          ("username", .str "test")]])]) ∧
    sampleLib2.jqOnly (.obj [("root", .arr [.obj [("id",
          .str "06b4f835-a8c7-40f4-887b-cd76c7623267"), ("username", .str "test")]])])
        "root" "username" "ghost" "id" = (.arr [], []) ∧
    (getUserID sampleLib2 usersUpstream sampleConfig "admin-token"
        { Username := "ghost", Enabled := true } St.fresh).2
      = .panic "index out of range" := by
  refine ⟨?_, rfl, rfl, rfl, rfl⟩
  intro L up config token user s status resp root hN hup hok hparse honly
  have hres : (up s.calls (getUserIDRequest L config token user)).result = .ok resp := by
    rw [hup]; simp [Reply.result, hok]
  unfold getUserIDRequest at hres
  simp only [getUserID, hN, doRequest_eq, hres, hparse, honly]

/-! ## C11: `getClient` -/

/-- The first record that passes the filter, when the records before it do not. -/
theorem firstWhere_append (pre post : List Json) (e : Json) (key val : String)
    (hpre : ∀ x ∈ pre, hasField key val x = false) (he : hasField key val e = true) :
    firstWhere (pre ++ e :: post) key val = e := by
  have h1 : pre.filter (hasField key val) = [] := by
    rw [List.filter_eq_nil_iff]
    intro x hx
    simp [hpre x hx]
  simp [firstWhere, List.filter_append, h1, List.filter_cons, he]

theorem stringField_of_hasField (key val : String) (e : Json) (old : String)
    (he : hasField key val e = true) : stringField e key old = val := by
  cases e with
  | obj fields =>
    simp only [hasField] at he
    simp only [stringField]
    cases hfield : Json.field? fields key with
    | none => simp [hfield] at he
    | some v =>
      cases v with
      | str t => simpa [hfield] using he
      | _ => simp [hfield] at he
  | _ => simp [hasField] at he

/-- C11. Let the collection request of `getClient` be answered with a success status
and a document that gojsonq parses into the array `pre ++ e :: post`, where `e` is an
object whose `clientId` is the string `c` of the requested client and no element of
`pre` is. Assume of the libraries that `First` after `Where("clientId", "=", c)`
returns the first element in array order that passes the filter, and that
`mapstructure.Decode` fills the `ClientOut` from `e` by key. Then `getClient` returns
the record built from `e`: its `ID` is the string under `"id"` of `e` and its
`ClientID` is `c`. The elements of `post` are arbitrary, so later records with the
same `clientId` play no part. -/
theorem getClient_returns_first_match (L : GoLib) (up : Upstream) (config : Config)
    (token : String) (client : Client) (s : St) (status : Nat) (resp : String)
    (pre post : List Json) (e : Json)
    (hN : L.NewRequest "GET" (L.Sprintf config.ClientsURI [config.IdpURL, config.IdpRealm])
      = none)
    (hup : up s.calls (getClientRequest L config token client) = .response status resp)
    (hok : okStatus status)
    (hparse : L.jqFromString (addRoot resp) = .ok (.obj [("root", .arr (pre ++ e :: post))]))
    (hfirst : L.jqFirst (.obj [("root", .arr (pre ++ e :: post))]) "root" "clientId"
        client.ClientID
      = firstWhere (pre ++ e :: post) "clientId" client.ClientID)
    (hdecode : L.mapstructureDecode e ClientOut.zero = decodeClientOut e ClientOut.zero)
    (hpre : ∀ x ∈ pre, hasField "clientId" client.ClientID x = false)
    (he : hasField "clientId" client.ClientID e = true) :
    (getClient L up config token client s).2 = .ok (decodeClientOut e ClientOut.zero) ∧
    (decodeClientOut e ClientOut.zero).ID = stringField e "id" "" ∧
    (decodeClientOut e ClientOut.zero).ClientID = client.ClientID := by
  have hres : (up s.calls (getClientRequest L config token client)).result = .ok resp := by
    rw [hup]; simp [Reply.result, hok]
  unfold getClientRequest at hres
  have hf := firstWhere_append pre post e "clientId" client.ClientID hpre he
  refine ⟨?_, rfl, ?_⟩
  · simp only [getClient, hN, doRequest_eq, hres, hparse, hfirst, hf, hdecode]
  · exact stringField_of_hasField "clientId" client.ClientID e "" he

/-- C11 on a collection with two records of the `clientId` `test`: the lookup of `test`
returns the record with the identifier `2`, that of the first of them. -/
theorem getClient_returns_first_match_witness :
    sampleLib3.NewRequest "GET"
        (sampleLib3.Sprintf sampleConfig.ClientsURI [sampleConfig.IdpURL, sampleConfig.IdpRealm])
      = none ∧
    duplicatesUpstream St.fresh.calls (getClientRequest sampleLib3 sampleConfig "admin-token"
        sampleClient) = .response 200 sampleDuplicates ∧
    okStatus 200 ∧
    sampleLib3.jqFromString (addRoot sampleDuplicates)
      = .ok (.obj [("root", .arr ([.obj [("clientId", .str "other"), ("id", .str "1")]]
          ++ .obj [("clientId", .str "test"), ("id", .str "2")]
          :: [.obj [("clientId", .str "test"), ("id", .str "3")]]))]) ∧
    (getClient sampleLib3 duplicatesUpstream sampleConfig "admin-token" sampleClient
        St.fresh).2
      = .ok { ClientOut.zero with ID := "2", ClientID := "test" } :=
  ⟨rfl, rfl, by decide, rfl,
    (getClient_returns_first_match sampleLib3 duplicatesUpstream sampleConfig "admin-token"
      sampleClient St.fresh 200 sampleDuplicates
      [.obj [("clientId", .str "other"), ("id", .str "1")]]
      [.obj [("clientId", .str "test"), ("id", .str "3")]]
      (.obj [("clientId", .str "test"), ("id", .str "2")])
      rfl rfl (by decide) rfl rfl rfl
      (fun x hx => by
        simp only [List.mem_singleton] at hx
        subst hx
        rfl)
      rfl).1.trans rfl⟩

/-! ## C20: an upstream that answers 500 -/

/-- C20, as stated, fails on the upstream that answers every call with status 500 and
`FAIL`: `alice` sends a payload that decodes and validates, and `CreateResource`,
`UpdateResource` and `DeleteResource` answer 401, not 500, because the first outbound
call is the token request of the caller negotiation. -/
theorem upstream_500_answered_401 :
    (aliceRequest samplePayload).BasicAuth = some ("alice", "pw") ∧
    sampleLib.decodeClient samplePayload = .ok sampleClient ∧
    sampleLib.decodeClientWithSecret samplePayload = .ok (sampleClientWithSecret "wrong_secret") ∧
    sampleClient.zeroFields = [] ∧
    (sampleClientWithSecret "wrong_secret").zeroFields = [] ∧
    (∀ history req, failingUpstream history req = .response 500 "FAIL") ∧
    (CreateResource sampleLib (APIClient sampleLib failingUpstream) sampleConfig
      (aliceRequest samplePayload) St.fresh).w.Code = 401 ∧
    (UpdateResource sampleLib (APIClient sampleLib failingUpstream) sampleConfig
      (aliceRequest samplePayload) St.fresh).w.Code = 401 ∧
    (DeleteResource sampleLib (APIClient sampleLib failingUpstream) sampleConfig
      (aliceRequest samplePayload) St.fresh).w.Code = 401 ∧
    (CreateResource sampleLib (APIClient sampleLib failingUpstream) sampleConfig
      (aliceRequest samplePayload) St.fresh).w.Code ≠ 500 ∧
    (CreateResource sampleLib (APIClient sampleLib failingUpstream) sampleConfig
      (aliceRequest samplePayload) St.fresh).w.Body
      = "\x7b\"code\":\"10000\",\"message\":\"FAIL\"\x7d\n" :=
  ⟨rfl, rfl, rfl, rfl, rfl, fun _ _ => rfl, rfl, rfl, rfl, by decide, rfl⟩

/-- The caller negotiation against an upstream that answers every call with status 500
and `m`: two token requests, the error `m`, and `http.Error` with status 401. -/
theorem authenticate_caller_all_500 (L : GoLib) (up : Upstream) (config : Config)
    (r : Request) (s : St) (u p m : String) (hr : r.BasicAuth = some (u, p))
    (hN : L.NewRequest "POST" (callerTokenURL L config) = none)
    (hall : ∀ history req, up history req = .response 500 m) :
    ∃ S : St,
      authenticate L up config r (getAuthBodyFromBasicAuth L) s = (S, .err (.other m)) ∧
      S.calls = s.calls ++ [(passwordGrantRequest L config u p, .response 500 m),
        (clientCredentialsRequest L config u p, .response 500 m)] ∧
      S.w = s.w.Error (L.jsonMarshal (ApiError.toJson ⟨"10000", m⟩)) 401 := by
  obtain ⟨S, h1, h2, h3⟩ := authenticate_caller_rejected L up config r s u p hr hN
    (by rw [hall]; rfl) (by rw [hall]; rfl)
  simp only [hall, Reply.errorText] at h1 h2 h3
  exact ⟨S, h1, h2, h3⟩

/-- C20, amended. Handled with the real `APIClient`, a create, update or delete request
with Basic-Auth credentials is answered with status 401 and the JSON of the `ApiError`
with code `"10000"` and message `m` when the upstream answers every outbound call with
status 500 and body `m`: the two token requests of the caller negotiation are the only
calls. Status 500 with code `"10000"` and message `m` is the answer when both
negotiations succeed, the payload decodes and validates, and the first administrative
call, `createClient` for create and `getClient` for update and delete, is answered with
status 500 and body `m`. -/
theorem upstream_500_status_by_phase (L : GoLib) (up : Upstream) (config : Config)
    (r : Request) (s : St) (m : String)
    (hw : s.w.wroteHeader = false) :
    (∀ u p, r.BasicAuth = some (u, p) →
      L.NewRequest "POST" (callerTokenURL L config) = none →
      (∀ history req, up history req = .response 500 m) →
      ((CreateResource L (APIClient L up) config r s).w.Code = 401 ∧
        (CreateResource L (APIClient L up) config r s).w.Body
          = s.w.Body ++ (L.jsonMarshal (ApiError.toJson ⟨"10000", m⟩) ++ "\n") ∧
        (CreateResource L (APIClient L up) config r s).calls
          = s.calls ++ [(passwordGrantRequest L config u p, .response 500 m),
              (clientCredentialsRequest L config u p, .response 500 m)]) ∧
      ((UpdateResource L (APIClient L up) config r s).w.Code = 401 ∧
        (UpdateResource L (APIClient L up) config r s).w.Body
          = s.w.Body ++ (L.jsonMarshal (ApiError.toJson ⟨"10000", m⟩) ++ "\n") ∧
        (UpdateResource L (APIClient L up) config r s).calls
          = s.calls ++ [(passwordGrantRequest L config u p, .response 500 m),
              (clientCredentialsRequest L config u p, .response 500 m)]) ∧
      ((DeleteResource L (APIClient L up) config r s).w.Code = 401 ∧
        (DeleteResource L (APIClient L up) config r s).w.Body
          = s.w.Body ++ (L.jsonMarshal (ApiError.toJson ⟨"10000", m⟩) ++ "\n") ∧
        (DeleteResource L (APIClient L up) config r s).calls
          = s.calls ++ [(passwordGrantRequest L config u p, .response 500 m),
              (clientCredentialsRequest L config u p, .response 500 m)])) ∧
    (∀ (s1 s3 : St) (callerToken callerLabel body token adminLabel : String)
      (client0 : Client),
      authenticate L up config r (getAuthBodyFromBasicAuth L)
          (s.Println [.str "Authenticating external user"])
        = (s1, .ok (callerToken, callerLabel)) →
      r.Body = .ok body →
      L.decodeClient body = .ok client0 →
      client0.ClientID ≠ "" →
      authenticate L up config r (getAdminAuthBody L)
          (s1.Println [.str "Authenticating app admin user"])
        = (s3, .ok (token, adminLabel)) →
      answeredWith s3 (createClient L up config token
          { applyRedirectUris client0 with
            PublicClient := false, Description := "Client created by " ++ callerLabel } s3).1
        500 m →
      (CreateResource L (APIClient L up) config r s).w.Code = 500 ∧
      (CreateResource L (APIClient L up) config r s).w.Body
        = s.w.Body ++ (L.jsonMarshal (ApiError.toJson ⟨"10000", m⟩) ++ "\n")) ∧
    (∀ (s1 s2 : St) (callerToken callerLabel body token adminLabel : String)
      (client0 : Client) (clientWithSecret : ClientWithSecret),
      authenticate L up config r (getAuthBodyFromBasicAuth L) s
        = (s1, .ok (callerToken, callerLabel)) →
      r.Body = .ok body →
      L.decodeClient body = .ok client0 →
      L.decodeClientWithSecret body = .ok clientWithSecret →
      authenticate L up config r (getAdminAuthBody L) s1 = (s2, .ok (token, adminLabel)) →
      (clientWithSecret.zeroFields = [] →
        answeredWith s2 (getClient L up config token
          { applyRedirectUris client0 with PublicClient := false } s2).1 500 m →
        (UpdateResource L (APIClient L up) config r s).w.Code = 500 ∧
        (UpdateResource L (APIClient L up) config r s).w.Body
          = s.w.Body ++ (L.jsonMarshal (ApiError.toJson ⟨"10000", m⟩) ++ "\n")) ∧
      (client0.zeroFields = [] →
        answeredWith s2 (getClient L up config token client0 s2).1 500 m →
        (DeleteResource L (APIClient L up) config r s).w.Code = 500 ∧
        (DeleteResource L (APIClient L up) config r s).w.Body
          = s.w.Body ++ (L.jsonMarshal (ApiError.toJson ⟨"10000", m⟩) ++ "\n"))) := by
  have h500 : ¬ okStatus 500 := by decide
  refine ⟨?_, ?_, ?_⟩
  · intro u p hr hN hall
    have hE := ResponseRecorder.Error_unwritten s.w
      (L.jsonMarshal (ApiError.toJson ⟨"10000", m⟩)) 401 hw
    obtain ⟨S, ha, hc, hS⟩ := authenticate_caller_all_500 L up config r s u p m hr hN hall
    obtain ⟨S0, ha0, hc0, hS0⟩ := authenticate_caller_all_500 L up config r
      (s.Println [.str "Authenticating external user"]) u p m hr hN hall
    have hC : CreateResource L (APIClient L up) config r s = S0 := by
      simp only [CreateResource, APIClient, ha0]
    have hU : UpdateResource L (APIClient L up) config r s = S := by
      simp only [UpdateResource, APIClient, ha]
    have hD : DeleteResource L (APIClient L up) config r s = S := by
      simp only [DeleteResource, APIClient, ha]
    rw [hC, hU, hD, hS, hS0, hc, hc0]
    simp only [St.Println_w, St.Println_calls]
    exact ⟨⟨hE.1, hE.2.1, trivial⟩, ⟨hE.1, hE.2.1, trivial⟩, hE.1, hE.2.1, trivial⟩
  · intro s1 s3 callerToken callerLabel body token adminLabel client0 hcaller hbody hdec hid
      hadmin hrej
    have hw1 := authenticate_caller_ok_w L up config r _ s1 _ hcaller
    have hw3 := authenticate_admin_ok_w L up config r _ s3 _ hadmin
    have hw3' : s3.w = s.w := by rw [hw3]; simpa using hw1
    have hzf : client0.zeroFields = [] := by simp [Client.zeroFields, hid]
    obtain ⟨h2, hw4⟩ := createClient_rejected L up config token _ s3 500 m h500 hrej
    have hE := ResponseRecorder.Error_unwritten s.w
      (L.jsonMarshal (ApiError.toJson ⟨"10000", m⟩)) 500 hw
    cases hres : createClient L up config token
        { applyRedirectUris client0 with
          PublicClient := false, Description := "Client created by " ++ callerLabel } s3 with
    | mk S res =>
      rw [hres] at h2 hw4
      simp only at h2 hw4
      subst h2
      have hout : CreateResource L (APIClient L up) config r s = S := by
        simp only [CreateResource, APIClient, hcaller, hbody, hdec, hzf, hadmin, hres]
      rw [hout, hw4, hw3']
      exact ⟨hE.1, hE.2.1⟩
  · intro s1 s2 callerToken callerLabel body token adminLabel client0 clientWithSecret hcaller
      hbody hdec hdecs hadmin
    have hw1 := authenticate_caller_ok_w L up config r _ s1 _ hcaller
    have hw2 := authenticate_admin_ok_w L up config r _ s2 _ hadmin
    have hw2' : s2.w = s.w := by rw [hw2, hw1]
    have hE := ResponseRecorder.Error_unwritten s.w
      (L.jsonMarshal (ApiError.toJson ⟨"10000", m⟩)) 500 hw
    constructor
    · intro hzf hrej
      obtain ⟨h2, hw4⟩ := getClient_rejected L up config token _ s2 500 m h500 hrej
      cases hres : getClient L up config token
          { applyRedirectUris client0 with PublicClient := false } s2 with
      | mk S res =>
        rw [hres] at h2 hw4
        simp only at h2 hw4
        subst h2
        have hout : UpdateResource L (APIClient L up) config r s = S := by
          simp only [UpdateResource, APIClient, hcaller, hbody, hdec, hdecs, hzf, hadmin, hres]
        rw [hout, hw4, hw2']
        exact ⟨hE.1, hE.2.1⟩
    · intro hzf hrej
      obtain ⟨h2, hw4⟩ := getClient_rejected L up config token _ s2 500 m h500 hrej
      cases hres : getClient L up config token client0 s2 with
      | mk S res =>
        rw [hres] at h2 hw4
        simp only at h2 hw4
        subst h2
        have hout : DeleteResource L (APIClient L up) config r s = S := by
          simp only [DeleteResource, APIClient, hcaller, hbody, hdec, hdecs, hzf, hadmin, hres]
        rw [hout, hw4, hw2']
        exact ⟨hE.1, hE.2.1⟩

/-- C20, amended, on the sample upstreams: against the upstream that answers every call
with 500 and `FAIL` the create request of `alice` is answered 401; against the one
that grants tokens and answers every other call with 500 and `FAIL` the create, update
and delete requests are answered 500. -/
theorem upstream_500_status_by_phase_witness :
    St.fresh.w.wroteHeader = false ∧
    (aliceRequest samplePayload).BasicAuth = some ("alice", "pw") ∧
    sampleLib.NewRequest "POST" (callerTokenURL sampleLib sampleConfig) = none ∧
    (∀ history req, failingUpstream history req = .response 500 "FAIL") ∧
    (CreateResource sampleLib (APIClient sampleLib failingUpstream) sampleConfig
      (aliceRequest samplePayload) St.fresh).w.Code = 401 ∧
    authenticate sampleLib tokensOnlyUpstream sampleConfig (aliceRequest samplePayload)
        (getAuthBodyFromBasicAuth sampleLib)
        (St.fresh.Println [.str "Authenticating external user"])
      = (callerState sampleLib tokensOnlyUpstream samplePayload createStart,
          .ok ("caller-token", "alice")) ∧
    (aliceRequest samplePayload).Body = .ok samplePayload ∧
    sampleLib.decodeClient samplePayload = .ok sampleClient ∧
    sampleClient.ClientID ≠ "" ∧
    authenticate sampleLib tokensOnlyUpstream sampleConfig (aliceRequest samplePayload)
        (getAdminAuthBody sampleLib)
        ((callerState sampleLib tokensOnlyUpstream samplePayload createStart).Println
          [.str "Authenticating app admin user"])
      = (adminState sampleLib tokensOnlyUpstream samplePayload
          ((callerState sampleLib tokensOnlyUpstream samplePayload createStart).Println
            [.str "Authenticating app admin user"]),
          .ok ("admin-token", "fake")) ∧
    (CreateResource sampleLib (APIClient sampleLib tokensOnlyUpstream) sampleConfig
      (aliceRequest samplePayload) St.fresh).w.Code = 500 ∧
    authenticate sampleLib tokensOnlyUpstream sampleConfig (aliceRequest samplePayload)
        (getAuthBodyFromBasicAuth sampleLib) St.fresh
      = (callerState sampleLib tokensOnlyUpstream samplePayload St.fresh,
          .ok ("caller-token", "alice")) ∧
    sampleLib.decodeClientWithSecret samplePayload
      = .ok (sampleClientWithSecret "wrong_secret") ∧
    authenticate sampleLib tokensOnlyUpstream sampleConfig (aliceRequest samplePayload)
        (getAdminAuthBody sampleLib)
        (callerState sampleLib tokensOnlyUpstream samplePayload St.fresh)
      = (adminState sampleLib tokensOnlyUpstream samplePayload
          (callerState sampleLib tokensOnlyUpstream samplePayload St.fresh),
          .ok ("admin-token", "fake")) ∧
    (sampleClientWithSecret "wrong_secret").zeroFields = [] ∧
    sampleClient.zeroFields = [] ∧
    (UpdateResource sampleLib (APIClient sampleLib tokensOnlyUpstream) sampleConfig
      (aliceRequest samplePayload) St.fresh).w.Code = 500 ∧
    (DeleteResource sampleLib (APIClient sampleLib tokensOnlyUpstream) sampleConfig
      (aliceRequest samplePayload) St.fresh).w.Code = 500 :=
  ⟨rfl, rfl, rfl, fun _ _ => rfl,
    ((upstream_500_status_by_phase sampleLib failingUpstream sampleConfig
      (aliceRequest samplePayload) St.fresh "FAIL" rfl).1 "alice" "pw" rfl rfl
        (fun _ _ => rfl)).1.1,
    rfl, rfl, rfl, by decide, rfl,
    ((upstream_500_status_by_phase sampleLib tokensOnlyUpstream sampleConfig
      (aliceRequest samplePayload) St.fresh "FAIL" rfl).2.1
        (callerState sampleLib tokensOnlyUpstream samplePayload createStart)
        (adminState sampleLib tokensOnlyUpstream samplePayload
          ((callerState sampleLib tokensOnlyUpstream samplePayload createStart).Println
            [.str "Authenticating app admin user"]))
        "caller-token" "alice" samplePayload "admin-token" "fake" sampleClient
        rfl rfl rfl (by decide) rfl
        ⟨createClientRequest sampleLib sampleConfig "admin-token"
          { applyRedirectUris sampleClient with
            PublicClient := false, Description := "Client created by " ++ "alice" }, rfl⟩).1,
    rfl, rfl, rfl, rfl, rfl,
    (((upstream_500_status_by_phase sampleLib tokensOnlyUpstream sampleConfig
      (aliceRequest samplePayload) St.fresh "FAIL" rfl).2.2
        (callerState sampleLib tokensOnlyUpstream samplePayload St.fresh)
        (adminState sampleLib tokensOnlyUpstream samplePayload
          (callerState sampleLib tokensOnlyUpstream samplePayload St.fresh))
        "caller-token" "alice" samplePayload "admin-token" "fake" sampleClient
        (sampleClientWithSecret "wrong_secret") rfl rfl rfl rfl rfl).1 rfl
        ⟨getClientRequest sampleLib sampleConfig "admin-token"
          { applyRedirectUris sampleClient with PublicClient := false }, rfl⟩).1,
    (((upstream_500_status_by_phase sampleLib tokensOnlyUpstream sampleConfig
      (aliceRequest samplePayload) St.fresh "FAIL" rfl).2.2
        (callerState sampleLib tokensOnlyUpstream samplePayload St.fresh)
        (adminState sampleLib tokensOnlyUpstream samplePayload
          (callerState sampleLib tokensOnlyUpstream samplePayload St.fresh))
        "caller-token" "alice" samplePayload "admin-token" "fake" sampleClient
        (sampleClientWithSecret "wrong_secret") rfl rfl rfl rfl rfl).2 rfl
        ⟨getClientRequest sampleLib sampleConfig "admin-token" sampleClient, rfl⟩).1⟩

/-! ## C22: the grant bodies of caller negotiation -/

/-- C22. For a request with the Basic-Auth credentials `(u, p)`, and every
configuration, `getAuthBodyFromBasicAuth` returns without error and leaves the state as
it was. It returns two grant bodies: first the password grant with `username` `u`,
`password` `p` and the configured public client id and secret, then the
client-credentials grant with `client_id` `u` and `client_secret` `p`. No key occurs
twice in a body, and the URL is the token URI filled with the configured base URL and
the configured realm. -/
theorem getAuthBodyFromBasicAuth_two_grants (L : GoLib) (config : Config) (r : Request)
    (s : St) (u p : String) (hr : r.BasicAuth = some (u, p)) :
    getAuthBodyFromBasicAuth L config r s
      = (s, .ok ([[("username", [u]), ("password", [p]), ("grant_type", ["password"]),
            ("client_id", [config.ClientID]), ("client_secret", [config.ClientSecret])],
          [("grant_type", ["client_credentials"]), ("client_id", [u]),
            ("client_secret", [p])]],
          L.Sprintf config.TokenURI [config.IdpURL, config.IdpRealm])) ∧
    ((authResourceOwnerBody config u p).map Prod.fst).Nodup ∧
    ((authClientBody u p).map Prod.fst).Nodup := by
  refine ⟨?_, by simp [authResourceOwnerBody], by simp [authClientBody]⟩
  simp only [getAuthBodyFromBasicAuth, hr, authResourceOwnerBody, authClientBody]

/-- C22 for `alice` and the sample configuration. -/
theorem getAuthBodyFromBasicAuth_two_grants_witness :
    (aliceRequest "").BasicAuth = some ("alice", "pw") ∧
    getAuthBodyFromBasicAuth sampleLib sampleConfig (aliceRequest "") St.fresh
      = (St.fresh, .ok ([[("username", ["alice"]), ("password", ["pw"]),
            ("grant_type", ["password"]), ("client_id", ["fake"]), ("client_secret", ["fake"])],
          [("grant_type", ["client_credentials"]), ("client_id", ["alice"]),
            ("client_secret", ["pw"])]],
          "https://fake.com/auth/realms/master/protocol/openid-connect/token")) :=
  ⟨rfl, (getAuthBodyFromBasicAuth_two_grants sampleLib sampleConfig (aliceRequest "")
    St.fresh "alice" "pw" rfl).1.trans rfl⟩

/-! ## C23: the grant body of administrative negotiation -/

/-- C23. For every request and every configuration `getAdminAuthBody` returns without
error and leaves the state as it was. It returns one grant body, the password grant
with the configured administrative username and password and the configured
administrative client id and secret, and the token URI filled with the configured base
URL and the realm `master`. Neither the inbound request nor the configured realm plays
a part. -/
theorem getAdminAuthBody_one_grant (L : GoLib) (config : Config) (r : Request) (s : St) :
    getAdminAuthBody L config r s
      = (s, .ok ([[("username", [config.IdpAdmin]), ("password", [config.IdpPass]),
            ("grant_type", ["password"]), ("client_id", [config.ApiClientID]),
            ("client_secret", [config.ApiClientSecret])]],
          L.Sprintf config.TokenURI [config.IdpURL, "master"])) ∧
    ((authClientCredentialAdminBody config).map Prod.fst).Nodup ∧
    (∀ r' : Request, (getAdminAuthBody L config r' s).2 = (getAdminAuthBody L config r s).2) ∧
    (∀ realm : String, (getAdminAuthBody L { config with IdpRealm := realm } r s).2
      = (getAdminAuthBody L config r s).2) ∧
    (getAdminAuthBody sampleLib { sampleConfig with IdpRealm := "tenants" }
        ⟨none, .ok ""⟩ St.fresh).2
      = .ok ([[("username", ["fake"]), ("password", ["fake"]), ("grant_type", ["password"]),
            ("client_id", ["test"]), ("client_secret", ["test"])]],
          "https://fake.com/auth/realms/master/protocol/openid-connect/token") := by
  refine ⟨rfl, by simp [authClientCredentialAdminBody], fun _ => rfl, fun _ => rfl, rfl⟩

/-! ## C24: the codes of package `apierror` -/

/-- C24. The eleven error constructors of package `apierror` carry the codes `"1000"`
to `"1010"`, pairwise distinct and none of them `"10000"`, the code of an upstream
failure; in particular the code `"1009"` of a secret mismatch differs from it. The
method `ApiError.Error` renders the object with the two fields `code` and `message`, in
this order; for `BadClientSecret` the sample marshaller gives the text shown. -/
theorem apierror_codes_distinct (L : GoLib) :
    errorConstructors.map GoError.code?
      = [some "1000", some "1001", some "1002", some "1003", some "1004", some "1005",
          some "1006", some "1007", some "1008", some "1009", some "1010"] ∧
    (errorConstructors.map GoError.code?).Nodup ∧
    some "10000" ∉ errorConstructors.map GoError.code? ∧
    BadClientSecret.code? = some "1009" ∧
    BadClientSecret.code? ≠ (GoError.api ⟨"10000", "invalid_grant"⟩).code? ∧
    (∀ e : ApiError, (GoError.api e).Error L
      = L.jsonMarshal (.obj [("code", .str e.Code), ("message", .str e.Message)])) ∧
    BadClientSecret.Error sampleLib
      = "\x7b\"code\":\"1009\",\"message\":\"Bad client secret\"\x7d" := by
  refine ⟨rfl, by decide, by decide, rfl, by decide, fun _ => rfl, rfl⟩

/-! ## The request each operation issues -/

/-- When its request can be built, `createClient` issues it, once. -/
theorem createClient_calls (L : GoLib) (up : Upstream) (config : Config) (token : String)
    (client : Client) (s : St)
    (hN : L.NewRequest "POST" (L.Sprintf config.ClientsURI [config.IdpURL, config.IdpRealm])
      = none) :
    (createClient L up config token client s).1.calls
      = s.calls ++ [(createClientRequest L config token client,
          up s.calls (createClientRequest L config token client))] := by
  simp only [createClient, doRequest_eq, hN]
  rcases Reply.result_cases (up s.calls (createClientRequest L config token client))
    with ⟨resp, hres⟩ | ⟨e, hres⟩ <;>
  · unfold createClientRequest at hres ⊢
    simp [hres]

/-- When its request can be built, `getClientID` issues it, once. -/
theorem getClientID_calls (L : GoLib) (up : Upstream) (config : Config) (token : String)
    (client : ClientWithSecret) (s : St)
    (hN : L.NewRequest "GET" (L.Sprintf config.ClientsURI [config.IdpURL, config.IdpRealm])
      = none) :
    (getClientID L up config token client s).1.calls
      = s.calls ++ [(getClientIDRequest L config token client,
          up s.calls (getClientIDRequest L config token client))] := by
  simp only [getClientID, doRequest_eq, hN]
  rcases Reply.result_cases (up s.calls (getClientIDRequest L config token client))
    with ⟨resp, hres⟩ | ⟨e, hres⟩ <;>
  · unfold getClientIDRequest at hres ⊢
    simp only [hres]
    repeat' split
    all_goals simp

/-- When its request can be built, `getClient` issues it, once. -/
theorem getClient_calls (L : GoLib) (up : Upstream) (config : Config) (token : String)
    (client : Client) (s : St)
    (hN : L.NewRequest "GET" (L.Sprintf config.ClientsURI [config.IdpURL, config.IdpRealm])
      = none) :
    (getClient L up config token client s).1.calls
      = s.calls ++ [(getClientRequest L config token client,
          up s.calls (getClientRequest L config token client))] := by
  simp only [getClient, doRequest_eq, hN]
  rcases Reply.result_cases (up s.calls (getClientRequest L config token client))
    with ⟨resp, hres⟩ | ⟨e, hres⟩ <;>
  · unfold getClientRequest at hres ⊢
    simp only [hres]
    repeat' split
    all_goals simp

/-- When its request can be built, `getClientSecret` issues it, once. -/
theorem getClientSecret_calls (L : GoLib) (up : Upstream) (config : Config) (token : String)
    (clientUID : String) (s : St)
    (hN : L.NewRequest "GET"
      (L.Sprintf config.ClientSecretURI [config.IdpURL, config.IdpRealm, clientUID]) = none) :
    (getClientSecret L up config token clientUID s).1.calls
      = s.calls ++ [(getClientSecretRequest L config token clientUID,
          up s.calls (getClientSecretRequest L config token clientUID))] := by
  simp only [getClientSecret, doRequest_eq, hN]
  rcases Reply.result_cases (up s.calls (getClientSecretRequest L config token clientUID))
    with ⟨resp, hres⟩ | ⟨e, hres⟩ <;>
  · unfold getClientSecretRequest at hres ⊢
    simp only [hres]
    repeat' split
    all_goals simp

/-- When its request can be built, `createUser` issues it, once. -/
theorem createUser_calls (L : GoLib) (up : Upstream) (config : Config) (token : String)
    (user : User) (s : St)
    (hN : L.NewRequest "POST" (L.Sprintf config.UsersURI [config.IdpURL, config.IdpRealm])
      = none) :
    (createUser L up config token user s).1.calls
      = s.calls ++ [(createUserRequest L config token user,
          up s.calls (createUserRequest L config token user))] := by
  simp only [createUser, doRequest_eq, hN, St.StdPrintln_calls]
  rcases Reply.result_cases (up s.calls (createUserRequest L config token user))
    with ⟨resp, hres⟩ | ⟨e, hres⟩ <;>
  · unfold createUserRequest at hres ⊢
    simp [hres]

/-- When its request can be built, `getUserID` issues it, once. -/
theorem getUserID_calls (L : GoLib) (up : Upstream) (config : Config) (token : String)
    (user : User) (s : St)
    (hN : L.NewRequest "GET" (L.Sprintf config.UsersURI [config.IdpURL, config.IdpRealm])
      = none) :
    (getUserID L up config token user s).1.calls
      = s.calls ++ [(getUserIDRequest L config token user,
          up s.calls (getUserIDRequest L config token user))] := by
  simp only [getUserID, doRequest_eq, hN]
  rcases Reply.result_cases (up s.calls (getUserIDRequest L config token user))
    with ⟨resp, hres⟩ | ⟨e, hres⟩ <;>
  · unfold getUserIDRequest at hres ⊢
    simp only [hres]
    repeat' split
    all_goals simp

/-- When its request can be built, `deleteUser` issues it, once. -/
theorem deleteUser_calls (L : GoLib) (up : Upstream) (config : Config) (token : String)
    (userUID : String) (s : St)
    (hN : L.NewRequest "DELETE"
      (L.Sprintf config.UserURI [config.IdpURL, config.IdpRealm, userUID]) = none) :
    (deleteUser L up config token userUID s).1.calls
      = s.calls ++ [(deleteUserRequest L config token userUID,
          up s.calls (deleteUserRequest L config token userUID))] := by
  simp only [deleteUser, doRequest_eq, hN]
  rcases Reply.result_cases (up s.calls (deleteUserRequest L config token userUID))
    with ⟨resp, hres⟩ | ⟨e, hres⟩ <;>
  · unfold deleteUserRequest at hres ⊢
    simp [hres]

/-- When its request can be built, `setUserPassword` issues it, once. -/
theorem setUserPassword_calls (L : GoLib) (up : Upstream) (config : Config) (token : String)
    (userCredential : UserSecret) (userUID : String) (s : St)
    (hN : L.NewRequest "PUT"
      (L.Sprintf config.UserPasswordURI [config.IdpURL, config.IdpRealm, userUID]) = none) :
    (setUserPassword L up config token userCredential userUID s).1.calls
      = s.calls ++ [(setUserPasswordRequest L config token userCredential userUID,
          up s.calls (setUserPasswordRequest L config token userCredential userUID))] := by
  simp only [setUserPassword, doRequest_eq, hN]
  rcases Reply.result_cases
      (up s.calls (setUserPasswordRequest L config token userCredential userUID))
    with ⟨resp, hres⟩ | ⟨e, hres⟩ <;>
  · unfold setUserPasswordRequest at hres ⊢
    simp [hres]

/-- When its request can be built, `HealthCheck` issues it, once. -/
theorem HealthCheck_calls (L : GoLib) (up : Upstream) (config : Config) (r : Request) (s : St)
    (hN : L.NewRequest "GET" (L.Sprintf config.CheckURI [config.IdpURL]) = none) :
    (HealthCheck L (APIClient L up) config r s).calls
      = s.calls ++ [(checkRequest L config, up s.calls (checkRequest L config))] := by
  have hS := HealthCheck_eq L up config r s hN
  cases h : (up s.calls (checkRequest L config)).succeeded with
  | true => rw [hS.1 h]; rfl
  | false => rw [hS.2 h]; rfl

/-! ## C21: the headers of outbound requests -/

/-- C21 fails for two requests. On the sample upstream the request of `HealthCheck`,
which is served without credentials and has no token to send, carries no header at
all, so no `Authorization`. The request of `getClientSecret` carries the
`Authorization` header and no `Content-Type`, unlike the requests of the nine other
operations that send a token. -/
theorem secret_fetch_and_health_check_headers :
    (getClientSecret sampleLib sampleUpstream sampleConfig "admin-token" sampleInfo.ID
        St.fresh).1.calls.map (fun x => x.1.Header)
      = [[("Authorization", "Bearer admin-token")]] ∧
    (getClientSecret sampleLib sampleUpstream sampleConfig "admin-token" sampleInfo.ID
        St.fresh).1.calls.map (fun x => x.1.headerValues "Content-Type") = [[]] ∧
    (HealthCheck sampleLib (APIClient sampleLib sampleUpstream) sampleConfig ⟨none, .ok ""⟩
        St.fresh).calls.map (fun x => (x.1.Method, x.1.URL, x.1.Header))
      = [("GET", "https://fake.com/auth/admin", [])] ∧
    (HealthCheck sampleLib (APIClient sampleLib sampleUpstream) sampleConfig ⟨none, .ok ""⟩
        St.fresh).calls.map (fun x => x.1.headerValues "Authorization") = [[]] :=
  ⟨rfl, rfl, rfl, rfl⟩

/-- C21, amended. When the requests can be built, each of `createClient`,
`getClientID`, `getClient`, `updateClient`, `deleteClient`, `createUser`, `getUserID`,
`deleteUser` and `setUserPassword` issues one request, with `Authorization` set to
`Bearer` and the token and `Content-Type` set to `application/json`. The request of
`getClientSecret` carries that `Authorization` value, the request of `HealthCheck`,
which has no token, carries no `Authorization`, and every token request `authenticate`
issues carries `Content-Type` `application/x-www-form-urlencoded` and no
`Authorization`. Nothing is stated of the `Content-Type` of the secret fetch and of the
health check. -/
theorem outbound_request_headers (L : GoLib) (up : Upstream) (config : Config)
    (token : String) (s : St)
    (hN : ∀ method url, L.NewRequest method url = none) :
    (∀ client, issuesOne s (createClient L up config token client s).1
      (fun req => req.bearerJSON token)) ∧
    (∀ client, issuesOne s (getClientID L up config token client s).1
      (fun req => req.bearerJSON token)) ∧
    (∀ client, issuesOne s (getClient L up config token client s).1
      (fun req => req.bearerJSON token)) ∧
    (∀ client clientUID, issuesOne s (updateClient L up config token client clientUID s).1
      (fun req => req.bearerJSON token)) ∧
    (∀ clientUID, issuesOne s (deleteClient L up config token clientUID s).1
      (fun req => req.bearerJSON token)) ∧
    (∀ user, issuesOne s (createUser L up config token user s).1
      (fun req => req.bearerJSON token)) ∧
    (∀ user, issuesOne s (getUserID L up config token user s).1
      (fun req => req.bearerJSON token)) ∧
    (∀ userUID, issuesOne s (deleteUser L up config token userUID s).1
      (fun req => req.bearerJSON token)) ∧
    (∀ userCredential userUID,
      issuesOne s (setUserPassword L up config token userCredential userUID s).1
        (fun req => req.bearerJSON token)) ∧
    (∀ clientUID, issuesOne s (getClientSecret L up config token clientUID s).1
      (fun req => req.headerValues "Authorization" = [bearer token])) ∧
    (∀ r, issuesOne s (HealthCheck L (APIClient L up) config r s)
      (fun req => req.headerValues "Authorization" = [])) ∧
    (∀ (r : Request) (f : AuthBodyGetter) (s1 : St) (authBody : List Values) (url : String),
      f config r s = (s1, .ok (authBody, url)) →
      ∃ issued : List Exchange,
        (authenticate L up config r f s).1.calls = s1.calls ++ issued ∧
        ∀ x ∈ issued,
          x.1.headerValues "Content-Type" = ["application/x-www-form-urlencoded"] ∧
          x.1.headerValues "Authorization" = []) := by
  refine ⟨?_, ?_, ?_, ?_, ?_, ?_, ?_, ?_, ?_, ?_, ?_, ?_⟩
  · exact fun client => ⟨_, _, createClient_calls L up config token client s (hN _ _),
      rfl, rfl⟩
  · exact fun client => ⟨_, _, getClientID_calls L up config token client s (hN _ _),
      rfl, rfl⟩
  · exact fun client => ⟨_, _, getClient_calls L up config token client s (hN _ _), rfl, rfl⟩
  · exact fun client clientUID => ⟨_, _,
      updateClient_calls L up config token client clientUID s (hN _ _), rfl, rfl⟩
  · exact fun clientUID => ⟨_, _, deleteClient_calls L up config token clientUID s (hN _ _),
      rfl, rfl⟩
  · exact fun user => ⟨_, _, createUser_calls L up config token user s (hN _ _), rfl, rfl⟩
  · exact fun user => ⟨_, _, getUserID_calls L up config token user s (hN _ _), rfl, rfl⟩
  · exact fun userUID => ⟨_, _, deleteUser_calls L up config token userUID s (hN _ _),
      rfl, rfl⟩
  · exact fun userCredential userUID => ⟨_, _,
      setUserPassword_calls L up config token userCredential userUID s (hN _ _), rfl, rfl⟩
  · exact fun clientUID => ⟨_, _,
      getClientSecret_calls L up config token clientUID s (hN _ _), rfl⟩
  · exact fun r => ⟨_, _, HealthCheck_calls L up config r s (hN _ _), rfl⟩
  · intro r f s1 authBody url hf
    rw [authenticate_calls L up config r f s s1 authBody url hf]
    obtain ⟨issued, h1, h2, -⟩ := authLoop_trace L up url authBody "" none s1
    refine ⟨issued, h1, ?_⟩
    intro x hx
    have : x.1 ∈ issued.map Prod.fst := List.mem_map_of_mem _ hx
    rw [h2] at this
    obtain ⟨b, -, hb⟩ := List.mem_map.1 this
    rw [← hb]
    exact ⟨rfl, rfl⟩

/-- C21, amended, on the sample upstream: the lookup of the client `test`, the fetch
of its secret, the health check and the negotiation of `alice`. -/
theorem outbound_request_headers_witness :
    (∀ method url, sampleLib.NewRequest method url = none) ∧
    issuesOne St.fresh
      (getClient sampleLib sampleUpstream sampleConfig "admin-token" sampleClient St.fresh).1
      (fun req => req.bearerJSON "admin-token") ∧
    issuesOne St.fresh
      (getClientSecret sampleLib sampleUpstream sampleConfig "admin-token" sampleInfo.ID
        St.fresh).1
      (fun req => req.headerValues "Authorization" = [bearer "admin-token"]) ∧
    issuesOne St.fresh
      (HealthCheck sampleLib (APIClient sampleLib sampleUpstream) sampleConfig
        ⟨none, .ok ""⟩ St.fresh)
      (fun req => req.headerValues "Authorization" = []) ∧
    getAuthBodyFromBasicAuth sampleLib sampleConfig (aliceRequest "") St.fresh
      = (St.fresh, .ok ([authResourceOwnerBody sampleConfig "alice" "pw",
          authClientBody "alice" "pw"], callerTokenURL sampleLib sampleConfig)) ∧
    (∃ issued : List Exchange,
      (authenticate sampleLib sampleUpstream sampleConfig (aliceRequest "")
        (getAuthBodyFromBasicAuth sampleLib) St.fresh).1.calls = St.fresh.calls ++ issued ∧
      ∀ x ∈ issued,
        x.1.headerValues "Content-Type" = ["application/x-www-form-urlencoded"] ∧
        x.1.headerValues "Authorization" = []) :=
  ⟨fun _ _ => rfl,
    (outbound_request_headers sampleLib sampleUpstream sampleConfig "admin-token" St.fresh
      (fun _ _ => rfl)).2.2.1 sampleClient,
    (outbound_request_headers sampleLib sampleUpstream sampleConfig "admin-token" St.fresh
      (fun _ _ => rfl)).2.2.2.2.2.2.2.2.2.1 sampleInfo.ID,
    (outbound_request_headers sampleLib sampleUpstream sampleConfig "admin-token" St.fresh
      (fun _ _ => rfl)).2.2.2.2.2.2.2.2.2.2.1 ⟨none, .ok ""⟩,
    rfl,
    (outbound_request_headers sampleLib sampleUpstream sampleConfig "admin-token" St.fresh
      (fun _ _ => rfl)).2.2.2.2.2.2.2.2.2.2.2 (aliceRequest "")
      (getAuthBodyFromBasicAuth sampleLib) St.fresh _ _ rfl⟩

/-! ## C25: successful operations leave the response alone -/

/-- A successful `getClientID` left the response alone. -/
theorem getClientID_ok (L : GoLib) (up : Upstream) (config : Config) (token : String)
    (client : ClientWithSecret) (s s' : St) (id : String)
    (h : getClientID L up config token client s = (s', .ok id)) : s'.w = s.w := by
  simp only [getClientID, doRequest_eq] at h
  split at h
  · simp at h
  · rcases Reply.result_cases (up s.calls (getClientIDRequest L config token client))
      with ⟨resp, hres⟩ | ⟨e, hres⟩
    · unfold getClientIDRequest at hres
      simp only [hres] at h
      split at h
      · simp at h
      · simp only [Prod.mk.injEq] at h
        rw [← h.1]
        rfl
    · unfold getClientIDRequest at hres
      simp [hres] at h

/-- A successful `updateClient` left the response alone. -/
theorem updateClient_ok (L : GoLib) (up : Upstream) (config : Config) (token : String)
    (client : Client) (clientUID : String) (s s' : St)
    (h : updateClient L up config token client clientUID s = (s', .ok ())) : s'.w = s.w := by
  simp only [updateClient, doRequest_eq, St.Println_calls] at h
  split at h
  · simp at h
  · rcases Reply.result_cases (up s.calls (updateClientRequest L config token client clientUID))
      with ⟨resp, hres⟩ | ⟨e, hres⟩
    · unfold updateClientRequest at hres
      simp only [hres, Prod.mk.injEq] at h
      rw [← h.1]
      try rfl
    · unfold updateClientRequest at hres
      simp [hres] at h

/-- A successful `deleteClient` left the response alone. -/
theorem deleteClient_ok (L : GoLib) (up : Upstream) (config : Config) (token : String)
    (clientUID : String) (s s' : St)
    (h : deleteClient L up config token clientUID s = (s', .ok ())) : s'.w = s.w := by
  simp only [deleteClient, doRequest_eq] at h
  split at h
  · simp at h
  · rcases Reply.result_cases (up s.calls (deleteClientRequest L config token clientUID))
      with ⟨resp, hres⟩ | ⟨e, hres⟩
    · unfold deleteClientRequest at hres
      simp only [hres, Prod.mk.injEq] at h
      rw [← h.1]
    · unfold deleteClientRequest at hres
      simp [hres] at h

/-- C25. Each of `createClient`, `getClientID`, `getClient`, `getClientSecret`,
`updateClient` and `deleteClient`, when it returns without error, leaves the inbound
response as it found it; on a fresh recorder the status is still the default 200 and
the body still empty. Put the other way round, an operation that changed the response
returned an error or panicked. -/
theorem successful_operations_write_nothing (L : GoLib) (up : Upstream) (config : Config)
    (token : String) (s s' : St) :
    (∀ client, createClient L up config token client s = (s', .ok ()) → s'.w = s.w) ∧
    (∀ client id, getClientID L up config token client s = (s', .ok id) → s'.w = s.w) ∧
    (∀ client info, getClient L up config token client s = (s', .ok info) → s'.w = s.w) ∧
    (∀ clientUID secret,
      getClientSecret L up config token clientUID s = (s', .ok secret) → s'.w = s.w) ∧
    (∀ client clientUID,
      updateClient L up config token client clientUID s = (s', .ok ()) → s'.w = s.w) ∧
    (∀ clientUID, deleteClient L up config token clientUID s = (s', .ok ()) → s'.w = s.w) ∧
    (s.w = NewRecorder → s'.w = s.w → s'.w.Code = 200 ∧ s'.w.Body = "") := by
  refine ⟨?_, ?_, ?_, ?_, ?_, ?_, ?_⟩
  · exact fun client h => (createClient_ok L up config token client s s' h).2
  · exact fun client id h => getClientID_ok L up config token client s s' id h
  · exact fun client info h => (getClient_ok L up config token client s s' info h).2
  · exact fun clientUID secret h =>
      (getClientSecret_ok L up config token clientUID s s' secret h).2
  · exact fun client clientUID h => updateClient_ok L up config token client clientUID s s' h
  · exact fun clientUID h => deleteClient_ok L up config token clientUID s s' h
  · intro h1 h2
    rw [h2, h1]
    exact ⟨rfl, rfl⟩

/-- C25 on the sample upstream: each of the six operations succeeds on a fresh recorder
and leaves it fresh. -/
theorem successful_operations_write_nothing_witness :
    (createClient sampleLib creatingUpstream sampleConfig "admin-token" sampleClient
        St.fresh).2 = .ok () ∧
    (createClient sampleLib creatingUpstream sampleConfig "admin-token" sampleClient
        St.fresh).1.w = NewRecorder ∧
    (getClientID sampleLib sampleUpstream sampleConfig "admin-token"
        (sampleClientWithSecret "test_secret") St.fresh).2 = .ok "" ∧
    (getClientID sampleLib sampleUpstream sampleConfig "admin-token"
        (sampleClientWithSecret "test_secret") St.fresh).1.w = NewRecorder ∧
    (getClient sampleLib sampleUpstream sampleConfig "admin-token" sampleClient
        St.fresh).2 = .ok sampleInfo ∧
    (getClient sampleLib sampleUpstream sampleConfig "admin-token" sampleClient
        St.fresh).1.w = NewRecorder ∧
    (getClientSecret sampleLib sampleUpstream sampleConfig "admin-token" sampleInfo.ID
        St.fresh).2 = .ok "test_secret" ∧
    (getClientSecret sampleLib sampleUpstream sampleConfig "admin-token" sampleInfo.ID
        St.fresh).1.w = NewRecorder ∧
    (updateClient sampleLib sampleUpstream sampleConfig "admin-token" sampleClient
        sampleInfo.ID St.fresh).2 = .ok () ∧
    (updateClient sampleLib sampleUpstream sampleConfig "admin-token" sampleClient
        sampleInfo.ID St.fresh).1.w = NewRecorder ∧
    (deleteClient sampleLib sampleUpstream sampleConfig "admin-token" sampleInfo.ID
        St.fresh).2 = .ok () ∧
    (deleteClient sampleLib sampleUpstream sampleConfig "admin-token" sampleInfo.ID
        St.fresh).1.w = NewRecorder ∧
    (deleteClient sampleLib sampleUpstream sampleConfig "admin-token" sampleInfo.ID
        St.fresh).1.w.Code = 200 :=
  ⟨rfl,
    (successful_operations_write_nothing sampleLib creatingUpstream sampleConfig "admin-token"
      St.fresh _).1 sampleClient rfl,
    rfl,
    (successful_operations_write_nothing sampleLib sampleUpstream sampleConfig "admin-token"
      St.fresh _).2.1 (sampleClientWithSecret "test_secret") "" rfl,
    rfl,
    (successful_operations_write_nothing sampleLib sampleUpstream sampleConfig "admin-token"
      St.fresh _).2.2.1 sampleClient sampleInfo rfl,
    rfl,
    (successful_operations_write_nothing sampleLib sampleUpstream sampleConfig "admin-token"
      St.fresh _).2.2.2.1 sampleInfo.ID "test_secret" rfl,
    rfl,
    (successful_operations_write_nothing sampleLib sampleUpstream sampleConfig "admin-token"
      St.fresh _).2.2.2.2.1 sampleClient sampleInfo.ID rfl,
    rfl,
    (successful_operations_write_nothing sampleLib sampleUpstream sampleConfig "admin-token"
      St.fresh _).2.2.2.2.2.1 sampleInfo.ID rfl,
    ((successful_operations_write_nothing sampleLib sampleUpstream sampleConfig "admin-token"
      St.fresh _).2.2.2.2.2.2 rfl
      ((successful_operations_write_nothing sampleLib sampleUpstream sampleConfig
        "admin-token" St.fresh _).2.2.2.2.2.1 sampleInfo.ID rfl)).1⟩

/-! ## C26: a lookup without match -/

/-- C26. Let the collection request of `getClient` be answered with a success status
and a document gojsonq parses into an array none of whose elements has the requested
`clientId`. Assume of the libraries that `First` after `Where` returns nil when nothing
passes the filter and that `mapstructure.Decode` leaves the struct alone for nil. Then
`getClient` returns the zero `ClientOut` without error, so its `ID` is the empty
string, and the inbound response is as it was. -/
theorem getClient_without_match (L : GoLib) (up : Upstream) (config : Config)
    (token : String) (client : Client) (s : St) (status : Nat) (resp : String)
    (items : List Json)
    (hN : L.NewRequest "GET" (L.Sprintf config.ClientsURI [config.IdpURL, config.IdpRealm])
      = none)
    (hup : up s.calls (getClientRequest L config token client) = .response status resp)
    (hok : okStatus status)
    (hparse : L.jqFromString (addRoot resp) = .ok (.obj [("root", .arr items)]))
    (hfirst : L.jqFirst (.obj [("root", .arr items)]) "root" "clientId" client.ClientID
      = firstWhere items "clientId" client.ClientID)
    (hdecode : L.mapstructureDecode .null ClientOut.zero
      = decodeClientOut .null ClientOut.zero)
    (hnone : ∀ x ∈ items, hasField "clientId" client.ClientID x = false) :
    (getClient L up config token client s).2 = .ok ClientOut.zero ∧
    ClientOut.zero.ID = "" ∧
    (getClient L up config token client s).1.w = s.w := by
  have hres : (up s.calls (getClientRequest L config token client)).result = .ok resp := by
    rw [hup]; simp [Reply.result, hok]
  unfold getClientRequest at hres
  have hf : firstWhere items "clientId" client.ClientID = .null := by
    have h1 : items.filter (hasField "clientId" client.ClientID) = [] := by
      rw [List.filter_eq_nil_iff]
      intro x hx
      simp [hnone x hx]
    simp [firstWhere, h1]
  have hz : decodeClientOut .null ClientOut.zero = ClientOut.zero := rfl
  refine ⟨?_, rfl, ?_⟩
  · simp only [getClient, hN, doRequest_eq, hres, hparse, hfirst, hf, hdecode, hz]
  · simp only [getClient, hN, doRequest_eq, hres, hparse, hfirst, hf, hdecode, hz]
    rfl

/-- C26 on the sample upstream: the lookup of the client with the empty `clientId` in
the sample collection returns the zero record. -/
theorem getClient_without_match_witness :
    sampleLib.NewRequest "GET"
        (sampleLib.Sprintf sampleConfig.ClientsURI [sampleConfig.IdpURL, sampleConfig.IdpRealm])
      = none ∧
    sampleUpstream St.fresh.calls (getClientRequest sampleLib sampleConfig "admin-token"
        { sampleClient with ClientID := "" }) = .response 200 sampleCollection ∧
    okStatus 200 ∧
    sampleLib.jqFromString (addRoot sampleCollection)
      = .ok (.obj [("root", .arr [.obj [("clientId", .str "test"),
          ("id", .str "40b5444c-5990-496d-bb67-64c535df8dc4")]])]) ∧
    (getClient sampleLib sampleUpstream sampleConfig "admin-token"
        { sampleClient with ClientID := "" } St.fresh).2 = .ok ClientOut.zero ∧
    (getClient sampleLib sampleUpstream sampleConfig "admin-token"
        { sampleClient with ClientID := "" } St.fresh).1.w = NewRecorder :=
  ⟨rfl, rfl, by decide, rfl,
    (getClient_without_match sampleLib sampleUpstream sampleConfig "admin-token"
      { sampleClient with ClientID := "" } St.fresh 200 sampleCollection
      [.obj [("clientId", .str "test"), ("id", .str "40b5444c-5990-496d-bb67-64c535df8dc4")]]
      rfl rfl (by decide) rfl rfl rfl
      (fun x hx => by
        simp only [List.mem_singleton] at hx
        subst hx
        rfl)).1,
    (getClient_without_match sampleLib sampleUpstream sampleConfig "admin-token"
      { sampleClient with ClientID := "" } St.fresh 200 sampleCollection
      [.obj [("clientId", .str "test"), ("id", .str "40b5444c-5990-496d-bb67-64c535df8dc4")]]
      rfl rfl (by decide) rfl rfl rfl
      (fun x hx => by
        simp only [List.mem_singleton] at hx
        subst hx
        rfl)).2.2⟩

/-! ## C27: a delete request with an empty secret -/

/-- A request `deleteClient` could build and the upstream accepted makes it return
without error. -/
theorem deleteClient_ok_of_succeeded (L : GoLib) (up : Upstream) (config : Config)
    (token clientUID : String) (s : St)
    (hN : L.NewRequest "DELETE"
      (L.Sprintf config.ClientURI [config.IdpURL, config.IdpRealm, clientUID]) = none)
    (hs : (up s.calls (deleteClientRequest L config token clientUID)).succeeded = true) :
    (deleteClient L up config token clientUID s).2 = .ok () := by
  have hres := Reply.result_of_succeeded _ hs
  unfold deleteClientRequest at hres
  simp only [deleteClient, doRequest_eq, hN, hres]

/-- C27. Take a delete request whose caller negotiation, decoding with a non-empty
`clientId`, administrative negotiation, lookup and secret fetch succeed; nothing is
asked of the decoded `clientSecret`. `DeleteResource` then issues the `DELETE` call
if and only if the decoded `clientSecret` equals the fetched secret, and answers 201
when they are equal and the call succeeds. `getClientSecret` returns the empty secret
for a success payload that decodes into a `ClientSecret` without value. On the sample
upstream whose secret document has no `value`, `alice` sends a body without
`clientSecret`: the `DELETE` call is issued and the response is 201. -/
theorem delete_compares_secrets_only :
    (∀ (L : GoLib) (up : Upstream) (config : Config) (r : Request) (s s1 s2 s3 s4 : St)
      (callerToken callerLabel body token adminLabel : String) (client : Client)
      (clientWithSecret : ClientWithSecret) (clientInfo : ClientOut) (clientSecret : String),
      authenticate L up config r (getAuthBodyFromBasicAuth L) s
        = (s1, .ok (callerToken, callerLabel)) →
      r.Body = .ok body →
      L.decodeClient body = .ok client →
      L.decodeClientWithSecret body = .ok clientWithSecret →
      client.ClientID ≠ "" →
      authenticate L up config r (getAdminAuthBody L) s1 = (s2, .ok (token, adminLabel)) →
      getClient L up config token client s2 = (s3, .ok clientInfo) →
      getClientSecret L up config token clientInfo.ID s3 = (s4, .ok clientSecret) →
      L.NewRequest "DELETE"
        (L.Sprintf config.ClientURI [config.IdpURL, config.IdpRealm, clientInfo.ID]) = none →
      s.w.wroteHeader = false →
      ((∃ reply, (DeleteResource L (APIClient L up) config r s).calls
          = s4.calls ++ [(deleteClientRequest L config token clientInfo.ID, reply)])
        ↔ clientWithSecret.Secret = clientSecret) ∧
      (clientWithSecret.Secret = clientSecret →
        (up s4.calls (deleteClientRequest L config token clientInfo.ID)).succeeded = true →
        (DeleteResource L (APIClient L up) config r s).w.Code = 201 ∧
        (DeleteResource L (APIClient L up) config r s).w.Body = s.w.Body)) ∧
    (∀ (L : GoLib) (up : Upstream) (config : Config) (token clientUID : String) (s : St)
      (status : Nat) (payload : String),
      L.NewRequest "GET"
        (L.Sprintf config.ClientSecretURI [config.IdpURL, config.IdpRealm, clientUID]) = none →
      up s.calls (getClientSecretRequest L config token clientUID)
        = .response status payload →
      okStatus status →
      L.unmarshalClientSecret payload = .ok { Value := "" } →
      (getClientSecret L up config token clientUID s).2 = .ok "") ∧
    sampleLib4.decodeClientWithSecret sampleNoSecretPayload = .ok (sampleClientWithSecret "") ∧
    sampleLib4.unmarshalClientSecret sampleSecretNoValue = .ok { Value := "" } ∧
    (DeleteResource sampleLib4 (APIClient sampleLib4 noValueUpstream) sampleConfig
      (aliceRequest sampleNoSecretPayload) St.fresh).w.Code = 201 ∧
    (DeleteResource sampleLib4 (APIClient sampleLib4 noValueUpstream) sampleConfig
      (aliceRequest sampleNoSecretPayload) St.fresh).calls.map (fun x => (x.1.Method, x.1.URL))
      = [("POST", "https://fake.com/auth/realms/master/protocol/openid-connect/token"),
         ("POST", "https://fake.com/auth/realms/master/protocol/openid-connect/token"),
         ("GET", "https://fake.com/auth/admin/realms/master/clients"),
         ("GET", "https://fake.com/auth/admin/realms/master/clients/40b5444c-5990-496d-bb67-64c535df8dc4/client-secret"),
         ("DELETE", "https://fake.com/auth/admin/realms/master/clients/40b5444c-5990-496d-bb67-64c535df8dc4")] := by
  refine ⟨?_, ?_, rfl, rfl, rfl, rfl⟩
  · intro L up config r s s1 s2 s3 s4 callerToken callerLabel body token adminLabel client
      clientWithSecret clientInfo clientSecret hcaller hbody hdec hdecs hid hadmin hget hsec
      hN hw
    obtain ⟨hw4, -, -⟩ := secret_fetched_state L up config r s s1 s2 s3 s4
      callerToken callerLabel token adminLabel _ clientInfo clientSecret hcaller hadmin hget hsec
    have hzf : client.zeroFields = [] := by simp [Client.zeroFields, hid]
    have hdc := deleteClient_calls L up config token clientInfo.ID s4 hN
    by_cases heq : clientWithSecret.Secret = clientSecret
    · have hcalls : (DeleteResource L (APIClient L up) config r s).calls
          = s4.calls ++ [(deleteClientRequest L config token clientInfo.ID,
              up s4.calls (deleteClientRequest L config token clientInfo.ID))] := by
        rw [← hdc]
        simp only [DeleteResource, APIClient, hcaller, hbody, hdec, hdecs, hzf, hadmin, hget,
          hsec, ne_eq, heq, not_true_eq_false, if_false]
        split <;> rename_i hres <;> simp [hres, St.writeJSONHeader]
      refine ⟨⟨fun _ => heq, fun _ => ⟨_, hcalls⟩⟩, ?_⟩
      intro _ hs
      have hok := deleteClient_ok_of_succeeded L up config token clientInfo.ID s4 hN hs
      cases hres : deleteClient L up config token clientInfo.ID s4 with
      | mk S res =>
        rw [hres] at hok
        simp only at hok
        subst hok
        have hwS := deleteClient_ok L up config token clientInfo.ID s4 S hres
        have hout : DeleteResource L (APIClient L up) config r s = S.writeJSONHeader 201 := by
          simp only [DeleteResource, APIClient, hcaller, hbody, hdec, hdecs, hzf, hadmin, hget,
            hsec, ne_eq, heq, not_true_eq_false, if_false, hres]
        rw [hout]
        simp [St.writeJSONHeader, ResponseRecorder.WriteHeader, ResponseRecorder.SetHeader,
          hwS, hw4, hw]
    · have hout : DeleteResource L (APIClient L up) config r s
          = (s4.Println [.nil]).httpError (BadClientSecret.Error L) 401 := by
        simp only [DeleteResource, APIClient, hcaller, hbody, hdec, hdecs, hzf, hadmin, hget,
          hsec, ne_eq, heq, not_false_eq_true, if_true]
      refine ⟨⟨?_, fun h => absurd h heq⟩, fun h => absurd h heq⟩
      rintro ⟨reply, hc⟩
      rw [hout] at hc
      simp only [St.httpError_calls, St.Println_calls] at hc
      have := congrArg List.length hc
      simp at this
  · intro L up config token clientUID s status payload hN hup hok hdecode
    have hres : (up s.calls (getClientSecretRequest L config token clientUID)).result
        = .ok payload := by
      rw [hup]; simp [Reply.result, hok]
    unfold getClientSecretRequest at hres
    simp only [getClientSecret, doRequest_eq, hN, hres, hdecode]

/-- C27 on the sample upstream whose secret document has no `value`: every hypothesis
holds for the delete request of `alice` without `clientSecret`, the secrets are both
empty, and the `DELETE` call is issued. -/
theorem delete_compares_secrets_only_witness :
    authenticate sampleLib4 noValueUpstream sampleConfig (aliceRequest sampleNoSecretPayload)
        (getAuthBodyFromBasicAuth sampleLib4) St.fresh
      = (noValueS1, .ok ("caller-token", "alice")) ∧
    (aliceRequest sampleNoSecretPayload).Body = .ok sampleNoSecretPayload ∧
    sampleLib4.decodeClient sampleNoSecretPayload = .ok sampleClient ∧
    sampleLib4.decodeClientWithSecret sampleNoSecretPayload = .ok (sampleClientWithSecret "") ∧
    sampleClient.ClientID ≠ "" ∧
    authenticate sampleLib4 noValueUpstream sampleConfig (aliceRequest sampleNoSecretPayload)
        (getAdminAuthBody sampleLib4) noValueS1
      = (noValueS2, .ok ("admin-token", "fake")) ∧
    getClient sampleLib4 noValueUpstream sampleConfig "admin-token" sampleClient noValueS2
      = (noValueS3, .ok sampleInfo) ∧
    getClientSecret sampleLib4 noValueUpstream sampleConfig "admin-token" sampleInfo.ID
        noValueS3 = (noValueS4, .ok "") ∧
    sampleLib4.NewRequest "DELETE" (sampleLib4.Sprintf sampleConfig.ClientURI
        [sampleConfig.IdpURL, sampleConfig.IdpRealm, sampleInfo.ID]) = none ∧
    St.fresh.w.wroteHeader = false ∧
    (sampleClientWithSecret "").Secret = "" ∧
    (∃ reply, (DeleteResource sampleLib4 (APIClient sampleLib4 noValueUpstream) sampleConfig
        (aliceRequest sampleNoSecretPayload) St.fresh).calls
      = noValueS4.calls
          ++ [(deleteClientRequest sampleLib4 sampleConfig "admin-token" sampleInfo.ID,
            reply)]) :=
  ⟨rfl, rfl, rfl, rfl, by decide, rfl, rfl, rfl, rfl, rfl, rfl,
    ((delete_compares_secrets_only.1 sampleLib4 noValueUpstream sampleConfig
      (aliceRequest sampleNoSecretPayload) St.fresh noValueS1 noValueS2 noValueS3 noValueS4
      "caller-token" "alice" sampleNoSecretPayload "admin-token" "fake" sampleClient
      (sampleClientWithSecret "") sampleInfo "" rfl rfl rfl rfl (by decide) rfl rfl rfl rfl
      rfl).1).2 rfl⟩

/-! ## C28: the error of a failed negotiation -/

/-- A loop all of whose exchanges failed tried every grant body and is left with the
error of the last exchange, or with the error it was entered with when there was no
body. -/
theorem authLoop_all_failed (L : GoLib) (up : Upstream) (url : String)
    (hN : L.NewRequest "POST" url = none) :
    ∀ (bodies : List Values) (tb : String) (ae : Option GoError) (s : St)
      (issued : List Exchange),
      (authLoop L up url bodies tb ae s).1.calls = s.calls ++ issued →
      (∀ y ∈ issued, y.2.succeeded = false) →
      (∃ tb', (authLoop L up url bodies tb ae s).2
        = .done tb' (match issued.getLast? with
            | some x => some (.other x.2.errorText)
            | none => ae) "") ∧
      (authLoop L up url bodies tb ae s).1.w = s.w ∧
      issued.map Prod.fst = bodies.map (tokenRequest L url) := by
  intro bodies
  induction bodies with
  | nil =>
    intro tb ae s issued hc _
    have : issued = [] := by simpa [authLoop] using hc
    subst this
    exact ⟨⟨tb, rfl⟩, rfl, rfl⟩
  | cons b rest ih =>
    intro tb ae s issued hc hfail
    obtain ⟨more, hmore⟩ := authLoop_cons_calls L up url b rest tb ae s hN
    have hi : issued = (tokenRequest L url b, up s.calls (tokenRequest L url b)) :: more := by
      rw [hmore] at hc
      exact (List.append_cancel_left hc).symm
    subst hi
    have hs : (up s.calls (tokenRequest L url b)).succeeded = false :=
      hfail _ (List.mem_cons_self _ _)
    rw [authLoop_cons L up url b rest tb ae s hN] at hc ⊢
    simp only [hs, Bool.false_eq_true, if_false] at hc ⊢
    have hc' : (authLoop L up url rest "" (some (.other
          (up s.calls (tokenRequest L url b)).errorText))
          ((attemptState L up url b s).Printf "Failed auth attempt %s"
            [.values (redact b)])).1.calls
        = ((attemptState L up url b s).Printf "Failed auth attempt %s"
            [.values (redact b)]).calls ++ more := by
      rw [hc]; simp
    obtain ⟨⟨tb', he⟩, hw, hm⟩ := ih _ _ _ more hc'
      (fun y hy => hfail y (List.mem_cons_of_mem _ hy))
    refine ⟨⟨tb', ?_⟩, ?_, ?_⟩
    · rw [he]
      cases more with
      | nil => rfl
      | cons y ys =>
        have hne : (y :: ys).getLast? = some ((y :: ys).getLast (by simp)) :=
          List.getLast?_eq_getLast _ _
        rw [List.getLast?_cons_cons, hne]
    · rw [hw]; simp
    · simp [hm]

/-- C28. Let a negotiation build its token requests and let every exchange it issued
fail, the last of them being `x`. Then every grant body was tried,
`authenticate` returns the error of `x`, and the response has status 401 and carries
the JSON of the `ApiError` with code `"10000"` and the error text of `x` as message:
nothing of the earlier errors is returned or written. For the two grant bodies of
caller negotiation `x` is the client-credentials attempt. -/
theorem last_failure_is_reported (L : GoLib) (up : Upstream) (config : Config)
    (r : Request) (f : AuthBodyGetter) (s s1 : St) (authBody : List Values) (url : String)
    (issued : List Exchange) (x : Exchange)
    (hf : f config r s = (s1, .ok (authBody, url)))
    (hN : L.NewRequest "POST" url = none)
    (hcalls : (authenticate L up config r f s).1.calls = s1.calls ++ issued)
    (hfail : ∀ y ∈ issued, y.2.succeeded = false)
    (hlast : issued.getLast? = some x)
    (hw : s1.w.wroteHeader = false) :
    (authenticate L up config r f s).2 = .err (.other x.2.errorText) ∧
    (authenticate L up config r f s).1.w.Code = 401 ∧
    (authenticate L up config r f s).1.w.Body
      = s1.w.Body ++ (L.jsonMarshal (ApiError.toJson ⟨"10000", x.2.errorText⟩) ++ "\n") ∧
    issued.map Prod.fst = authBody.map (tokenRequest L url) ∧
    (∀ first second, authBody = [first, second] → x.1 = tokenRequest L url second) := by
  rw [authenticate_calls L up config r f s s1 authBody url hf] at hcalls
  obtain ⟨⟨tb', he⟩, hw', hm⟩ := authLoop_all_failed L up url hN authBody "" none s1 issued
    hcalls hfail
  rw [hlast] at he
  simp only at he
  have hE := ResponseRecorder.Error_unwritten s1.w
    (L.jsonMarshal (ApiError.toJson ⟨"10000", x.2.errorText⟩)) 401 hw
  cases hloop : authLoop L up url authBody "" none s1 with
  | mk S ex =>
    rw [hloop] at he hw'
    simp only at he hw'
    subst he
    have hout : authenticate L up config r f s
        = ((S.Printf "Failed all auth attempts %s" [.str x.2.errorText]).httpError
            (L.jsonMarshal (ApiError.toJson ⟨"10000", x.2.errorText⟩)) 401,
          .err (.other x.2.errorText)) := by
      simp only [authenticate, hf, hloop, GoError.Error]
    rw [hout]
    simp only [St.httpError_w, St.Printf_w, hw']
    refine ⟨trivial, hE.1, hE.2.1, hm, ?_⟩
    intro first second hab
    subst hab
    have hlen : issued.length = 2 := by
      have := congrArg List.length hm
      simpa using this
    match issued, hlen, hm, hlast with
    | [a, b], _, hm, hlast =>
      simp only [List.map_cons, List.map_nil, List.cons.injEq, and_true] at hm
      simp only [List.getLast?_cons_cons, List.getLast?_singleton, Option.some.injEq] at hlast
      rw [← hlast]
      exact hm.2

/-- C28 on the upstream that rejects the password grant with `first` and the
client-credentials grant with `second`: `authenticate` returns `second` and writes it,
and `first` is gone. -/
theorem last_failure_is_reported_witness :
    getAuthBodyFromBasicAuth sampleLib sampleConfig (aliceRequest "") St.fresh
      = (St.fresh, .ok ([authResourceOwnerBody sampleConfig "alice" "pw",
          authClientBody "alice" "pw"], callerTokenURL sampleLib sampleConfig)) ∧
    sampleLib.NewRequest "POST" (callerTokenURL sampleLib sampleConfig) = none ∧
    (authenticate sampleLib twoErrorsUpstream sampleConfig (aliceRequest "")
        (getAuthBodyFromBasicAuth sampleLib) St.fresh).1.calls
      = St.fresh.calls ++ [(passwordGrantRequest sampleLib sampleConfig "alice" "pw",
          .response 401 "first"),
        (clientCredentialsRequest sampleLib sampleConfig "alice" "pw",
          .response 403 "second")] ∧
    St.fresh.w.wroteHeader = false ∧
    (authenticate sampleLib twoErrorsUpstream sampleConfig (aliceRequest "")
        (getAuthBodyFromBasicAuth sampleLib) St.fresh).2 = .err (.other "second") ∧
    (authenticate sampleLib twoErrorsUpstream sampleConfig (aliceRequest "")
        (getAuthBodyFromBasicAuth sampleLib) St.fresh).1.w.Body
      = "\x7b\"code\":\"10000\",\"message\":\"second\"\x7d\n" :=
  ⟨rfl, rfl, rfl, rfl,
    (last_failure_is_reported sampleLib twoErrorsUpstream sampleConfig (aliceRequest "")
      (getAuthBodyFromBasicAuth sampleLib) St.fresh St.fresh _ _
      [(passwordGrantRequest sampleLib sampleConfig "alice" "pw", .response 401 "first"),
        (clientCredentialsRequest sampleLib sampleConfig "alice" "pw", .response 403 "second")]
      (clientCredentialsRequest sampleLib sampleConfig "alice" "pw", .response 403 "second")
      rfl rfl rfl
      (fun y hy => by
        simp only [List.mem_cons, List.mem_singleton, List.not_mem_nil, or_false] at hy
        rcases hy with rfl | rfl <;> rfl)
      rfl rfl).1,
    (last_failure_is_reported sampleLib twoErrorsUpstream sampleConfig (aliceRequest "")
      (getAuthBodyFromBasicAuth sampleLib) St.fresh St.fresh _ _
      [(passwordGrantRequest sampleLib sampleConfig "alice" "pw", .response 401 "first"),
        (clientCredentialsRequest sampleLib sampleConfig "alice" "pw", .response 403 "second")]
      (clientCredentialsRequest sampleLib sampleConfig "alice" "pw", .response 403 "second")
      rfl rfl rfl
      (fun y hy => by
        simp only [List.mem_cons, List.mem_singleton, List.not_mem_nil, or_false] at hy
        rcases hy with rfl | rfl <;> rfl)
      rfl rfl).2.2.1.trans rfl⟩

/-! ## C29: the definition sent to the identity provider -/

/-- What `CreateResource` does to the decoded client is what `sentDefinition` says. -/
theorem created_eq_sentDefinition (c : Client) (d : String) :
    ({ applyRedirectUris c with PublicClient := false, Description := d } : Client)
      = sentDefinition c d := by
  cases c with
  | mk id pc ru root wo admin dag sae sfe ife desc =>
    cases sfe <;> rcases ru with _ | _ | ⟨u, us⟩ <;>
      simp [applyRedirectUris, sentDefinition, firstRedirect]

/-- What `UpdateResource` does to the decoded client is what `sentDefinition` says,
with the description as supplied. -/
theorem updated_eq_sentDefinition (c : Client) :
    ({ applyRedirectUris c with PublicClient := false } : Client)
      = sentDefinition c c.Description := by
  cases c with
  | mk id pc ru root wo admin dag sae sfe ife desc =>
    cases sfe <;> rcases ru with _ | _ | ⟨u, us⟩ <;>
      simp [applyRedirectUris, sentDefinition, firstRedirect]

/-- C29. Let the request body decode into `client0` and let the requests be buildable.
The first call of `CreateResource` after the administrative negotiation is the `POST`
whose body is the JSON of `sentDefinition client0 d`, with `d` the text
`Client created by ` followed by the caller's label. The first call of
`UpdateResource` after the administrative negotiation, the lookup, and, for a matching
secret, its `PUT` call carry the JSON of `sentDefinition client0 client0.Description`.
In `sentDefinition`, `rootUrl`, `adminUrl` and `webOrigins` are replaced exactly when
`standardFlowEnabled` is set and there is a first redirect URI. -/
theorem sent_definition_is_as_specified (L : GoLib) (up : Upstream) (config : Config)
    (r : Request) (s : St) (body : String) (client0 : Client)
    (hbody : r.Body = .ok body)
    (hdec : L.decodeClient body = .ok client0)
    (hN : ∀ method url, L.NewRequest method url = none) :
    (∀ (s1 s3 : St) (callerToken callerLabel token adminLabel : String),
      authenticate L up config r (getAuthBodyFromBasicAuth L)
          (s.Println [.str "Authenticating external user"])
        = (s1, .ok (callerToken, callerLabel)) →
      client0.ClientID ≠ "" →
      authenticate L up config r (getAdminAuthBody L)
          (s1.Println [.str "Authenticating app admin user"])
        = (s3, .ok (token, adminLabel)) →
      ∃ more, (CreateResource L (APIClient L up) config r s).calls
        = s3.calls ++ (createClientRequest L config token
            (sentDefinition client0 ("Client created by " ++ callerLabel)),
          up s3.calls (createClientRequest L config token
            (sentDefinition client0 ("Client created by " ++ callerLabel)))) :: more) ∧
    (∀ (s1 s2 : St) (callerToken callerLabel token adminLabel : String)
      (clientWithSecret : ClientWithSecret),
      authenticate L up config r (getAuthBodyFromBasicAuth L) s
        = (s1, .ok (callerToken, callerLabel)) →
      L.decodeClientWithSecret body = .ok clientWithSecret →
      clientWithSecret.zeroFields = [] →
      authenticate L up config r (getAdminAuthBody L) s1 = (s2, .ok (token, adminLabel)) →
      (∃ more, (UpdateResource L (APIClient L up) config r s).calls
        = s2.calls ++ (getClientRequest L config token
            (sentDefinition client0 client0.Description),
          up s2.calls (getClientRequest L config token
            (sentDefinition client0 client0.Description))) :: more) ∧
      (∀ (s3 s4 : St) (clientInfo : ClientOut) (clientSecret : String),
        getClient L up config token (sentDefinition client0 client0.Description) s2
          = (s3, .ok clientInfo) →
        getClientSecret L up config token clientInfo.ID s3 = (s4, .ok clientSecret) →
        clientWithSecret.Secret = clientSecret →
        (UpdateResource L (APIClient L up) config r s).calls
          = s4.calls ++ [(updateClientRequest L config token
              (sentDefinition client0 client0.Description) clientInfo.ID,
            up s4.calls (updateClientRequest L config token
              (sentDefinition client0 client0.Description) clientInfo.ID))])) ∧
    (∀ (d first : String) (rest : List String),
      client0.StandardFlowEnabled = true → client0.RedirectUris = some (first :: rest) →
      (sentDefinition client0 d).RootUrl = first ∧
      (sentDefinition client0 d).AdminUrl = first ∧
      (sentDefinition client0 d).WebOrigins = client0.RedirectUris) ∧
    (∀ d : String,
      (client0.StandardFlowEnabled = false ∨ client0.RedirectUris = none ∨
        client0.RedirectUris = some []) →
      (sentDefinition client0 d).RootUrl = client0.RootUrl ∧
      (sentDefinition client0 d).AdminUrl = client0.AdminUrl ∧
      (sentDefinition client0 d).WebOrigins = client0.WebOrigins) := by
  refine ⟨?_, ?_, ?_, ?_⟩
  · intro s1 s3 callerToken callerLabel token adminLabel hcaller hid hadmin
    have hzf : client0.zeroFields = [] := by simp [Client.zeroFields, hid]
    have hc4 := createClient_calls L up config token
      (sentDefinition client0 ("Client created by " ++ callerLabel)) s3 (hN _ _)
    cases hres4 : createClient L up config token
        (sentDefinition client0 ("Client created by " ++ callerLabel)) s3 with
    | mk s4 res4 =>
      rw [hres4] at hc4
      simp only at hc4
      have key : ∃ tail, (CreateResource L (APIClient L up) config r s).calls
          = s4.calls ++ tail := by
        have hc5 := getClient_calls L up config token
          (sentDefinition client0 ("Client created by " ++ callerLabel)) s4 (hN _ _)
        cases hres5 : getClient L up config token
            (sentDefinition client0 ("Client created by " ++ callerLabel)) s4 with
        | mk s5 res5 =>
          rw [hres5] at hc5
          simp only at hc5
          cases res4 with
          | panic m =>
            exact ⟨[], by simp only [CreateResource, APIClient, hcaller, hbody, hdec, hzf,
              hadmin, created_eq_sentDefinition, hres4, List.append_nil]⟩
          | err e =>
            exact ⟨[], by simp only [CreateResource, APIClient, hcaller, hbody, hdec, hzf,
              hadmin, created_eq_sentDefinition, hres4, List.append_nil]⟩
          | ok u =>
            cases res5 with
            | panic m =>
              exact ⟨_, by
                simp only [CreateResource, APIClient, hcaller, hbody, hdec, hzf, hadmin,
                  created_eq_sentDefinition, hres4, hres5]
                exact hc5⟩
            | err e =>
              exact ⟨_, by
                simp only [CreateResource, APIClient, hcaller, hbody, hdec, hzf, hadmin,
                  created_eq_sentDefinition, hres4, hres5]
                exact hc5⟩
            | ok info =>
              have hc6 := getClientSecret_calls L up config token info.ID s5 (hN _ _)
              cases hres6 : getClientSecret L up config token info.ID s5 with
              | mk s6 res6 =>
                rw [hres6] at hc6
                simp only at hc6
                have h6 : s6.calls = s4.calls ++
                    [(getClientRequest L config token
                        (sentDefinition client0 ("Client created by " ++ callerLabel)),
                      up s4.calls (getClientRequest L config token
                        (sentDefinition client0 ("Client created by " ++ callerLabel)))),
                     (getClientSecretRequest L config token info.ID,
                      up s5.calls (getClientSecretRequest L config token info.ID))] := by
                  rw [hc6, hc5]; simp
                exact ⟨_, by
                  simp only [CreateResource, APIClient, hcaller, hbody, hdec, hzf, hadmin,
                    created_eq_sentDefinition, hres4, hres5, hres6]
                  cases res6 <;> exact h6⟩
      obtain ⟨tail, ht⟩ := key
      exact ⟨tail, by rw [ht, hc4]; simp⟩
  · intro s1 s2 callerToken callerLabel token adminLabel cws hcaller hdecs hzf hadmin
    have hc3 := getClient_calls L up config token
      (sentDefinition client0 client0.Description) s2 (hN _ _)
    constructor
    · cases hres3 : getClient L up config token
          (sentDefinition client0 client0.Description) s2 with
      | mk s3 res3 =>
        rw [hres3] at hc3
        simp only at hc3
        have key : ∃ tail, (UpdateResource L (APIClient L up) config r s).calls
            = s3.calls ++ tail := by
          cases res3 with
          | panic m =>
            exact ⟨[], by simp only [UpdateResource, APIClient, hcaller, hbody, hdec, hdecs,
              hzf, hadmin, updated_eq_sentDefinition, hres3, List.append_nil]⟩
          | err e =>
            exact ⟨[], by simp only [UpdateResource, APIClient, hcaller, hbody, hdec, hdecs,
              hzf, hadmin, updated_eq_sentDefinition, hres3, List.append_nil]⟩
          | ok info =>
            have hc4 := getClientSecret_calls L up config token info.ID s3 (hN _ _)
            cases hres4 : getClientSecret L up config token info.ID s3 with
            | mk s4 res4 =>
              rw [hres4] at hc4
              simp only at hc4
              have hc5 := updateClient_calls L up config token
                (sentDefinition client0 client0.Description) info.ID s4 (hN _ _)
              cases hres5 : updateClient L up config token
                  (sentDefinition client0 client0.Description) info.ID s4 with
              | mk s5 res5 =>
                rw [hres5] at hc5
                simp only at hc5
                have h5 : s5.calls = s3.calls ++
                    [(getClientSecretRequest L config token info.ID,
                      up s3.calls (getClientSecretRequest L config token info.ID)),
                     (updateClientRequest L config token
                        (sentDefinition client0 client0.Description) info.ID,
                      up s4.calls (updateClientRequest L config token
                        (sentDefinition client0 client0.Description) info.ID))] := by
                  rw [hc5, hc4]; simp
                cases res4 with
                | panic m =>
                  exact ⟨_, by
                    simp only [UpdateResource, APIClient, hcaller, hbody, hdec, hdecs, hzf,
                      hadmin, updated_eq_sentDefinition, hres3, hres4]
                    exact hc4⟩
                | err e =>
                  exact ⟨_, by
                    simp only [UpdateResource, APIClient, hcaller, hbody, hdec, hdecs, hzf,
                      hadmin, updated_eq_sentDefinition, hres3, hres4]
                    exact hc4⟩
                | ok sec =>
                  by_cases hne : cws.Secret = sec
                  · exact ⟨_, by
                      simp only [UpdateResource, APIClient, hcaller, hbody, hdec, hdecs, hzf,
                        hadmin, updated_eq_sentDefinition, hres3, hres4, ne_eq, hne,
                        not_true_eq_false, if_false, hres5]
                      cases res5 <;> exact h5⟩
                  · exact ⟨_, by
                      simp only [UpdateResource, APIClient, hcaller, hbody, hdec, hdecs, hzf,
                        hadmin, updated_eq_sentDefinition, hres3, hres4, ne_eq, hne,
                        not_false_eq_true, if_true, St.httpError_calls, St.Println_calls]
                      exact hc4⟩
        obtain ⟨tail, ht⟩ := key
        exact ⟨tail, by rw [ht, hc3]; simp⟩
    · intro s3 s4 clientInfo clientSecret hget hsec heq
      have hc5 := updateClient_calls L up config token
        (sentDefinition client0 client0.Description) clientInfo.ID s4 (hN _ _)
      rw [← hc5]
      simp only [UpdateResource, APIClient, hcaller, hbody, hdec, hdecs, hzf, hadmin,
        updated_eq_sentDefinition, hget, hsec, ne_eq, heq, not_true_eq_false, if_false]
      split <;> rename_i hres <;> simp [hres, St.writeJSONHeader]
  · intro d first rest hs hr
    simp [sentDefinition, firstRedirect, hs, hr]
  · intro d h
    rcases h with h | h | h <;> simp [sentDefinition, firstRedirect, h]

set_option maxRecDepth 4096 in
/-- C29 on the sample upstreams: `alice` sends a public client with the standard flow,
two redirect URIs, a root URL and a description. The definition sent on creation is
confidential, rooted at the first redirect URI and described as created by `alice`; the
one sent on update keeps the description `mine`. -/
theorem sent_definition_is_as_specified_witness :
    (aliceRequest sampleRedirectPayload).Body = .ok sampleRedirectPayload ∧
    sampleLib5.decodeClient sampleRedirectPayload = .ok sampleRedirectClient ∧
    (∀ method url, sampleLib5.NewRequest method url = none) ∧
    authenticate sampleLib5 creatingUpstream sampleConfig (aliceRequest sampleRedirectPayload)
        (getAuthBodyFromBasicAuth sampleLib5)
        (St.fresh.Println [.str "Authenticating external user"])
      = (callerState sampleLib5 creatingUpstream sampleRedirectPayload createStart,
          .ok ("caller-token", "alice")) ∧
    sampleRedirectClient.ClientID ≠ "" ∧
    authenticate sampleLib5 creatingUpstream sampleConfig (aliceRequest sampleRedirectPayload)
        (getAdminAuthBody sampleLib5)
        ((callerState sampleLib5 creatingUpstream sampleRedirectPayload createStart).Println
          [.str "Authenticating app admin user"])
      = (adminState sampleLib5 creatingUpstream sampleRedirectPayload
          ((callerState sampleLib5 creatingUpstream sampleRedirectPayload createStart).Println
            [.str "Authenticating app admin user"]),
          .ok ("admin-token", "fake")) ∧
    sentDefinition sampleRedirectClient ("Client created by " ++ "alice")
      = { ClientID := "test", PublicClient := false,
          RedirectUris := some ["u1", "u2"],
          RootUrl := "u1",
          WebOrigins := some ["u1", "u2"],
          AdminUrl := "u1", DirectAccessGrantsEnabled := false,
          ServiceAccountsEnabled := false, StandardFlowEnabled := true,
          ImplicitFlowEnabled := false, Description := "Client created by alice" } ∧
    (∃ more, (CreateResource sampleLib5 (APIClient sampleLib5 creatingUpstream) sampleConfig
        (aliceRequest sampleRedirectPayload) St.fresh).calls
      = (adminState sampleLib5 creatingUpstream sampleRedirectPayload
          ((callerState sampleLib5 creatingUpstream sampleRedirectPayload createStart).Println
            [.str "Authenticating app admin user"])).calls
        ++ (createClientRequest sampleLib5 sampleConfig "admin-token"
            (sentDefinition sampleRedirectClient ("Client created by " ++ "alice")),
          Reply.response 201 "") :: more) ∧
    authenticate sampleLib5 sampleUpstream sampleConfig (aliceRequest sampleRedirectPayload)
        (getAuthBodyFromBasicAuth sampleLib5) St.fresh
      = (redirectS1, .ok ("caller-token", "alice")) ∧
    sampleLib5.decodeClientWithSecret sampleRedirectPayload
      = .ok sampleRedirectClientWithSecret ∧
    sampleRedirectClientWithSecret.zeroFields = [] ∧
    authenticate sampleLib5 sampleUpstream sampleConfig (aliceRequest sampleRedirectPayload)
        (getAdminAuthBody sampleLib5) redirectS1
      = (redirectS2, .ok ("admin-token", "fake")) ∧
    getClient sampleLib5 sampleUpstream sampleConfig "admin-token"
        (sentDefinition sampleRedirectClient sampleRedirectClient.Description) redirectS2
      = (redirectS3, .ok sampleInfo) ∧
    getClientSecret sampleLib5 sampleUpstream sampleConfig "admin-token" sampleInfo.ID
        redirectS3 = (redirectS4, .ok "test_secret") ∧
    sampleRedirectClientWithSecret.Secret = "test_secret" ∧
    (UpdateResource sampleLib5 (APIClient sampleLib5 sampleUpstream) sampleConfig
        (aliceRequest sampleRedirectPayload) St.fresh).calls
      = redirectS4.calls ++ [(updateClientRequest sampleLib5 sampleConfig "admin-token"
          (sentDefinition sampleRedirectClient "mine") sampleInfo.ID,
          Reply.response 204 "")] :=
  ⟨rfl, rfl, fun _ _ => rfl, rfl, by decide, rfl, rfl,
    (sent_definition_is_as_specified sampleLib5 creatingUpstream sampleConfig
      (aliceRequest sampleRedirectPayload) St.fresh sampleRedirectPayload sampleRedirectClient
      rfl rfl (fun _ _ => rfl)).1
      (callerState sampleLib5 creatingUpstream sampleRedirectPayload createStart)
      (adminState sampleLib5 creatingUpstream sampleRedirectPayload
        ((callerState sampleLib5 creatingUpstream sampleRedirectPayload createStart).Println
          [.str "Authenticating app admin user"]))
      "caller-token" "alice" "admin-token" "fake" rfl (by decide) rfl,
    rfl, rfl, rfl, rfl, rfl, rfl, rfl,
    ((sent_definition_is_as_specified sampleLib5 sampleUpstream sampleConfig
      (aliceRequest sampleRedirectPayload) St.fresh sampleRedirectPayload sampleRedirectClient
      rfl rfl (fun _ _ => rfl)).2.1 redirectS1 redirectS2 "caller-token" "alice" "admin-token"
      "fake" sampleRedirectClientWithSecret rfl rfl rfl rfl).2 redirectS3 redirectS4 sampleInfo
      "test_secret" rfl rfl rfl⟩

/-! ## C30: the body is read after caller negotiation -/

/-- The loop of `authenticate` writes to the inbound response only through
`http.Error` with status 401, when a token request cannot be built. -/
theorem authLoop_w_cases (L : GoLib) (up : Upstream) (url : String) :
    ∀ (bodies : List Values) (tb : String) (ae : Option GoError) (s : St),
      (authLoop L up url bodies tb ae s).1.w = s.w ∨
      ∃ e, (authLoop L up url bodies tb ae s).1.w = s.w.Error e 401 := by
  intro bodies
  induction bodies with
  | nil => intro tb ae s; exact Or.inl rfl
  | cons b rest ih =>
    intro tb ae s
    cases hN : L.NewRequest "POST" url with
    | some e =>
      rw [authLoop_cons_bad L up url b rest tb ae s e hN]
      exact Or.inr ⟨e, rfl⟩
    | none =>
      rw [authLoop_cons L up url b rest tb ae s hN]
      cases hs : (up s.calls (tokenRequest L url b)).succeeded with
      | true =>
        simp only [if_true]
        cases authEntityOf (redact b) <;> exact Or.inl rfl
      | false =>
        simp only [Bool.false_eq_true, if_false]
        rcases ih "" (some (.other (up s.calls (tokenRequest L url b)).errorText))
          ((attemptState L up url b s).Printf "Failed auth attempt %s" [.values (redact b)])
          with h | ⟨e, h⟩
        · exact Or.inl (by rw [h]; rfl)
        · exact Or.inr ⟨e, by rw [h]; rfl⟩

/-- A caller negotiation that does not succeed leaves the response alone or ends it
through `http.Error` with status 401 or 500. -/
theorem authenticate_caller_failed_w (L : GoLib) (up : Upstream) (config : Config)
    (r : Request) (s : St)
    (hnot : ∀ x, (authenticate L up config r (getAuthBodyFromBasicAuth L) s).2 ≠ .ok x) :
    (authenticate L up config r (getAuthBodyFromBasicAuth L) s).1.w = s.w ∨
    ∃ e c, (c = 401 ∨ c = 500) ∧
      (authenticate L up config r (getAuthBodyFromBasicAuth L) s).1.w = s.w.Error e c := by
  cases hr : r.BasicAuth with
  | none =>
    refine Or.inr ⟨InvalidBasicAuthHeaders.Error L, 401, Or.inl rfl, ?_⟩
    simp [authenticate, getAuthBodyFromBasicAuth, hr]
  | some c =>
    have hf : getAuthBodyFromBasicAuth L config r s
        = (s, .ok ([authResourceOwnerBody config c.1 c.2, authClientBody c.1 c.2],
            callerTokenURL L config)) := by
      simp [getAuthBodyFromBasicAuth, hr, callerTokenURL]
    have hwc := authLoop_w_cases L up (callerTokenURL L config)
      [authResourceOwnerBody config c.1 c.2, authClientBody c.1 c.2] "" none s
    simp only [authenticate, hf] at hnot ⊢
    cases hloop : authLoop L up (callerTokenURL L config)
        [authResourceOwnerBody config c.1 c.2, authClientBody c.1 c.2] "" none s with
    | mk S ex =>
      rw [hloop] at hwc hnot
      simp only at hwc
      cases ex with
      | returned e =>
        rcases hwc with h | ⟨e', h⟩
        · exact Or.inl h
        · exact Or.inr ⟨e', 401, Or.inl rfl, h⟩
      | panicked m =>
        rcases hwc with h | ⟨e', h⟩
        · exact Or.inl h
        · exact Or.inr ⟨e', 401, Or.inl rfl, h⟩
      | done tb ae ent =>
        have hdw := authLoop_done_w L up _ _ _ _ _ _ _ _ _ hloop
        cases ae with
        | some err =>
          exact Or.inr ⟨GoError.Error L (.api ⟨"10000", err.Error L⟩), 401, Or.inl rfl,
            by simp [hdw]⟩
        | none =>
          cases hu : L.unmarshalToken tb with
          | error uerr =>
            exact Or.inr ⟨uerr, 500, Or.inr rfl, by simp [hu, hdw]⟩
          | ok token =>
            exact absurd (by simp [hu]) (hnot (token.Value, ent))

/-- The status after a caller negotiation that did not succeed, on a response not yet
started: the one it had, 401 or 500. -/
theorem authenticate_caller_failed_code (L : GoLib) (up : Upstream) (config : Config)
    (r : Request) (s : St) (hw : s.w.wroteHeader = false)
    (hnot : ∀ x, (authenticate L up config r (getAuthBodyFromBasicAuth L) s).2 ≠ .ok x) :
    (authenticate L up config r (getAuthBodyFromBasicAuth L) s).1.w.Code = s.w.Code ∨
    (authenticate L up config r (getAuthBodyFromBasicAuth L) s).1.w.Code = 401 ∨
    (authenticate L up config r (getAuthBodyFromBasicAuth L) s).1.w.Code = 500 := by
  rcases authenticate_caller_failed_w L up config r s hnot with h | ⟨e, c, hc, h⟩
  · exact Or.inl (by rw [h])
  · have hE := (ResponseRecorder.Error_unwritten s.w e c hw).1
    rw [h, hE]
    rcases hc with rfl | rfl
    · exact Or.inr (Or.inl rfl)
    · exact Or.inr (Or.inr rfl)

/-- A handler whose caller negotiation did not succeed returns the response that
negotiation left. -/
theorem handlers_stop_at_failed_caller (L : GoLib) (up : Upstream) (config : Config)
    (r : Request) (s : St) :
    ((∀ x, (authenticate L up config r (getAuthBodyFromBasicAuth L)
        (s.Println [.str "Authenticating external user"])).2 ≠ .ok x) →
      (CreateResource L (APIClient L up) config r s).w
        = (authenticate L up config r (getAuthBodyFromBasicAuth L)
            (s.Println [.str "Authenticating external user"])).1.w) ∧
    ((∀ x, (authenticate L up config r (getAuthBodyFromBasicAuth L) s).2 ≠ .ok x) →
      (UpdateResource L (APIClient L up) config r s).w
        = (authenticate L up config r (getAuthBodyFromBasicAuth L) s).1.w ∧
      (DeleteResource L (APIClient L up) config r s).w
        = (authenticate L up config r (getAuthBodyFromBasicAuth L) s).1.w) := by
  constructor
  · intro hnot
    cases hres : authenticate L up config r (getAuthBodyFromBasicAuth L)
        (s.Println [.str "Authenticating external user"]) with
    | mk S res =>
      rw [hres] at hnot
      cases res with
      | ok x => exact absurd rfl (hnot x)
      | err e => simp only [CreateResource, APIClient, hres]
      | panic m => simp only [CreateResource, APIClient, hres]
  · intro hnot
    cases hres : authenticate L up config r (getAuthBodyFromBasicAuth L) s with
    | mk S res =>
      rw [hres] at hnot
      cases res with
      | ok x => exact absurd rfl (hnot x)
      | err e => exact ⟨by simp only [UpdateResource, APIClient, hres],
          by simp only [DeleteResource, APIClient, hres]⟩
      | panic m => exact ⟨by simp only [UpdateResource, APIClient, hres],
          by simp only [DeleteResource, APIClient, hres]⟩

/-- C30. In `CreateResource`, `UpdateResource` and `DeleteResource` the body is read
only after the caller negotiation succeeded. A request without Basic-Auth, and a
request whose two grants are rejected, is answered 401 whatever its body is; and on a
response that was not started and did not hold the status 400, a handler that answers
400 had a successful caller negotiation. -/
theorem body_read_after_caller_negotiation (L : GoLib) (up : Upstream) (config : Config)
    (r : Request) (s : St)
    (hw : s.w.wroteHeader = false) (hc : s.w.Code ≠ 400) :
    (r.BasicAuth = none →
      (CreateResource L (APIClient L up) config r s).w.Code = 401 ∧
      (UpdateResource L (APIClient L up) config r s).w.Code = 401 ∧
      (DeleteResource L (APIClient L up) config r s).w.Code = 401) ∧
    (∀ u p, r.BasicAuth = some (u, p) →
      L.NewRequest "POST" (callerTokenURL L config) = none →
      (up s.calls (passwordGrantRequest L config u p)).succeeded = false →
      (up (s.calls ++ [(passwordGrantRequest L config u p,
          up s.calls (passwordGrantRequest L config u p))])
          (clientCredentialsRequest L config u p)).succeeded = false →
      (CreateResource L (APIClient L up) config r s).w.Code = 401 ∧
      (UpdateResource L (APIClient L up) config r s).w.Code = 401 ∧
      (DeleteResource L (APIClient L up) config r s).w.Code = 401) ∧
    ((CreateResource L (APIClient L up) config r s).w.Code = 400 →
      ∃ s1 x, authenticate L up config r (getAuthBodyFromBasicAuth L)
        (s.Println [.str "Authenticating external user"]) = (s1, .ok x)) ∧
    ((UpdateResource L (APIClient L up) config r s).w.Code = 400 →
      ∃ s1 x, authenticate L up config r (getAuthBodyFromBasicAuth L) s = (s1, .ok x)) ∧
    ((DeleteResource L (APIClient L up) config r s).w.Code = 400 →
      ∃ s1 x, authenticate L up config r (getAuthBodyFromBasicAuth L) s = (s1, .ok x)) := by
  have hstop := handlers_stop_at_failed_caller L up config r s
  have hw0 : (s.Println [.str "Authenticating external user"]).w.wroteHeader = false := hw
  refine ⟨?_, ?_, ?_, ?_, ?_⟩
  · intro hr
    have ha : ∀ s0 : St, authenticate L up config r (getAuthBodyFromBasicAuth L) s0
        = ((s0.Println [.str (InvalidBasicAuthHeaders.Error L)]).httpError
            (InvalidBasicAuthHeaders.Error L) 401, .err InvalidBasicAuthHeaders) := by
      intro s0
      simp [authenticate, getAuthBodyFromBasicAuth, hr]
    have hE := (ResponseRecorder.Error_unwritten s.w (InvalidBasicAuthHeaders.Error L) 401 hw).1
    have hC := hstop.1 (by rw [ha]; intro x hx; simp at hx)
    have hUD := hstop.2 (by rw [ha]; intro x hx; simp at hx)
    rw [hC, hUD.1, hUD.2, ha, ha]
    exact ⟨hE, hE, hE⟩
  · intro u p hr hN h1 h2
    obtain ⟨S, hS, -, hSw⟩ := authenticate_caller_rejected L up config r s u p hr hN h1 h2
    obtain ⟨S0, hS0, -, hSw0⟩ := authenticate_caller_rejected L up config r
      (s.Println [.str "Authenticating external user"]) u p hr hN h1 h2
    have hC := hstop.1 (by rw [hS0]; intro x hx; simp at hx)
    have hUD := hstop.2 (by rw [hS]; intro x hx; simp at hx)
    rw [hC, hUD.1, hUD.2, hS, hS0]
    simp only [hSw, hSw0, St.Println_w]
    have hE := (ResponseRecorder.Error_unwritten s.w (L.jsonMarshal (ApiError.toJson ⟨"10000",
      (up (s.calls ++ [(passwordGrantRequest L config u p,
          up s.calls (passwordGrantRequest L config u p))])
          (clientCredentialsRequest L config u p)).errorText⟩)) 401 hw).1
    exact ⟨hE, hE, hE⟩
  · intro h400
    by_contra hne
    have hnot : ∀ x, (authenticate L up config r (getAuthBodyFromBasicAuth L)
        (s.Println [.str "Authenticating external user"])).2 ≠ .ok x := by
      intro x hx
      exact hne ⟨_, x, by rw [← hx]⟩
    rw [hstop.1 hnot] at h400
    rcases authenticate_caller_failed_code L up config r _ hw0 hnot with h | h | h
    · rw [h400] at h
      exact hc h.symm
    · rw [h400] at h; exact absurd h (by decide)
    · rw [h400] at h; exact absurd h (by decide)
  · intro h400
    by_contra hne
    have hnot : ∀ x, (authenticate L up config r (getAuthBodyFromBasicAuth L) s).2 ≠ .ok x := by
      intro x hx
      exact hne ⟨_, x, by rw [← hx]⟩
    rw [(hstop.2 hnot).1] at h400
    rcases authenticate_caller_failed_code L up config r s hw hnot with h | h | h
    · rw [h400] at h
      exact hc h.symm
    · rw [h400] at h; exact absurd h (by decide)
    · rw [h400] at h; exact absurd h (by decide)
  · intro h400
    by_contra hne
    have hnot : ∀ x, (authenticate L up config r (getAuthBodyFromBasicAuth L) s).2 ≠ .ok x := by
      intro x hx
      exact hne ⟨_, x, by rw [← hx]⟩
    rw [(hstop.2 hnot).2] at h400
    rcases authenticate_caller_failed_code L up config r s hw hnot with h | h | h
    · rw [h400] at h
      exact hc h.symm
    · rw [h400] at h; exact absurd h (by decide)
    · rw [h400] at h; exact absurd h (by decide)

/-- C30 on the sample upstreams, each time with the body `[bad_payload]`: without
credentials and with rejected credentials the answer is 401; with the credentials of
`alice` the update is answered 400, and her caller negotiation had succeeded. -/
theorem body_read_after_caller_negotiation_witness :
    St.fresh.w.wroteHeader = false ∧
    St.fresh.w.Code ≠ 400 ∧
    ({ BasicAuth := none, Body := .ok "[bad_payload]" } : Request).BasicAuth = none ∧
    (CreateResource sampleLib (APIClient sampleLib sampleUpstream) sampleConfig
      { BasicAuth := none, Body := .ok "[bad_payload]" } St.fresh).w.Code = 401 ∧
    (aliceRequest "[bad_payload]").BasicAuth = some ("alice", "pw") ∧
    sampleLib.NewRequest "POST" (callerTokenURL sampleLib sampleConfig) = none ∧
    (failingUpstream St.fresh.calls
      (passwordGrantRequest sampleLib sampleConfig "alice" "pw")).succeeded = false ∧
    (failingUpstream (St.fresh.calls ++ [(passwordGrantRequest sampleLib sampleConfig "alice" "pw",
        failingUpstream St.fresh.calls (passwordGrantRequest sampleLib sampleConfig "alice" "pw"))])
      (clientCredentialsRequest sampleLib sampleConfig "alice" "pw")).succeeded = false ∧
    (DeleteResource sampleLib (APIClient sampleLib failingUpstream) sampleConfig
      (aliceRequest "[bad_payload]") St.fresh).w.Code = 401 ∧
    (UpdateResource sampleLib (APIClient sampleLib sampleUpstream) sampleConfig
      (aliceRequest "[bad_payload]") St.fresh).w.Code = 400 ∧
    (∃ s1 x, authenticate sampleLib sampleUpstream sampleConfig (aliceRequest "[bad_payload]")
      (getAuthBodyFromBasicAuth sampleLib) St.fresh = (s1, .ok x)) :=
  ⟨rfl, by decide, rfl,
    ((body_read_after_caller_negotiation sampleLib sampleUpstream sampleConfig
      { BasicAuth := none, Body := .ok "[bad_payload]" } St.fresh rfl (by decide)).1 rfl).1,
    rfl, rfl, rfl, rfl,
    ((body_read_after_caller_negotiation sampleLib failingUpstream sampleConfig
      (aliceRequest "[bad_payload]") St.fresh rfl (by decide)).2.1 "alice" "pw" rfl rfl rfl
      rfl).2.2,
    rfl,
    (body_read_after_caller_negotiation sampleLib sampleUpstream sampleConfig
      (aliceRequest "[bad_payload]") St.fresh rfl (by decide)).2.2.2.1 rfl⟩

end IdpApi
